import Mathlib

set_option maxRecDepth 8192

/-! Shallow embedding of the `career-bible-2023` content repository: the two
theme-configuration objects (`src/theme.config.tsx` and the variant packaged
as `src/unnamed/part_009`), the MDX content corpus, and the small amount of
structural logic the specification attributes to the external
documentation-site renderer. -/

/-- The backtick character, referred to by code point. -/
def backquote : Char := Char.ofNat 96

/-- Drop at most `n` leading space characters from a line's characters (the
CommonMark-style renderer lets a fence or heading be indented by up to three
spaces). -/
def dropLeadingSpaces : Nat → List Char → List Char
  | 0, l => l
  | _ + 1, [] => []
  | n + 1, c :: cs => if c == ' ' then dropLeadingSpaces n cs else c :: cs

/-- A character list starts with three backticks. -/
def startsWithTripleBacktick : List Char → Bool
  | a :: b :: c :: _ => a == backquote && b == backquote && c == backquote
  | _ => false

/-- Fence-delimiter test on a raw source line: after at most three leading
spaces the line starts with three backticks. -/
def isFenceLine (l : String) : Bool :=
  startsWithTripleBacktick (dropLeadingSpaces 3 l.data)

/-- ATX-heading test on a raw source line: after at most three leading spaces
the line starts with a number sign. -/
def isHeadingLine (l : String) : Bool :=
  match dropLeadingSpaces 3 l.data with
  | c :: _ => c == '#'
  | [] => false

/-- A character list starts with three dashes. -/
def startsWithTripleDash : List Char → Bool
  | a :: b :: c :: _ => a == '-' && b == '-' && c == '-'
  | _ => false

/-- A document opens a frontmatter block when its first line begins with three
dashes. -/
def hasFrontmatter (doc : List String) : Bool :=
  match doc with
  | l :: _ => startsWithTripleDash l.data
  | [] => false

/-- Number of fence-delimiter lines in a document. -/
def fenceDelimiterCount (doc : List String) : Nat :=
  (doc.filter isFenceLine).length

/-- A document's code fences are balanced when its fence-delimiter lines pair
up, i.e. their count is even. -/
def fencesBalanced (doc : List String) : Bool :=
  fenceDelimiterCount doc % 2 == 0

/-- A title is derivable from a document when the document has a frontmatter
block or at least one heading line. -/
def hasTitleSource (doc : List String) : Bool :=
  hasFrontmatter doc || doc.any isHeadingLine

/-- A value stored in a theme-configuration object literal: a string literal,
a piece of JSX markup (recorded by its inner text), or a nested object literal
whose fields are strings. -/
inductive ConfigValue where
  | str : String → ConfigValue
  | markup : String → ConfigValue
  | obj : List (String × String) → ConfigValue
deriving DecidableEq

/-- The object literal exported by `src/theme.config.tsx`, field by field in
source order. The `logo` field's JSX `<span>` is recorded by its inner text. -/
def themeConfig : List (String × ConfigValue) := [
  ("logo", ConfigValue.markup "Literally everything I know by Doug Silkstone"),
  ("project", ConfigValue.obj [("link", "https://github.com/shuding/nextra-docs-template")]),
  ("chat", ConfigValue.obj [("link", "https://discord.com")]),
  ("docsRepositoryBase", ConfigValue.str "https://github.com/shuding/nextra-docs-template"),
  ("footer", ConfigValue.obj [("text", "Everything I know about shipping products.")])]

/-- The object literal exported by the configuration variant packaged as
`src/unnamed/part_009`, field by field in source order. -/
def part009Config : List (String × ConfigValue) := [
  ("logo", ConfigValue.markup "Practical Guides From A Self-Taught Technical Lead"),
  ("project", ConfigValue.obj [("link", "https://github.com/dougwithseismic/career-bible-2023")]),
  ("chat", ConfigValue.obj [("link", "https://twitter.com/dougiesilkstone")]),
  ("docsRepositoryBase", ConfigValue.str "https://github.com/dougwithseismic/career-bible-2023"),
  ("footer", ConfigValue.obj [("text", "A growing compendium of my career knowledge. Updated Weekly.")])]

/-- Look up a top-level field of a configuration object literal. -/
def lookupField (c : List (String × ConfigValue)) (k : String) : Option ConfigValue :=
  (c.find? (fun kv => kv.1 == k)).map (fun kv => kv.2)

/-- A top-level string field. -/
def getStrField (c : List (String × ConfigValue)) (k : String) : Option String :=
  match lookupField c k with
  | some (ConfigValue.str s) => some s
  | _ => none

/-- A top-level markup field, by its inner text. -/
def getMarkupField (c : List (String × ConfigValue)) (k : String) : Option String :=
  match lookupField c k with
  | some (ConfigValue.markup s) => some s
  | _ => none

/-- A top-level nested-object field. -/
def getObjField (c : List (String × ConfigValue)) (k : String) :
    Option (List (String × String)) :=
  match lookupField c k with
  | some (ConfigValue.obj o) => some o
  | _ => none

/-- A string field of a nested-object field. -/
def getSubField (c : List (String × ConfigValue)) (k sub : String) : Option String :=
  match getObjField c k with
  | some o => (o.find? (fun kv => kv.1 == sub)).map (fun kv => kv.2)
  | none => none

/-- The `project.link` field of a configuration object. -/
def projectLink (c : List (String × ConfigValue)) : Option String :=
  getSubField c "project" "link"

/-- The `chat.link` field of a configuration object. -/
def chatLink (c : List (String × ConfigValue)) : Option String :=
  getSubField c "chat" "link"

/-- The `footer.text` field of a configuration object. -/
def footerText (c : List (String × ConfigValue)) : Option String :=
  getSubField c "footer" "text"

/-- Whether a configuration object carries a `footer.text` string. -/
def hasFooterText (c : List (String × ConfigValue)) : Bool :=
  (footerText c).isSome

/-- Top-level field names of a configuration object, in source order. -/
def fieldNames (c : List (String × ConfigValue)) : List String :=
  c.map (fun kv => kv.1)

/-- Field names of a nested-object field, in source order. -/
def objFieldNames (c : List (String × ConfigValue)) (k : String) : Option (List String) :=
  match getObjField c k with
  | some o => some (o.map (fun kv => kv.1))
  | none => none

/-- One character list starts with another. -/
def startsWithChars : List Char → List Char → Bool
  | [], _ => true
  | _ :: _, [] => false
  | p :: ps, c :: cs => p == c && startsWithChars ps cs

/-- Modelled from the spec: the repository contains no URL validator (the spec
says link fields are "used verbatim, never validated against live endpoints"),
so the spec's "syntactically valid URL" is modelled as a string with an
explicit `http://` or `https://` scheme, a nonempty part after the scheme, and
no space characters. -/
def isValidUrl (s : String) : Bool :=
  (startsWithChars "https://".data s.data && decide ("https://".data.length < s.data.length)
      || startsWithChars "http://".data s.data && decide ("http://".data.length < s.data.length))
    && s.data.all (fun c => !(c == ' '))

/-- The structural validity check of spec §8.1 on a configuration object:
nonempty `logo` and `footer.text`, and syntactically valid `project.link`,
`chat.link` and `docsRepositoryBase` URLs. -/
def configWellFormed (c : List (String × ConfigValue)) : Bool :=
  (match getMarkupField c "logo" with
    | some t => !(t.data.isEmpty)
    | none => false)
    && (match footerText c with
      | some t => !(t.data.isEmpty)
      | none => false)
    && (match projectLink c with
      | some u => isValidUrl u
      | none => false)
    && (match chatLink c with
      | some u => isValidUrl u
      | none => false)
    && (match getStrField c "docsRepositoryBase" with
      | some u => isValidUrl u
      | none => false)

/-- A build environment for the configuration module, modelled as process
environment variables; the exported object is a closed literal and never
reads it. -/
def BuildEnv : Type := List (String × String)

/-- Evaluating the configuration module in a build environment: the module
body is the static literal `themeConfig`, so evaluation ignores the
environment and performs no effect. -/
def evalThemeConfigModule (_ : BuildEnv) : List (String × ConfigValue) :=
  themeConfig

/-- Replace the string field `sub` inside a nested-object value. -/
def setObjSubField (v : ConfigValue) (sub s : String) : ConfigValue :=
  match v with
  | ConfigValue.obj o =>
    ConfigValue.obj (o.map (fun kv => if kv.1 == sub then (kv.1, s) else kv))
  | v => v

/-- Replace the `footer.text` field of a configuration object by `s`. -/
def setFooterText (c : List (String × ConfigValue)) (s : String) :
    List (String × ConfigValue) :=
  c.map (fun kv => if kv.1 == "footer" then (kv.1, setObjSubField kv.2 "text" s) else kv)

/-- A page of the built site: its rendered content and its footer line. -/
structure RenderedPage where
  content : List String
  footerText : String
deriving DecidableEq

/-- Modelled from the spec: the external documentation-site generator (not
part of this repository) renders one page per content document; the page body
is the document and the footer shows the configuration's `footer.text`
verbatim. -/
def renderPage (c : List (String × ConfigValue)) (doc : List String) : RenderedPage :=
  { content := doc, footerText := (footerText c).getD "" }

/-- Modelled from the spec: the build step renders every content document
against the single configuration object. -/
def buildSite (c : List (String × ConfigValue)) (docs : List (List String)) :
    List RenderedPage :=
  docs.map (renderPage c)

/-- The characters of the content directory part of a page path. -/
def pagesDirChars : List Char := "pages/".data

/-- The characters of the content-file extension. -/
def mdxExtChars : List Char := ".mdx".data

/-- Modelled from the spec: the external renderer maps the file stored at
`pages/<relative>.mdx` to the site route `/<relative>` - the path relative to
the pages root with the extension removed. -/
def siteRoute (p : List Char) : List Char :=
  '/' :: (p.drop pagesDirChars.length).take
    ((p.drop pagesDirChars.length).length - mdxExtChars.length)

/-- The filesystem path of the content file for a route-relative name. -/
def pagePath (rel : List Char) : List Char :=
  pagesDirChars ++ rel ++ mdxExtChars

/-- The pages-root-relative names (without extension) of the named content
files of the repository, in directory order. -/
def namedPageRels : List (List Char) := [
  "advice-learned-the-hard-way/breaking-into-nontechnical-roles".data,
  "react-cheatsheets/next-js/dealing-with-vercel-vendor-lockin".data,
  "react-cheatsheets/patterns-worth-knowing/custom-hooks-and-react-query".data,
  "react-cheatsheets/patterns-worth-knowing/dx-first-state-management".data,
  "react-cheatsheets/patterns-worth-knowing/structuring-your-components".data,
  "react-cheatsheets/patterns-worth-knowing/utilizing-the-decorator-pattern".data,
  "react-cheatsheets/react-performance-debugging/lazy-loading-components-with-react-lazy".data,
  "react-cheatsheets/react-performance-debugging/offloading-to-web-workers".data,
  "react-cheatsheets/react-performance-debugging/optimizing-api-calls-with-useeffect-and-usecallback".data,
  "react-cheatsheets/react-performance-debugging/optimizing-context-api-with-memoization-and-context-splitting".data,
  "react-cheatsheets/react-performance-debugging/profiling-components-with-react-devtools".data,
  "react-cheatsheets/react-performance-debugging/suspense-and-concurrent-mode-in-react-18".data,
  "react-cheatsheets/using-passes/1-pass-one".data,
  "react-cheatsheets/using-passes/2-pass-two".data,
  "react-cheatsheets/using-passes/5-using-passes".data,
  "scraping-guide/advanced-css-selector-guide".data,
  "scraping-guide/collecting-paginated-data-easily".data,
  "scraping-guide/manipulate-dom-with-console-commands".data,
  "scraping-guide/puppeteer-crash-course".data,
  "scraping-guide/structuring-your-puppeteer-scrape".data]

/-- The content documents that contain neither a frontmatter block nor any
heading line. -/
def titleExceptions : List String := [
  "pages/react-cheatsheets/patterns-worth-knowing/custom-hooks-and-react-query.mdx",
  "pages/scraping-guide/collecting-paginated-data-easily.mdx",
  "pages/scraping-guide/structuring-your-puppeteer-scrape.mdx"]

/-- Lines of the source document at `pages/advice-learned-the-hard-way/breaking-into-nontechnical-roles.mdx` (verbatim, one string per line). -/
def doc_breaking_into_nontechnical_roles : List String := [
  "# Breaking into Non-Traditional Tech Roles: Avoiding the Coding Interview",
  "",
  "## Introduction",
  "",
  "In the rapidly evolving landscape of technology, the roles we once held as concrete have started to blur. The binary distinction between technical and non-technical positions is fading, paving the way for an era of hybrid roles. Whether it\x27s a solutions architect liaising between business needs and tech capabilities, a DevOps engineer integrating development and operations, or a product manager straddling the line between technology, user experience, and business strategy, these non-traditional roles demand a unique blend of skills.",
  "",
  "For seasoned developers with 15+ years of experience, this seismic shift presents an opportunity to leverage hard-earned technical skills while breaking the boundaries of the traditional developer role. In this cheatsheet, we\x27re going to explore these non-traditional paths and discuss how to land such roles without ever having to sit through another whiteboard coding interview. We\x27ll cover everything from understanding the importance of these roles, preparing for a smooth transition, to bypassing traditional coding interviews, and standing out as the top candidate. Let\x27s decode this together and open doors you never thought existed in your career.",
  "",
  "## 1: Why Seek Non-Traditional Roles in Tech?",
  "",
  "## Importance of Non-Traditional Roles in Tech: Why Talented Developers are Pivoting",
  "",
  "In today\x27s tech ecosystem, non-traditional roles are becoming increasingly pivotal. These positions often occupy the space where technology intersects with business, operations, or user experience, acting as crucial bridges that ensure seamless communication and integration across diverse teams. They combine the critical thinking of a developer with the broader perspectives needed to steer a product\x27s direction or to innovate within a company\x27s tech stack.",
  "",
  "For developers brimming with experience, the allure of these roles can be compelling. Perhaps the challenge of pure coding has lost its sheen, or maybe the lure of influencing broader business decisions has grown. Non-traditional roles provide the perfect opportunity to utilise years of technical expertise while venturing into new areas that can reshape your career path. Whether you\x27re seeking increased engagement, wider influence, or simply a breath of fresh air, these roles offer a stimulating avenue to broaden your horizons beyond the traditional confines of software development.",
  "",
  "**DOs**",
  "",
  "- _Do_ recognize the value you bring as a developer transitioning to a non-traditional role. Your knowledge can bridge the gap between technical and non-technical teams.",
  "- _Do_ be open to learning and exploring outside of your comfort zone. Diversifying your skills will only add to your value.",
  "",
  "**DON\x27Ts**",
  "",
  "- _Don\x27t_ be discouraged if you lack experience in non-traditional roles. Your technical background is a powerful asset.",
  "- _Don\x27t_ dismiss the importance of soft skills in these roles. Communication, leadership, and project management are critical in most non-traditional tech roles.",
  "",
  "**Analogies to Development**",
  "",
  "- Transitioning to a non-traditional role is like refactoring code: it can be a significant change, but it leverages the solid foundation already in place.",
  "- Consider the non-traditional role as a new function you\x27re writing. You\x27re not abandoning your previous code (skills), but instead utilizing them in a different context.",
  "",
  "**Quotes**",
  "",
  "- \"It\x27s not that we need new ideas, but we need to stop having old ideas.\" - Edwin Land, co-founder of Polaroid.",
  "- \"The future belongs to those who learn more skills and combine them in creative ways.\" - Robert Greene, Mastery.",
  "",
  "**Book Recommendations**",
  "",
  "- \"So Good They Can\x27t Ignore You\" by Cal Newport - a guide to crafting a meaningful career by building up skills rather than following passions.",
  "- \"Deep Work\" by Cal Newport - explores the importance and value of focused, uninterrupted work, a concept that applies well beyond traditional development roles.",
  "",
  "As an experienced developer, you bring a wealth of understanding and insights into any role you undertake. The key is recognizing the value of your skills and knowing how to apply them effectively in new contexts. Non-traditional roles in tech can offer fresh challenges and opportunities to leverage your strengths in novel ways.",
  "",
  "## The Coding Interview Conundrum: Issues and Drawbacks",
  "",
  "The traditional coding interview process has been a long-standing gatekeeper in tech hiring, yet it carries several glaring issues that make it a far cry from an ideal assessment tool. Its focus on algorithmic puzzles and data structures can often neglect other vital aspects of a developer\x27s skill set. Soft skills, such as communication, collaboration, and problem-solving, frequently take a back seat, despite their undeniable importance in a real-world development environment.",
  "",
  "Moreover, for seasoned developers with a wealth of experience, this process can feel reductionist. Years of hands-on experience, navigating complex projects and building scalable systems, can be reduced to a single algorithm puzzle. Acing these interviews often becomes more about rehearsing known problem types rather than demonstrating real-world coding expertise or strategic thinking.",
  "",
  "Hence, it\x27s no wonder that many experienced developers are looking to bypass this process. They seek roles that appreciate their broad skillset and respect the depth of their experience, without putting them through a coding examination largely disconnected from the realities of the job.",
  "",
  "### The Pitfalls of Traditional Coding Interviews",
  "",
  "1.  **Narrow Focus**: Coding interviews tend to focus on algorithmic and data structure problems, which represents only a fraction of what developers do in their jobs.",
  "    - _Don\x27t_ assume that acing these problems equates to being an effective developer.",
  "    - _Do_ remember that communication, collaboration, and practical problem-solving are equally, if not more, important.",
  "2.  **Stressful Environment**: Coding interviews often take place under stressful and artificial conditions, which is far from the everyday working environment.",
  "    - _Don\x27t_ equate your performance under pressure with your value as a developer.",
  "    - _Do_ seek opportunities to demonstrate your skills in more realistic settings, such as pair programming or project-based assessments.",
  "",
  "### Tips for Bypassing Traditional Coding Interviews",
  "",
  "1.  **Build a Strong Portfolio**: A comprehensive portfolio that showcases your abilities can often speak louder than any interview.",
  "    - _Do_ include a range of projects that demonstrate your breadth and depth of experience.",
  "    - _Don\x27t_ neglect to document your thought process, challenges faced, and how you overcame them.",
  "2.  **Networking**: Building strong professional relationships can often open doors that bypass traditional coding interviews.",
  "    - _Do_ engage with the tech community, contribute to open-source projects, or attend networking events.",
  "    - _Don\x27t_ underestimate the power of a strong recommendation.",
  "",
  "### Recommended Resources",
  "",
  "- Book: _Cracking the Coding Interview_ by Gayle Laakmann McDowell - Although this book is designed to prepare for traditional coding interviews, understanding the content can give you a clear idea of what to avoid.",
  "- Book: _Soft Skills: The Software Developer\x27s Life Manual_ by John Z. Sonmez - This book focuses on the other critical aspects of being a successful developer, which are often overlooked in coding interviews.",
  "- Website: [Pramp](https://www.pramp.com/) - This platform offers free mock interviews for software engineers. Use it to understand the traditional process and hence, what to avoid.",
  "- Website: [GitHub](https://github.com/) - Building your portfolio and contributing to open-source projects.",
  "",
  "### Actionable Insight",
  "",
  "Invest time in the aspects of your career that bring you fulfillment and exhibit your true skills as a developer. Master the art of showcasing your work and communicating your expertise effectively. Networking is as much a skill as coding; nurture your professional relationships. Understand that your worth as a developer isn\x27t confined to a whiteboard coding session.",
  "",
  "### Building Skills for Non-Traditional Roles",
  "",
  "1. **Continuous Learning**: To step into non-traditional roles, constantly upgrading your skills is vital.",
  "",
  "   - _Do_ invest in learning beyond coding - like project management, data analysis, business development, or UX design.",
  "   - _Don\x27t_ stop at acquiring a new skill. Ensure to put it to practical use.",
  "",
  "2. **Side Projects**: Engage in projects outside of your typical work to build and demonstrate new skills.",
  "",
  "   - _Do_ consider open-source contributions, freelance gigs, or personal projects.",
  "   - _Don\x27t_ underestimate any project. Even small-scale work can exhibit significant skills.",
  "",
  "3. **Mentorship**: Seek mentorship opportunities, either as a mentor or a mentee.",
  "   - _Do_ share your experiences and knowledge with others, or learn from the journey of seasoned professionals.",
  "   - _Don\x27t_ neglect the power of networking that comes along with mentorship.",
  "",
  "### Leveraging Coding Experience",
  "",
  "1. **Problem-Solving**: A developer\x27s problem-solving skill is a valuable asset in any role.",
  "",
  "   - _Do_ use these skills to improve processes, develop strategies, or optimise operations in your new role.",
  "   - _Don\x27t_ forget to highlight this ability when making your case for a non-traditional role.",
  "",
  "2. **Technical Insight**: Developers bring a valuable technical perspective to any team.",
  "   - _Do_ leverage your coding background to bridge the gap between technical and non-technical team members.",
  "   - _Don\x27t_ shy away from using your technical knowledge, even if your new role isn\x27t coding-centric.",
  "",
  "### Recommended Resources",
  "",
  "- Book: _The Pragmatic Programmer: Your Journey To Mastery_ by Andrew Hunt and David Thomas - This book offers insights into various aspects of software development that are transferable to non-traditional roles.",
  "- Book: _The Lean Startup_ by Eric Ries - Understanding startup methodology can open doors to many non-traditional tech roles.",
  "- Website: [Coursera](https://www.coursera.org/) - Online courses on a range of subjects can help you acquire new skills.",
  "- Website: [LinkedIn Learning](https://www.linkedin.com/learning/) - An array of professional courses can aid in your journey to a non-traditional role.",
  "",
  "### Actionable Insight",
  "",
  "Think outside the box of traditional coding roles. Look at your skill set holistically, beyond coding. Pursue continuous learning and always seek to apply new knowledge. Realize the value of your unique combination of skills and use it as a strength in your pursuit of non-traditional tech roles.",
  "",
  "### Positioning Yourself for Non-Traditional Roles",
  "",
  "1. **Leveraging Your Coding Expertise**: As an experienced developer, your technical knowledge is a unique selling point. Frame this skill in a way that resonates with non-traditional roles.",
  "",
  "   - _Do_ highlight how your understanding of software development can be applied to roles like Technical Project Management, DevOps or Solution Architecture.",
  "   - _Don\x27t_ solely focus on coding languages or frameworks; emphasize your problem-solving ability, data analysis skills, or your knack for debugging and troubleshooting.",
  "",
  "2. **Communicating Your Impact**: Demonstrate the tangible outcomes you\x27ve achieved in your previous roles.",
  "   - _Do_ quantify your results, i.e., code optimization that increased application performance by 40%, or how you automated a workflow that saved 20 hours per week.",
  "   - _Don\x27t_ just mention your achievements; connect them with your team or company\x27s success.",
  "",
  "### Creating a Standout Resume and LinkedIn Profile",
  "",
  "1. **Resumes That Speak Volumes**: Your resume should demonstrate your multifaceted skill set and reflect your potential as a non-traditional tech professional.",
  "",
  "   - _Do_ include specific projects or roles where you\x27ve taken on responsibilities outside of pure coding. Show where you\x27ve had cross-functional impacts.",
  "   - _Don\x27t_ cram your resume with every tech stack you\x27ve dabbled in. Prioritize depth over breadth.",
  "",
  "2. **Leveraging LinkedIn**: Make LinkedIn work for you by actively participating in relevant groups or discussions. This platform is not just an online CV, but also a place to exhibit your understanding and insights.",
  "   - _Do_ post about your projects and share your thoughts on tech trends. This is your opportunity to be visible to a broader network.",
  "   - _Don\x27t_ neglect the importance of engaging with others\x27 posts. Support your peers and gain visibility in the process.",
  "",
  "### Recommended Resources",
  "",
  "- Book: _Rework_ by Jason Fried and David Heinemeier Hansson \u2013 A brilliant read on rethinking work to do less and create more.",
  "- Website: [Medium](https://medium.com/) - Follow tech thought leaders and join conversations on trending tech topics.",
  "",
  "### Actionable Insight",
  "",
  "Step out of the developer shoes and look at your skillset from a broader perspective. How do your problem-solving abilities, understanding of software architecture, or experience with agile methodologies translate to non-traditional tech roles? Present this narrative in your resume and on LinkedIn. Engage in discussions on trends and topics that interest you, establishing yourself as a thought leader within your network.",
  "",
  "## Positioning Yourself for Non-Traditional Roles",
  "",
  "- How to present your experience in a compelling way",
  "- Tips for creating a standout resume and LinkedIn profile",
  "",
  "### Making Your Experience Compelling",
  "",
  "1. **Align Your Narrative**: The tech industry values experience that\x27s relevant and adds value to the role.",
  "",
  "   - _Do_ tailor your narrative to highlight the projects and roles where you\x27ve used relevant skills or solved similar problems.",
  "   - _Don\x27t_ merely list your past roles and responsibilities. Instead, focus on the challenges you overcame and the value you added.",
  "",
  "2. **Showcase Your Strengths**: Your technical background is a strength, not a weakness. Use it to your advantage.",
  "   - _Do_ highlight projects where your coding skills enabled you to contribute in non-traditional ways.",
  "   - _Don\x27t_ downplay your technical skills. They provide a unique perspective that can be valuable in non-traditional roles.",
  "",
  "### Creating a Standout Resume and LinkedIn Profile",
  "",
  "1. **Focus on Impact**: In your resume and LinkedIn profile, it\x27s crucial to not only list what you did but also show the impact of your work.",
  "",
  "   - _Do_ use numbers, metrics, or specific achievements to demonstrate the value you\x27ve added.",
  "   - _Don\x27t_ use generic descriptions or industry jargon. Instead, use clear, concise language to describe your accomplishments.",
  "",
  "2. **Tailor Your Application**: For each application, tailor your resume and LinkedIn profile to the job description.",
  "   - _Do_ highlight the most relevant skills, experiences, and achievements for each role.",
  "   - _Don\x27t_ send a generic resume or LinkedIn connection request. A tailored application shows that you\x27re seriously interested in the role.",
  "",
  "### Recommended Resources",
  "",
  "- Book: _Knock \x27em Dead Resumes: How to Write a Killer Resume That Gets You Job Interviews_ by Martin Yate. It offers practical tips to make your resume stand out.",
  "- Website: [LinkedIn](https://www.linkedin.com) - Apart from your own profile, check out profiles of people in roles similar to the one you\x27re seeking. This can give you a sense of what skills and experiences to highlight.",
  "",
  "### Actionable Insight",
  "",
  "Your past experiences and technical background are unique strengths. Align your narrative, showcase your strengths, and focus on the impact of your work. Tailor your resume and LinkedIn profile to each role to present a compelling case for your candidacy.",
  "",
  "## Acing the Non-Traditional Interview",
  "",
  "- Preparing for interviews for non-traditional roles",
  "- Tips and strategies for successful interviews",
  "",
  "### Preparation: Your First Step to Success",
  "",
  "1. **Understand the Role**: For non-traditional roles, job descriptions can be vague or broad.",
  "",
  "   - _Do_ reach out to people in similar roles, ask clarifying questions to the interviewer, and thoroughly research the company\x27s work and culture.",
  "   - _Don\x27t_ go into an interview without a clear understanding of what the job entails.",
  "",
  "2. **Align Your Experience**: Non-traditional roles often require a unique blend of skills.",
  "   - _Do_ identify instances in your career where you\x27ve used a similar skillset and prepare to speak about those experiences.",
  "   - _Don\x27t_ undersell your technical background; it\x27s a strength, not a liability.",
  "",
  "### Strategies for Successful Interviews",
  "",
  "1. **Show Your Passion**: In non-traditional roles, enthusiasm for the subject matter can often be as important as technical skills.",
  "",
  "   - _Do_ talk about your personal projects, learning experiences, and your motivation for applying to this role.",
  "   - _Don\x27t_ be afraid to show your excitement for the job; passion can often be a deciding factor.",
  "",
  "2. **Focus on Problem-Solving**: Many non-traditional roles involve a level of problem-solving that goes beyond algorithms and data structures.",
  "   - _Do_ illustrate your problem-solving process with examples from past experiences.",
  "   - _Don\x27t_ get bogged down in technical jargon; focus on your problem-solving methodology and how you\x27d apply it in the new role.",
  "",
  "### Recommended Resources",
  "",
  "- Book: _Cracking the Coding Interview_ by Gayle Laakmann McDowell - While aimed at coding interviews, this book provides excellent tips on problem-solving and communication, which are valuable for non-traditional roles too.",
  "- Website: [Glassdoor](https://www.glassdoor.com/index.htm) - A treasure trove of interview experiences and company reviews that can give you insights into what to expect.",
  "",
  "### Actionable Insight",
  "",
  "Invest time in understanding the role you\x27re applying to and aligning your past experiences. Show your enthusiasm for the role and demonstrate your problem-solving skills during the interview. Remember, your technical background is a strength and it provides you a unique perspective. Leverage it to your advantage.",
  "",
  "## Networking and Building Relationships",
  "",
  "- Importance of networking in tech",
  "- How to build relationships that can lead to non-traditional roles",
  "",
  "### Networking in Tech: Your Golden Key",
  "",
  "1. **Understand the Power of Networking**: Networking is the lifeline in the tech industry, opening doors and presenting opportunities.",
  "",
  "   - _Do_ attend tech conferences, meetups, webinars, and forums that resonate with your career aspirations.",
  "   - _Don\x27t_ underestimate the value of informal settings for networking like social events or online communities.",
  "",
  "2. **Maintain Active Participation**: Being present isn\x27t enough; active participation is key.",
  "   - _Do_ involve yourself in discussions, ask insightful questions, or volunteer to present at events.",
  "   - _Don\x27t_ just passively attend meetings or gatherings; show your involvement and enthusiasm.",
  "",
  "### Building Relationships for the Future",
  "",
  "1. **Cultivate Meaningful Relationships**: Building relationships is a lot more than exchanging business cards or LinkedIn connections.",
  "",
  "   - _Do_ follow up with the people you meet, express interest in their work, and seek ways to help or collaborate.",
  "   - _Don\x27t_ approach relationships purely with an expectation of a return favour; authenticity is key.",
  "",
  "2. **Leverage Online Platforms**: Virtual networking platforms are a boon, especially for connecting with international tech professionals.",
  "   - _Do_ engage in tech forums like GitHub, Stack Overflow, or tech-specific Slack and Discord communities.",
  "   - _Don\x27t_ refrain from reaching out to people whose work you admire; most tech professionals are more approachable than you\x27d think.",
  "",
  "### Recommended Resources",
  "",
  "- Book: _Never Eat Alone_ by Keith Ferrazzi \u2013 A fantastic read on developing and maintaining your professional network.",
  "- Website: [Eventbrite](https://www.eventbrite.com/) - A great platform to discover tech events and webinars to meet like-minded professionals.",
  "",
  "### Actionable Insight",
  "",
  "Identify networking events that align with your career direction and actively participate. Make it a habit to follow up with connections made during these events. Engage in online tech communities and don\x27t hesitate to reach out to people who inspire you. Building these relationships with a genuine interest can be instrumental in steering your career towards non-traditional tech roles.",
  "",
  "## Acing the Non-Traditional Interview",
  "",
  "- Preparing for interviews for non-traditional roles",
  "- Tips and strategies for successful interviews",
  "",
  "### Preparing for Non-Traditional Interviews",
  "",
  "1. **Research, Research, Research**: The more you know about the company, its values, and its mission, the better prepared you\x27ll be.",
  "",
  "   - _Do_ thorough research on the company\x27s website, recent news articles, and social media profiles.",
  "   - _Don\x27t_ rely solely on what the job description says. The company\x27s culture, values, and current goals are just as important.",
  "",
  "2. **Practice Problem-Solving Scenarios**: Non-traditional roles often require skills that aren\x27t easily assessed by typical coding problems.",
  "   - _Do_ practice problem-solving in areas relevant to the role, like product design, project management, or data analysis.",
  "   - _Don\x27t_ neglect your technical skills. Be ready to explain how your technical background informs your approach to these problems.",
  "",
  "### Tips and Strategies for Successful Interviews",
  "",
  "1. **Show Your Thought Process**: In your responses, show how you approach and solve problems.",
  "",
  "   - _Do_ walk interviewers through your thought process, explaining the steps you take to reach a solution.",
  "   - _Don\x27t_ give short, closed-off answers. The goal is to demonstrate your problem-solving skills, not just to provide the correct answer.",
  "",
  "2. **Ask Insightful Questions**: Asking good questions shows that you\x27re genuinely interested in the role and have done your homework.",
  "   - _Do_ ask questions about the company culture, the team, the role, and the challenges the company is currently facing.",
  "   - _Don\x27t_ ask questions that can easily be answered by a quick Google search.",
  "",
  "### Recommended Resources",
  "",
  "- Book: _Cracking the Coding Interview_ by Gayle Laakmann McDowell. Although it\x27s focused on coding interviews, many of its strategies are relevant for non-traditional roles.",
  "- Website: [Glassdoor](https://www.glassdoor.com/index.htm) - Look for interview experiences shared by people who applied for similar roles at the company you\x27re interested in.",
  "",
  "### Actionable Insight",
  "",
  "Success in non-traditional interviews comes from thorough preparation, practising problem-solving, demonstrating your thought process, and asking insightful questions. Your technical background is a unique strength - don\x27t forget to leverage it in your responses.",
  "",
  "## Conclusion",
  "",
  "Transitioning to non-traditional roles in the tech industry can present an exciting new chapter in your career. For developers who have honed their skills over many years, stepping out of the traditional development role can provide fresh challenges and opportunities.",
  "",
  "**Do\x27s**",
  "",
  "- Do keep an open mind. Transitioning into a non-traditional role can seem daunting at first, but many roles allow you to utilise your coding skills in new and innovative ways.",
  "- Do leverage your existing skills and experience. The critical thinking, problem-solving, and technical skills you\x27ve developed in your career so far will serve you well in non-traditional roles.",
  "- Do invest time in personal branding. How you present yourself online, through your resume and LinkedIn profile, can greatly influence your chances of success in securing a non-traditional role.",
  "- Do prepare for non-traditional interviews. They might be different from what you\x27re used to, but with the right preparation, you can excel.",
  "- Do keep learning. The tech industry is always evolving, and keeping your skills up-to-date is key to remaining competitive.",
  "",
  "**Don\x27ts**",
  "",
  "- Don\x27t be deterred by the challenge. Transitioning into a non-traditional role might seem difficult at first, but perseverance and a willingness to adapt will go a long way.",
  "- Don\x27t undersell your abilities. Your years of experience and skill set make you a highly valuable candidate for a variety of roles.",
  "- Don\x27t forget about networking. Building connections can open doors to opportunities you might not otherwise have known about.",
  "- Don\x27t give up if you face rejection. It\x27s part and parcel of any job search. Use it as a learning experience and keep going.",
  "",
  "So to the seasoned developer, ready for a new journey: embrace the possibilities. Your expertise, tenacity, and passion for technology make you well equipped to navigate this new landscape. Go forth, and make your mark.",
  ""]

/-- Lines of the source document at `pages/react-cheatsheets/next-js/dealing-with-vercel-vendor-lockin.mdx` (verbatim, one string per line). -/
def doc_dealing_with_vercel_vendor_lockin : List String := [
  "# Dealing with Vercel Lock-in: An Advanced Guide",
  "",
  "## 1. Introduction to Vendor Lock-in: Not All Bonds are Eternal",
  "",
  "Vendor lock-in isn\u2019t inherently a terrible thing, despite its nefarious reputation. The idea is that you become dependent on a vendor\x27s product or service and find it difficult to transition to a different vendor without substantial cost, inconvenience, or risk. This isn\x27t just about cost, it\x27s about the potential risks to your project\x27s stability and your team\x27s productivity.",
  "",
  "As an experienced technical lead, you know this isn\x27t uncommon in our industry. You\x27ve seen your fair share of technologies come and go, each with its promises of seamless integration and developer experience. The reality is that every tech decision carries potential risks and rewards. Vercel, with its close integration to Next.js, isn\u2019t an exception.",
  "",
  "Here\u2019s an example: Let\x27s say you\x27re leveraging Vercel\x27s serverless functions for some business logic, using a simple code snippet like this:",
  "",
  "\x60\x60\x60javascript",
  "// api/hello.ts",
  "export default function handler(req, res) \x7b",
  "  res.status(200).json(\x7b text: \"Hello\" \x7d);",
  "\x7d",
  "\x60\x60\x60",
  "",
  "This feature simplifies your process, removes the need to set up server infrastructure, and handles your scaling needs. That\u2019s the upside, and it\x27s huge. The downside? You\u2019re now committed to a specific architecture. Moving away means refactoring your codebase to an alternate solution like AWS Lambda or Google Cloud Functions.",
  "",
  "#### Do\x27s:",
  "",
  "- Thoroughly evaluate the pros and cons of locking into a specific service like Vercel.",
  "- Plan your escape route in advance. Look at how much of your codebase is dependent on Vercel specific features and what it would take to decouple it.",
  "",
  "#### Don\x27ts:",
  "",
  "- Don\u2019t put all your eggs in one basket without a backup plan. Vendor lock-in can lead to price hikes, discontinuation of services, and more.",
  "- Don\x27t assume that the vendor\x27s roadmap aligns with yours. Keep an eye on their updates and make sure they don\x27t disrupt your workflow.",
  "",
  "An important case study to consider here is that of Parse, a mobile backend platform acquired by Facebook. Despite its popularity and wide usage, Facebook unexpectedly announced Parse\x27s shutdown in 2016, leaving developers with a year to migrate their apps off the platform. Those heavily locked into Parse faced a significant challenge migrating to other services or self-hosting options. It\x27s a stark reminder that even popular platforms can undergo dramatic changes.",
  "",
  "In the next section, we\x27ll dig deeper into the specific benefits of Vercel and Next.js integration, and why these might sway you to embrace the comfort of Vercel\x27s warm embrace... at least for a while.",
  "",
  "## 2. The Allure of Vercel: When Convenience Steers the Wheel",
  "",
  "Vercel\x27s popularity among developers isn\x27t accidental. It provides a phenomenal developer experience, a close-knit integration with Next.js, and some pretty nifty features that save time and effort. But as we all know, there\x27s no free lunch in tech.",
  "",
  "Here are some of the key Vercel features that you might have grown attached to, and how they can shape your transition decision.",
  "",
  "### 2.1 Next.js Integration",
  "",
  "Vercel is built by the same team behind Next.js, so the integration is as seamless as it gets. This could be seen as both a boon and a curse. While it does provide an excellent developer experience, it also means that some Next.js features are Vercel-specific.",
  "",
  "For instance, the Next.js Image component, used for optimizing images, works out of the box only on Vercel.",
  "",
  "\x60\x60\x60tsx",
  "// components/MyComponent.tsx",
  "import Image from \"next/image\";",
  "",
  "export const MyComponent = () => (",
  "  <Image src=\"/me.png\" alt=\"Picture of the author\" width=\x7b500\x7d height=\x7b500\x7d />",
  ");",
  "\x60\x60\x60",
  "",
  "#### Do\x27s:",
  "",
  "- Use Next.js\x27 built-in components and Vercel\x27s platform features to speed up development time.",
  "- Regularly review the dependencies and ties your project has with Vercel.",
  "",
  "#### Don\x27ts:",
  "",
  "- Don\x27t neglect exploring alternatives for built-in features, like \x60next/image\x60, to keep your options open.",
  "- Don\x27t ignore the trade-offs between convenience and flexibility.",
  "",
  "### 2.2 Vercel\x27s Serverless Functions",
  "",
  "Vercel\x27s serverless functions are straightforward to use and well-integrated into the Next.js ecosystem. This might make you hesitate before moving to another platform. An example of a serverless function written in TypeScript could be:",
  "",
  "\x60\x60\x60tsx",
  "// pages/api/hello.ts",
  "import type \x7b NextApiRequest, NextApiResponse \x7d from \"next\";",
  "",
  "export default function handler(req: NextApiRequest, res: NextApiResponse) \x7b",
  "  res.status(200).json(\x7b name: \"John Doe\" \x7d);",
  "\x7d",
  "\x60\x60\x60",
  "",
  "#### Do\x27s:",
  "",
  "- Leverage Vercel\x27s serverless functions to keep your setup simple and focus on feature development.",
  "- Investigate alternatives like AWS Lambda or Cloud Functions for a potential switch.",
  "",
  "#### Don\x27ts:",
  "",
  "- Don\x27t assume that moving serverless functions to another platform will be a simple task. It will require time and resources.",
  "- Don\x27t underestimate the effort needed to replicate Vercel\x27s smooth developer experience elsewhere.",
  "",
  "In the next section, we\x27ll turn our gaze towards the horizon and explore the possibilities and strategies for breaking free from Vercel\x27s grip when the time comes.",
  "",
  "## 3. Steering Away: Exploring Alternative Paths",
  "",
  "No single solution fits all circumstances. It\x27s crucial to maintain a degree of flexibility when it comes to infrastructure choices. While Vercel offers excellent features, it\x27s beneficial to familiarize oneself with the alternatives, should a shift be necessary in the future.",
  "",
  "### 3.1 Replacing \x60next/image\x60",
  "",
  "Next.js\x27 \x60Image\x60 component is tightly coupled with Vercel. However, alternatives like \x60react-optimized-image\x60 can be a viable option for image optimization when moving away from Vercel.",
  "",
  "\x60\x60\x60tsx",
  "// components/MyComponent.tsx",
  "import \x7b Img \x7d from \"react-optimized-image\";",
  "",
  "import MyImage from \"../public/me.jpg\";",
  "",
  "export const MyComponent = () => <Img src=\x7bMyImage\x7d webp />;",
  "\x60\x60\x60",
  "",
  "#### Case Study",
  "",
  "During a recent migration from Vercel to Netlify, a team had to replace \x60next/image\x60 to optimize their images. They used \x60react-optimized-image\x60 and found the transition relatively smooth.",
  "",
  "#### Do\x27s:",
  "",
  "- Start using alternatives in a non-critical part of your application to evaluate their effectiveness.",
  "- Keep performance and the user experience as your guiding principles when choosing an alternative.",
  "",
  "#### Don\x27ts:",
  "",
  "- Don\x27t rush the migration process. Take your time to assess alternatives and their implications.",
  "",
  "### 3.2 Serverless Functions",
  "",
  "Shifting serverless functions from Vercel to another provider requires some effort, as each platform has its nuances. Let\x27s take AWS Lambda as an example:",
  "",
  "\x60\x60\x60tsx",
  "// handler.ts",
  "import \x7b APIGatewayProxyHandler \x7d from \"aws-lambda\";",
  "",
  "export const handler: APIGatewayProxyHandler = async (event) => \x7b",
  "  return \x7b",
  "    statusCode: 200,",
  "    body: JSON.stringify(\x7b",
  "      message: \"Hello from Lambda!\",",
  "    \x7d),",
  "  \x7d;",
  "\x7d;",
  "\x60\x60\x60",
  "",
  "When moving from Vercel to AWS, you might find that while AWS provided them with more control and flexibility, it also requires more setup and configuration compared to Vercel\x27s serverless functions.",
  "",
  "#### Do\x27s:",
  "",
  "- Thoroughly research the chosen alternative to avoid unexpected surprises.",
  "- Invest time in understanding the nuances of the new serverless platform.",
  "",
  "#### Don\x27ts:",
  "",
  "- Don\x27t ignore the learning curve and setup effort required to migrate serverless functions.",
  "",
  "While there\x27s undoubtedly some work involved in moving away from Vercel, the above strategies and alternatives can guide you to maintain a good balance between developer experience, performance, and flexibility.",
  "",
  "## 4. Exploring the Potential Risks of Vercel Lock-In",
  "",
  "As a well-versed technical lead, it\x27s critical to understand the implications of committing too heavily to a particular platform like Vercel. Let\x27s review some potential pitfalls to be aware of and how to address them in your conversations with stakeholders.",
  "",
  "### 4.1 Proprietary Features",
  "",
  "Vercel offers an array of proprietary features, including \x60next/image\x60, Analytics, and Edge Functions. These functionalities are an integral part of the Vercel platform and may not be directly available on other platforms if you choose to migrate.",
  "",
  "\x60\x60\x60tsx",
  "// example of Vercel Edge Function",
  "export async function getEdgeProps() \x7b",
  "  return \x7b props: \x7b\x7d \x7d;",
  "\x7d",
  "\x60\x60\x60",
  "",
  "**Navigating the Conversation**",
  "",
  "- Highlight the specific advantages that proprietary Vercel features bring to your project. You might say, \"Edge Functions have enabled us to deliver personalised user experiences efficiently.\"",
  "- Acknowledge the challenges of replacing these features on a new platform. A candid conversation might include, \"If we were to move away from Vercel, we\x27d need to find or create alternatives to these proprietary features. It\x27s doable but requires resources and time.\"",
  "",
  "### 4.2 Migration Costs",
  "",
  "Shifting to a different platform carries hidden costs. These include time spent by developers, potential for service disruptions during the transition, and the initial setup and learning curve associated with the new environment.",
  "",
  "**Navigating the Conversation**",
  "",
  "- Acknowledge the financial and temporal aspects of migration. You could say, \"Migrating away from Vercel involves more than just setup costs. We also have to consider the time needed for our team to familiarise with the new environment.\"",
  "- Raise potential service disruptions during the transition as a risk factor. Frame it as, \"We need to prepare for potential downtime during the migration, and strategise to minimise any impact on our users.\"",
  "",
  "A firm understanding of these risks allows you to provide clear insights to your team and higher-ups. It helps you outline the reasons for sticking with Vercel or alternatively, making the leap to a new platform.",
  "",
  "## 5. Alternatives to Vercel",
  "",
  "There\x27s a myriad of alternatives to hosting your Next.js applications. Each offers a unique blend of features and challenges. Let\x27s delve into the intricacies of self-hosting and other platforms available in the market.",
  "",
  "### 5.1 Self-Hosting Next.js",
  "",
  "Self-hosting Next.js is a viable option. It offers the flexibility of controlling every aspect of your hosting environment, but it\x27s not without its challenges.",
  "",
  "## **1. Setting up a Node.js server**",
  "",
  "First, you\x27ll need to setup a Node.js server. The \x27http\x27 module is a native module in Node.js that allows you to spin up a server with relative ease.",
  "",
  "\x60\x60\x60tsx",
  "// server.js",
  "import \x7b createServer \x7d from \"http\";",
  "import next from \"next\";",
  "",
  "const dev = process.env.NODE_ENV !== \"production\";",
  "const app = next(\x7b dev \x7d);",
  "const handle = app.getRequestHandler();",
  "",
  "app.prepare().then(() => \x7b",
  "  createServer((req, res) => \x7b",
  "    handle(req, res);",
  "  \x7d).listen(3000, (err) => \x7b",
  "    if (err) throw err;",
  "    console.log(\"> Ready on http://localhost:3000\");",
  "  \x7d);",
  "\x7d);",
  "\x60\x60\x60",
  "",
  "**Do\x27s**",
  "",
  "- Make sure to handle all requests with the request handler from Next.js. It will take care of routing, server-side rendering and much more for you.",
  "- Always check for errors and handle them accordingly.",
  "",
  "**Don\x27ts**",
  "",
  "- Do not forget to call \x60app.prepare()\x60 before creating your server. This ensures that your Next.js application is ready to handle incoming requests.",
  "",
  "## **2. Routing**",
  "",
  "Next.js comes with built-in routing based on your file structure. However, in self-hosted environment, you have to handle server-side routing yourself using the request handler.",
  "",
  "\x60\x60\x60tsx",
  "// Continuing from the previous code block...",
  "app.prepare().then(() => \x7b",
  "  createServer((req, res) => \x7b",
  "    // Custom routing logic here",
  "    if (req.url === \x27/my-custom-route\x27) \x7b",
  "      app.render(req, res, \x27/my-page\x27, req.query);",
  "    \x7d else \x7b",
  "      handle(req, res);",
  "    \x7d",
  "  \x7d)//...",
  "\x60\x60\x60",
  "",
  "**Do\x27s**",
  "",
  "- Use \x60app.render(req, res, \x27/path\x27, query)\x60 to handle your custom routing logic.",
  "",
  "**Don\x27ts**",
  "",
  "- Don\x27t forget to handle other requests with the default request handler.",
  "",
  "## **3. Serving static files**",
  "",
  "In a self-hosted environment, serving static files such as images or stylesheets needs to be handled manually. You could use the \x27express\x27 library and its \x60express.static\x60 middleware.",
  "",
  "\x60\x60\x60tsx",
  "// server.js",
  "import express from \"express\";",
  "import next from \"next\";",
  "",
  "const dev = process.env.NODE_ENV !== \"production\";",
  "const app = next(\x7b dev \x7d);",
  "const handle = app.getRequestHandler();",
  "",
  "app.prepare().then(() => \x7b",
  "  const server = express();",
  "",
  "  // Serve static files from the /public folder",
  "  server.use(\"/public\", express.static(\"public\"));",
  "",
  "  server.all(\"*\", (req, res) => handle(req, res));",
  "",
  "  server.listen(3000, (err) => \x7b",
  "    if (err) throw err;",
  "    console.log(\"> Ready on http://localhost:3000\");",
  "  \x7d);",
  "\x7d);",
  "\x60\x60\x60",
  "",
  "**Do\x27s**",
  "",
  "- Serve static files using \x27express.static\x27 middleware. It simplifies the process significantly.",
  "",
  "**Don\x27ts**",
  "",
  "- Do not use \x60express.static\x60 to serve files from the .next folder, Next.js already handles this for you.",
  "",
  "**Navigating the Conversation**",
  "",
  "- Discuss the direct control that self-hosting offers, \"By self-hosting, we have complete control over our infrastructure. It might involve more setup, but it provides us with flexibility.\"",
  "- Highlight the challenges of server setup, maintenance, and scaling. Say, \"Self-hosting would require us to handle the server setup, security, and scalability ourselves, which can be time-consuming and requires specialized knowledge.\"",
  "",
  "### 5.2 Other Hosting Platforms",
  "",
  "Aside from self-hosting, there are many other platforms such as Netlify, AWS Amplify, and Firebase that support Next.js.",
  "",
  "\x60\x60\x60tsx",
  "// Deploying to Netlify with a netlify.toml file",
  "[build];",
  "command = \"yarn build\";",
  "publish = \"out\"[[redirects]];",
  "from = \"/*\";",
  "to = \"/index.html\";",
  "status = 200;",
  "\x60\x60\x60",
  "",
  "**Navigating the Conversation**",
  "",
  "- Discuss the unique advantages of other hosting platforms. State, \"Platforms like Netlify offer pre-rendering out of the box. They also have features like serverless functions that could replace Vercel\x27s proprietary offerings.\"",
  "- Talk about the potential learning curve, \"Switching to a new platform would require our team to learn their ecosystem, and potentially, new ways of working.\"",
  "",
  "In the end, the choice to move away from Vercel is a strategic one, involving trade-offs between features, flexibility, costs, and team familiarity. Your understanding of these alternatives and potential challenges can facilitate an informed discussion among your peers and stakeholders.",
  "",
  "## Strategies for Reducing Vendor Lock-In",
  "",
  "### 1. Use Microservices Architecture",
  "",
  "Microservices architecture gives you the flexibility to use different technologies for different services. As such, it\x27s an effective strategy to minimize vendor lock-in.",
  "",
  "\x60\x60\x60tsx",
  "// Instead of a monolithic structure, split your codebase into smaller services.",
  "// Service A could be a Next.js app hosted on Vercel...",
  "// service-a/pages/api/hello.js",
  "export default (req, res) => \x7b",
  "  res.status(200).json(\x7b message: \"Hello from Service A!\" \x7d);",
  "\x7d;",
  "",
  "// ...while Service B could be a Node.js app hosted elsewhere.",
  "// service-b/index.js",
  "const express = require(\"express\");",
  "const app = express();",
  "const port = 3000;",
  "",
  "app.get(\"/\", (req, res) => res.send(\"Hello from Service B!\"));",
  "",
  "app.listen(port, () =>",
  "  console.log(\x60Service B running on http://localhost:$\x7bport\x7d\x60)",
  ");",
  "\x60\x60\x60",
  "",
  "**Do\x27s**",
  "",
  "- Use microservices for business capabilities that are likely to change or scale independently.",
  "",
  "**Don\x27ts**",
  "",
  "- Avoid creating microservices for small projects where a monolithic structure would suffice. Microservices come with added complexity that may not be necessary in these cases.",
  "",
  "### 2. Adopt Vendor-Neutral Solutions",
  "",
  "Embracing vendor-neutral solutions like Kubernetes and Docker can also help reduce vendor lock-in. These technologies allow you to package your application and its dependencies into a container, which can be run consistently on any platform that supports Docker, including your own servers or different cloud providers.",
  "",
  "\x60\x60\x60tsx",
  "// Dockerfile",
  "FROM node:14",
  "",
  "WORKDIR /usr/src/app",
  "",
  "COPY package*.json ./",
  "",
  "RUN npm install",
  "",
  "COPY . .",
  "",
  "EXPOSE 3000",
  "",
  "CMD [ \"npm\", \"run\", \"start\" ]",
  "\x60\x60\x60",
  "",
  "**Do\x27s**",
  "",
  "- Use Docker for creating a consistent environment for your application across different platforms.",
  "- Utilize Docker Compose or Kubernetes for managing multi-container applications.",
  "",
  "**Don\x27ts**",
  "",
  "- Avoid using proprietary services that are not supported by the majority of cloud providers.",
  "",
  "By employing these strategies, you can reduce your dependency on a single vendor and open up the opportunity to leverage the best tools and services for your specific needs.",
  "",
  "# Conclusion: Balancing the Trade-offs",
  "",
  "In the dynamic world of tech, one size does not fit all. Choices are inevitable and often the best ones are made when we have a clear understanding of the landscape we are operating in.",
  "",
  "## Embracing the Comforts of Vercel",
  "",
  "Vercel offers an unparalleled developer experience. Its streamlined deployment process, seamless integration with Next.js, and focus on front-end performance is what sets it apart. There\x27s a tangible speed-to-market benefit when working with Vercel, with features like serverless functions, incremental static regeneration, and image optimization, it\x27s incredibly easy to see why so many businesses are drawn to it. The convenience of having a platform handle the intricacies of deployment, CDN, scaling, among others, is an attractive proposition that shouldn\x27t be dismissed outright.",
  "",
  "## Eyes Wide Open",
  "",
  "However, an informed decision involves acknowledging that this convenience comes at the price of vendor lock-in. The deeper we integrate Vercel\x27s specific features, the harder it can be to extricate ourselves should the need arise. This doesn\x27t mean we shouldn\x27t use Vercel, but we must be aware of the commitments we\x27re making when we do. Knowing the potential risks and planning for them is not pessimistic, it\x27s being smart and pragmatic.",
  "",
  "## Making Informed Decisions",
  "",
  "It\x27s important to take a step back, examine our unique requirements, and consider the trade-offs. We must ask ourselves questions like, \"How reliant do we want to be on a single vendor?\", \"How much effort would it take to switch providers if we needed to?\", \"Does the potential lock-in risk outweigh the DX and speed-to-market benefits for our specific use case?\"",
  "",
  "## Navigating the Trade-offs",
  "",
  "The optimal strategy is not to avoid vendor-specific features entirely but to use them judiciously. Where possible, we should aim for an architecture that is loosely coupled with our infrastructure providers. Adopting vendor-neutral solutions and building abstraction layers can help in this regard.",
  "",
  "Ultimately, the decision comes down to your specific needs, resources, and risk tolerance. It\x27s all about finding the right balance for your project, team, and organization.",
  "",
  "As a seasoned tech lead, I know there are no absolute truths in our industry. We navigate through complex decisions and challenging trade-offs on a daily basis. My advice would be to embrace the comforts of Vercel, but do so with your eyes wide open, always understanding the nature of the commitment you are making. Stay informed, stay flexible, and most importantly, keep delivering value.",
  ""]

/-- Lines of the source document at `pages/react-cheatsheets/next-js/dealing-with-vercel-vendor-lockin.mdx#related1` (verbatim, one string per line). -/
def doc_dealing_with_vercel_vendor_lockin_related1 : List String := [
  "# Understanding Dynamic Imports in Next.js: The React.lazy Alternative",
  "",
  "In this cheat sheet, we\x27re going to dive into the \x60next/dynamic\x60 function, a built-in tool in Next.js that\x27s an alternative to \x60React.lazy\x60 for dynamic imports. This function allows us to import JavaScript modules in a lazy-load manner, improving initial load times.",
  "",
  "\x60\x60\x60jsx",
  "// Filename: pages/index.js",
  "import dynamic from \x27next/dynamic\x27",
  "",
  "const DynamicComponent = dynamic(() => import(\x27../components/DynamicComponent\x27))",
  "",
  "function HomePage() \x7b",
  "  return (",
  "    <div>",
  "      <DynamicComponent />",
  "    </div>",
  "  )",
  "\x7d",
  "",
  "export default HomePage",
  "\x60\x60\x60",
  "",
  "In this example, \x60DynamicComponent\x60 is imported dynamically. This means that it will only be loaded when the \x60HomePage\x60 component is rendered, not before. A typical import would include the component in the main bundle, which would be loaded immediately, regardless of whether the component is used or not.",
  "",
  "## Server-Side Rendering and Next.js Dynamic Imports",
  "",
  "What sets \x60next/dynamic\x60 apart from \x60React.lazy\x60 is its compatibility with server-side rendering (SSR). Here\x27s how you can dynamically import a component that requires SSR:",
  "",
  "\x60\x60\x60jsx",
  "// Filename: pages/index.js",
  "import dynamic from \x27next/dynamic\x27",
  "",
  "const DynamicComponent = dynamic(() => import(\x27../components/DynamicComponent\x27), \x7b",
  "  ssr: true,",
  "\x7d)",
  "",
  "function HomePage() \x7b",
  "  return (",
  "    <div>",
  "      <DynamicComponent />",
  "    </div>",
  "  )",
  "\x7d",
  "",
  "export default HomePage",
  "\x60\x60\x60",
  "",
  "With \x60ssr: true\x60, Next.js will server-render the \x60DynamicComponent\x60.",
  "",
  "## Loading Modules with Dependencies",
  "",
  "\x60next/dynamic\x60 also supports loading modules with dependencies. Let\x27s say the \x60DynamicComponent\x60 depends on a \x60utils.js\x60 module. Here\x27s how you\x27d handle that:",
  "",
  "\x60\x60\x60jsx",
  "// Filename: pages/index.js",
  "import dynamic from \x27next/dynamic\x27",
  "",
  "const DynamicComponent = dynamic(() => Promise.all([",
  "  import(\x27../components/DynamicComponent\x27),",
  "  import(\x27../utils/utils.js\x27)",
  "]).then(([module, utils]) => \x7b",
  "  // Modify the module component or bind utilities here if needed",
  "  return module;",
  "\x7d))",
  "",
  "function HomePage() \x7b",
  "  return (",
  "    <div>",
  "      <DynamicComponent />",
  "    </div>",
  "  )",
  "\x7d",
  "",
  "export default HomePage",
  "\x60\x60\x60",
  "",
  "In summary, while \x60React.lazy\x60 and \x60next/dynamic\x60 both provide dynamic imports and code-splitting, \x60next/dynamic\x60 comes with extra features tailored for Next.js applications, including server-side rendering support. Therefore, when working with Next.js, \x60next/dynamic\x60 should be your go-to tool for dynamic imports and lazy loading of components."]

/-- Lines of the source document at `pages/react-cheatsheets/next-js/dealing-with-vercel-vendor-lockin.mdx#related2` (verbatim, one string per line). -/
def doc_dealing_with_vercel_vendor_lockin_related2 : List String := [
  "#### Pass Four: Bulletproof It",
  "",
  "##### Objective: It\x27s tough, handles failure with grace. ",
  "",
  "This stage revolves around considering error management, edge cases, and the user\x27s experience when things don\x27t quite pan out as planned. Applying this to our case study, this could mean managing instances where the user data couldn\x27t be retrieved, or perhaps the data returned in an unexpected configuration.",
  "",
  "Here\x27s a peek at what this might appear like in the code:",
  "",
  "\x60\x60\x60typescript",
  "// hooks/useUser.tsx",
  "import \x7b useState, useEffect \x7d from \x27react\x27;",
  "import fetchUser from \x27../services/fetchUser\x27;",
  "",
  "interface User \x7b",
  "  name: string;",
  "  // other user properties...",
  "\x7d",
  "",
  "const useUser = (userId: string) => \x7b",
  "  const [user, setUser] = useState<User | null>(null);",
  "  const [error, setError] = useState<string | null>(null);",
  "",
  "  useEffect(() => \x7b",
  "    const loadUser = async () => \x7b",
  "      try \x7b",
  "        const userData = await fetchUser(userId);",
  "        setUser(userData);",
  "        setError(null);",
  "      \x7d catch (err) \x7b",
  "        setUser(null);",
  "        setError(\x27Failed to load user data\x27);",
  "      \x7d",
  "    \x7d;",
  "    ",
  "    loadUser();",
  "  \x7d, [userId]);",
  "",
  "  return \x7b user, error \x7d;",
  "\x7d;",
  "",
  "export default useUser;",
  "\x60\x60\x60",
  "",
  "\x60\x60\x60typescript",
  "// components/UserProfile.tsx",
  "import React from \x27react\x27;",
  "import useUser from \x27../hooks/useUser\x27;",
  "",
  "interface UserProfileProps \x7b",
  "  userId: string;",
  "\x7d",
  "",
  "const UserProfile: React.FC<UserProfileProps> = (\x7b userId \x7d) => \x7b",
  "  const \x7b user, error \x7d = useUser(userId);",
  "",
  "  if (error) \x7b",
  "    return <div>Error: \x7berror\x7d</div>;",
  "  \x7d",
  "",
  "  return (",
  "    <div>",
  "      <h1>\x7buser?.name\x7d</h1>",
  "      \x7b/* More user info here... */\x7d",
  "    </div>",
  "  );",
  "\x7d;",
  "",
  "export default UserProfile;",
  "\x60\x60\x60",
  "",
  "In the given example, we\x27ve incorporated error handling into the \x60fetchUser\x60 function within our custom hook, and the hook now returns an \x60error\x60 state in conjunction with the \x60user\x60 state. The \x60UserProfile\x60 component is then capable of displaying an error message to the user if things go awry. This fortifies our application and elevates the user experience.",
  "",
  "Keep in mind, it\x27s not obligatory to adhere to these passes sequentially or just once. It\x27s more akin to a cyclical process where you perpetually refine and augment your code over time. You might journey through numerous cycles of \"get it done\", then \"make it right\", then \"polish the edges\", then \"bulletproof it\" as you flesh out an application."]

/-- Lines of the source document at `pages/react-cheatsheets/patterns-worth-knowing/custom-hooks-and-react-query.mdx` (verbatim, one string per line). -/
def doc_custom_hooks_and_react_query : List String := [
  "To provide an entire project setup for using \x60react-query\x60, we\x27ll create a simple React project using \x60create-react-app\x60 and then install \x60react-query\x60. Here\x27s a step-by-step guide:",
  "",
  "First, make sure you have Node.js installed on your machine. If you haven\x27t installed Node.js, you can download it from the official website: https://nodejs.org/en/",
  "After installing Node.js, you can use the \x60npx\x60 command (which comes with Node.js) to create a new React application.",
  "",
  "1. Create a new React application:",
  "",
  "\x60\x60\x60bash",
  "npx create-react-app my-app",
  "\x60\x60\x60",
  "",
  "2. Once your new application is created, navigate into the project directory:",
  "",
  "\x60\x60\x60bash",
  "cd my-app",
  "\x60\x60\x60",
  "",
  "3. Now, you can install \x60react-query\x60 in your application:",
  "",
  "\x60\x60\x60bash",
  "npm install react-query",
  "\x60\x60\x60",
  "",
  "4. Now, you have a basic React application set up with \x60react-query\x60. You can start the application by running:",
  "",
  "\x60\x60\x60bash",
  "npm start",
  "\x60\x60\x60",
  "",
  "Your application should now be running at \x60http://localhost:3000/\x60.",
  "",
  "To use \x60react-query\x60 in your application, you will need to set up a \x60QueryClient\x60 and provide it using \x60QueryClientProvider\x60. You can do this in your \x60index.js\x60 file:",
  "",
  "\x60\x60\x60jsx",
  "import React from \"react\";",
  "import ReactDOM from \"react-dom\";",
  "import \x7b QueryClient, QueryClientProvider \x7d from \"react-query\";",
  "import App from \"./App\";",
  "",
  "const queryClient = new QueryClient();",
  "",
  "ReactDOM.render(",
  "  <React.StrictMode>",
  "    <QueryClientProvider client=\x7bqueryClient\x7d>",
  "      <App />",
  "    </QueryClientProvider>",
  "  </React.StrictMode>,",
  "  document.getElementById(\"root\")",
  ");",
  "\x60\x60\x60",
  "",
  "\x60\x60\x60tsx",
  "// hooks/useCustomQuery.ts",
  "import \x7b useQuery \x7d from \"react-query\";",
  "",
  "/**",
  " * Function to fetch data. This would typically be your API call.",
  " * @param \x7bstring\x7d url The url to fetch data from.",
  " */",
  "async function fetchData(url: string) \x7b",
  "  const response = await fetch(url);",
  "",
  "  if (!response.ok) \x7b",
  "    throw new Error(\"Network response was not ok\");",
  "  \x7d",
  "",
  "  return response.json();",
  "\x7d",
  "",
  "/**",
  " * Custom hook that wraps the useQuery hook from react-query.",
  " * @param \x7bstring\x7d url The url to fetch data from.",
  " */",
  "export function useCustomQuery(url: string) \x7b",
  "  return useQuery(url, () => fetchData(url));",
  "\x7d",
  "\x60\x60\x60",
  "",
  "Now, within your components, you can use the custom hook \x60useCustomQuery\x60 that we defined earlier. Here\x27s an example of a component that fetches data from an API using \x60useCustomQuery\x60:",
  "",
  "\x60\x60\x60jsx",
  "import React from \"react\";",
  "import \x7b useCustomQuery \x7d from \"./hooks/useCustomQuery\";",
  "",
  "export function MyComponent() \x7b",
  "  const \x7b data, isLoading, error \x7d = useCustomQuery(",
  "    \"https://api.example.com/data\"",
  "  );",
  "",
  "  if (isLoading) \x7b",
  "    return <div>Loading...</div>;",
  "  \x7d",
  "",
  "  if (error) \x7b",
  "    return <div>Error: \x7berror.message\x7d</div>;",
  "  \x7d",
  "",
  "  return (",
  "    <div>",
  "      <h1>My Data</h1>",
  "      \x7b/* Render your data here */\x7d",
  "      \x7bdata && data.map((item) => <div key=\x7bitem.id\x7d>\x7bitem.name\x7d</div>)\x7d",
  "    </div>",
  "  );",
  "\x7d",
  "\x60\x60\x60",
  "",
  "This setup is a very basic example. Depending on your application, you might want to customize this further, add routing (with \x60react-router\x60 for example), state management, etc. You can refer to the \x60react-query\x60 documentation for more advanced usage: https://react-query.tanstack.com/overview.",
  ""]

/-- Lines of the source document at `pages/react-cheatsheets/patterns-worth-knowing/custom-hooks-and-react-query.mdx#related1` (verbatim, one string per line). -/
def doc_custom_hooks_and_react_query_related1 : List String := [
  "# How to enhance state management with Immer",
  "",
  "Immer is a powerful library that simplifies immutable updates. Immer uses the concept of mutable drafts to make immutable updates straightforward.",
  "",
  "Immer provides a helper function called \x60produce\x60, which takes in your current state and a function where you can write code that mutates the state. It then returns a new state based on the mutations you made. This means we don\x27t have to write complex code using the spread operator or \x60Object.assign()\x60 to make immutable updates.",
  "",
  "Let\x27s revise our \x60cartReducer\x60 from our previous shopping cart case study to use Immer.",
  "",
  "**Step 1: Setting Up with Immer**",
  "",
  "First, we need to install Immer and import the \x60produce\x60 function:",
  "",
  "\x60\x60\x60bash",
  "npm install immer",
  "\x60\x60\x60",
  "",
  "\x60\x60\x60jsx",
  "import produce from \"immer\";",
  "\x60\x60\x60",
  "",
  "**Step 2: Updating the Reducer**",
  "",
  "With Immer, our reducer now looks like this:",
  "",
  "\x60\x60\x60jsx",
  "const cartReducer = produce((draft, action) => \x7b",
  "  switch (action.type) \x7b",
  "    case \"ADD_ITEM\":",
  "      draft.push(action.item);",
  "      break;",
  "    case \"REMOVE_ITEM\":",
  "      const index = draft.findIndex((item) => item.id === action.itemId);",
  "      if (index !== -1) \x7b",
  "        draft.splice(index, 1);",
  "      \x7d",
  "      break;",
  "    case \"UPDATE_QUANTITY\":",
  "      const item = draft.find((item) => item.id === action.itemId);",
  "      if (item) \x7b",
  "        item.quantity = action.quantity;",
  "      \x7d",
  "      break;",
  "    case \"RESET_CART\":",
  "      return [];",
  "    default:",
  "      return;",
  "  \x7d",
  "\x7d);",
  "\x60\x60\x60",
  "",
  "With \x60produce\x60, we just modify the \x60draft\x60 directly. \x60produce\x60 automatically generates a new state based on our changes.",
  "",
  "**Step 3: Using the Reducer**",
  "",
  "The usage of our reducer with \x60useReducer\x60 stays the same:",
  "",
  "\x60\x60\x60jsx",
  "const [items, dispatch] = useReducer(cartReducer, []);",
  "\x60\x60\x60",
  "",
  "We can still call \x60dispatch\x60 with an action object:",
  "",
  "\x60\x60\x60jsx",
  "dispatch(\x7b type: \"ADD_ITEM\", item: newItem \x7d);",
  "\x60\x60\x60",
  "",
  "**Note**: While \x60produce\x60 simplifies our reducer code, remember that Immer can have performance implications for very large states or complex mutations. It\x27s a powerful tool, but it\x27s not always necessary, especially for simpler states. As always, use the right tool for the job, and keep slaying that code!",
  "",
  "By combining React\x27s \x60useReducer\x60 and \x60useContext\x60 with Immer, we\x27re now able to manage complex state more easily and with less code, while still preserving immutability. This combo can be a serious game-changer for your state management strategy! Happy coding!",
  ""]

/-- Lines of the source document at `pages/react-cheatsheets/patterns-worth-knowing/dx-first-state-management.mdx` (verbatim, one string per line). -/
def doc_dx_first_state_management : List String := [
  "# Readme.md",
  "",
  "---",
  "",
  "## **ImmerFluent**: _A Seamless State Management Technique in React_",
  "",
  "Managing state in React can sometimes get messy, especially when dealing with nested state objects. ImmerFluent provides a smoother way to manage state using immer under the hood, but with a more straightforward interface. The key feature is that it allows you to set the state either directly or using a function, and offers an optional overwrite behavior.",
  "",
  "### **Usage**:",
  "",
  "1. **Directly Setting State**:",
  "",
  "   This is the most straightforward way to set the state. You provide the new state values directly.",
  "",
  "   \x60\x60\x60javascript",
  "   const handleDirectSetState = (): void => \x7b",
  "     setState(\x7b",
  "       name: generateRandomName(),",
  "       deeply: \x7b",
  "         nested: \x7b",
  "           first: Math.random() * 100,",
  "           second: state.deeply.nested.second + 1,",
  "         \x7d,",
  "       \x7d,",
  "     \x7d);",
  "   \x7d;",
  "   \x60\x60\x60",
  "",
  "2. **Directly Setting State with Overwrite**:",
  "",
  "   This approach allows you to overwrite the entire state object with the values provided.",
  "",
  "   \x60\x60\x60javascript",
  "   const handleDirectSetStateWithOverwrite = (): void => \x7b",
  "     setState(",
  "       \x7b",
  "         name: generateRandomName(),",
  "         deeply: \x7b",
  "           nested: \x7b",
  "             first: Math.random() * 100,",
  "             second: state.deeply.nested.second + 1,",
  "             third: \x7b",
  "                fourth: \x7b fifth: 123, sixth: \x7b seventh: 456 \x7d\x7d\x7d,",
  "             \x7d",
  "           \x7d,",
  "         \x7d,",
  "       \x7d,",
  "       \x7b overwrite: true \x7d",
  "     );",
  "   \x7d;",
  "   \x60\x60\x60",
  "",
  "3. **Functionally Setting State**:",
  "",
  "   This method gives you a draft state to work with, and you can directly modify this draft. Changes to the draft will be used to produce the new state.",
  "",
  "   \x60\x60\x60javascript",
  "   const handleFunctionalSetState = (): void => \x7b",
  "     setState((draft) => \x7b",
  "       draft.shallowDate = new Date().toISOString();",
  "       draft.name = generateRandomName();",
  "       draft.deeply.nested.first += 1;",
  "     \x7d);",
  "   \x7d;",
  "   \x60\x60\x60",
  "",
  "4. **Combining State Updates**:",
  "",
  "   This method lets you combine multiple state updates in one go.",
  "",
  "   \x60\x60\x60javascript",
  "   const handleCombinedSetState = (): void => \x7b",
  "     setState((draft) => \x7b",
  "       draft.deeply.nested.first += 3;",
  "       draft.deeply.nested.anotherCompletely.different.madeup.nest = \x7b",
  "         date: new Date().toISOString(),",
  "       \x7d;",
  "     \x7d);",
  "   \x7d;",
  "   \x60\x60\x60",
  "",
  "### **Installation**:",
  "",
  "- Ensure you have the \x60use-immer\x60 package installed. \x60npm i use-immer\x60 or \x60yarn add use-immer\x60.",
  "- Integrate the \x60SiteContext\x60 and \x60SiteContextProvider\x60 in your application.",
  "- Wrap your root component (or any other component subtree) with the \x60SiteContextProvider\x60.",
  "",
  "\x60\x60\x60tsx",
  "import createContextProviderCreator from \"@/lib/createState\";",
  "",
  "type MyState = \x7b",
  "  deeply: \x7b",
  "    nested: \x7b first: number; second: number; third: \x7b a: number; b: number \x7d \x7d;",
  "    anotherNest: \x7b a: number; b: number \x7d;",
  "  \x7d;",
  "  name: string;",
  "  neverChange: number;",
  "\x7d;",
  "",
  "const [MyContextProvider, useMyContext] = createContextProviderCreator<MyState>(",
  "  \x7b",
  "    deeply: \x7b",
  "      nested: \x7b first: 123, second: 456, third: \x7b a: 1, b: 2 \x7d \x7d,",
  "      anotherNest: \x7b a: 789, b: 123 \x7d,",
  "    \x7d,",
  "    name: \"John\",",
  "    neverChange: 789,",
  "  \x7d",
  ");",
  "",
  "// Now, you can use \x60MyContextProvider\x60 as a provider in your component tree and \x60useMyContext\x60 as a custom hook.",
  "\x60\x60\x60",
  "",
  "\x60\x60\x60tsx",
  "// @lib/createState",
  "import React, \x7b createContext, useCallback, useContext, useMemo \x7d from \"react\";",
  "import \x7b Draft \x7d from \"immer\";",
  "import \x7b useImmerReducer \x7d from \"use-immer\";",
  "",
  "/**",
  " * Recursive type to handle nested partial objects.",
  " */",
  "type RecursivePartial<T> = \x7b",
  "  [P in keyof T]?: RecursivePartial<T[P]> | T[P];",
  "\x7d;",
  "",
  "/**",
  " * Options to control how the state is set.",
  " */",
  "type SetStateOptions = \x7b",
  "  overwrite?: boolean;",
  "\x7d;",
  "",
  "/**",
  " * Create a context provider with built-in immer functionality for state management.",
  " * @param defaultState The initial state for the context.",
  " */",
  "export const createContextProviderCreator = <T extends \x7b\x7d>(defaultState: T) => \x7b",
  "  type StateUpdater = (draft: Draft<T>) => void;",
  "",
  "  type SetPartialStateAction = \x7b",
  "    type: \"SET_PARTIAL_STATE\";",
  "    value: RecursivePartial<T>;",
  "    settings: SetStateOptions;",
  "  \x7d;",
  "",
  "  type UpdateStateAction = \x7b",
  "    type: \"UPDATE_STATE\";",
  "    value: StateUpdater;",
  "    settings?: SetStateOptions;",
  "  \x7d;",
  "",
  "  type Action = SetPartialStateAction | UpdateStateAction;",
  "",
  "  type InitialStateType = \x7b",
  "    state: T;",
  "    setState: (",
  "      partialOrUpdater: RecursivePartial<T> | StateUpdater,",
  "      options?: SetStateOptions",
  "    ) => void;",
  "    dispatch: React.Dispatch<Action>;",
  "  \x7d;",
  "",
  "  const immerReducer = (draft: Draft<T>, action: Action) => \x7b",
  "    switch (action.type) \x7b",
  "      case \"UPDATE_STATE\":",
  "        if (action.settings?.overwrite) \x7b",
  "          const updatedState: T = \x7b\x7d as any;",
  "          action.value(updatedState as Draft<T>);",
  "          Object.assign(draft, updatedState);",
  "        \x7d else \x7b",
  "          action.value(draft);",
  "        \x7d",
  "        break;",
  "      case \"SET_PARTIAL_STATE\":",
  "        if (action.settings.overwrite) \x7b",
  "          Object.assign(draft, action.value);",
  "        \x7d else \x7b",
  "          mergeObjects(draft, action.value);",
  "        \x7d",
  "        break;",
  "    \x7d",
  "  \x7d;",
  "",
  "  /**",
  "   * Merge source object into target object recursively.",
  "   * @param target The target object.",
  "   * @param source The source object.",
  "   */",
  "  function mergeObjects(target: any, source: any) \x7b",
  "    for (const key in source) \x7b",
  "      if (source[key] instanceof Object && target.hasOwnProperty(key)) \x7b",
  "        mergeObjects(target[key], source[key]);",
  "      \x7d else \x7b",
  "        target[key] = source[key];",
  "      \x7d",
  "    \x7d",
  "  \x7d",
  "",
  "  const Context = createContext<InitialStateType>(\x7b",
  "    state: defaultState,",
  "    setState: () => \x7b\x7d,",
  "    dispatch: () => \x7b\x7d,",
  "  \x7d);",
  "",
  "  const Provider: React.FC<\x7b children: React.ReactNode \x7d> = (\x7b children \x7d) => \x7b",
  "    const [state, dispatch] = useImmerReducer(immerReducer, defaultState);",
  "",
  "    const setState = useCallback(",
  "      (",
  "        partialOrUpdater: RecursivePartial<T> | StateUpdater,",
  "        options: SetStateOptions = \x7b\x7d",
  "      ) => \x7b",
  "        if (typeof partialOrUpdater === \"function\") \x7b",
  "          dispatch(\x7b",
  "            type: \"UPDATE_STATE\",",
  "            value: partialOrUpdater as StateUpdater,",
  "            settings: options,",
  "          \x7d);",
  "        \x7d else \x7b",
  "          dispatch(\x7b",
  "            type: \"SET_PARTIAL_STATE\",",
  "            value: partialOrUpdater,",
  "            settings: options,",
  "          \x7d);",
  "        \x7d",
  "      \x7d,",
  "      [dispatch]",
  "    );",
  "",
  "    const value = useMemo(",
  "      () => (\x7b state, setState, dispatch \x7d),",
  "      [state, setState, dispatch]",
  "    );",
  "",
  "    return <Context.Provider value=\x7bvalue\x7d>\x7bchildren\x7d</Context.Provider>;",
  "  \x7d;",
  "",
  "  /**",
  "   * Custom hook to consume context and provide helpful error if context is missing.",
  "   */",
  "  const useContextHook = () => \x7b",
  "    const context = useContext(Context);",
  "    if (!context) \x7b",
  "      throw new Error(",
  "        \x60Custom context hook must be used within its related Provider.\x60",
  "      );",
  "    \x7d",
  "    return context;",
  "  \x7d;",
  "",
  "  return [Provider, useContextHook] as const;",
  "\x7d;",
  "",
  "export default createContextProviderCreator;",
  "\x60\x60\x60",
  "",
  "With **ImmerFluent**, state management becomes more intuitive, and you can effortlessly manage complex state structures. Say goodbye to spread operators and deep clones, and embrace the simplicity and power of ImmerFluent.",
  ""]

/-- Lines of the source document at `pages/react-cheatsheets/patterns-worth-knowing/structuring-your-components.mdx` (verbatim, one string per line). -/
def doc_structuring_your_components : List String := [
  "# Sculpting Elegant Functional Components: An Art for Speedy React Development",
  "",
  "Creating and maintaining a consistent structure for your functional components can exponentially improve code readability and maintainability. For advanced senior React developers aiming for speed and efficiency, here\x27s a 4-pass approach to structuring React components with meticulous precision:",
  "",
  "1. **Import Statements:** Begin by incorporating necessary modules, libraries, or components required by the component. Always position these at the file\x27s top for enhanced visibility and organization.",
  "2. **Type Definitions:** Here, you define types utilized within the component, such as prop types. Clearly defined types augment readability and ensure type safety, making debugging easier and more efficient.",
  "3. **State Definitions:** Define state variables utilized within the component using \x60useState\x60. These are fundamental to the component\x27s behavior and may be used in the following sections.",
  "4. **Side Effects:** Implement side effects using \x60useEffect\x60 that trigger when certain dependencies alter. They usually depend on the state and execute after render, meaning these should come after your state definitions.",
  "5. **Functions/Handlers:** Include functions or handlers related to component behavior, like event handlers. These could encompass complex logic affecting or depending on state and side effects.",
  "6. **Return Statement:** Lastly, the JSX that the component renders. Always at the end, logically following the setup and behavior, this is the component\x27s output.",
  "",
  "This sequence, from top to bottom, guarantees a logical flow in your component, transitioning from setup to output, thereby enhancing readability and simplifying maintenance.",
  "",
  "### Pass One: Laying the Foundation",
  "",
  "Kick off by importing necessary modules, laying out your component, its props, and fundamental states.",
  "",
  "\x60\x60\x60tsx",
  "// Import statements",
  "import React, \x7b useState \x7d from \"react\";",
  "",
  "interface MyComponentProps \x7b",
  "  initialCount: number;",
  "\x7d",
  "",
  "const MyComponent: React.FC<MyComponentProps> = (\x7b initialCount \x7d) => \x7b",
  "  const [count, setCount] = useState(initialCount);",
  "",
  "  // Component logic goes here",
  "",
  "  return <div>\x7b/* Component rendering goes here */\x7d</div>;",
  "\x7d;",
  "",
  "export default MyComponent;",
  "\x60\x60\x60",
  "",
  "### Pass Two: Integrating Side Effects",
  "",
  "Integrate useEffect for side effects connected to state or props modifications. Position useEffect after the declaration of state or any other variable it relies upon.",
  "",
  "\x60\x60\x60tsx",
  "import React, \x7b useState, useEffect \x7d from \"react\";",
  "",
  "interface MyComponentProps \x7b",
  "  initialCount: number;",
  "\x7d",
  "",
  "const MyComponent: React.FC<MyComponentProps> = (\x7b initialCount \x7d) => \x7b",
  "  const [count, setCount] = useState(initialCount);",
  "",
  "  useEffect(() => \x7b",
  "    // Side effect based on count value changes",
  "    console.log(\x60Count changed to: $\x7bcount\x7d\x60);",
  "  \x7d, [count]);",
  "",
  "  return <div>\x7b/* Component rendering goes here */\x7d</div>;",
  "\x7d;",
  "",
  "export default MyComponent;",
  "\x60\x60\x60",
  "",
  "### Pass Three: Event Handlers and Auxiliary Functions",
  "",
  "Introduce event handlers and helper functions. Define these preceding the return statement, after states and useEffects.",
  "",
  "\x60\x60\x60tsx",
  "import React, \x7b useState, useEffect \x7d from \"react\";",
  "",
  "interface MyComponentProps \x7b",
  "  initialCount: number;",
  "\x7d",
  "",
  "const MyComponent: React.FC<MyComponentProps> = (\x7b initialCount \x7d) => \x7b",
  "  const [count, setCount] = useState(initialCount);",
  "",
  "  useEffect(() => \x7b",
  "    console.log(\x60Count changed to: $\x7bcount\x7d\x60);",
  "  \x7d, [count]);",
  "",
  "  const incrementCount = () => setCount(count + 1);",
  "",
  "  return (",
  "    <div>",
  "      <button onClick=\x7bincrementCount\x7d>Increment count</button>",
  "    </div>",
  "  );",
  "\x7d;",
  "",
  "export default MyComponent;",
  "\x60\x60\x60",
  "",
  "### Pass Four: Leveling Up with Custom Hooks and Context",
  "",
  "For components possessing intricate state logic or needing to disseminate state logic across multiple components, consider leveling up your code by refactoring it to use custom hooks or context.",
  "",
  "\x60\x60\x60tsx",
  "// customHooks/useCount.ts",
  "import \x7b useState, useEffect \x7d from \"react\";",
  "",
  "const useCount = (initialCount: number) => \x7b",
  "  const [count, setCount] = useState(initialCount);",
  "",
  "  useEffect(() => \x7b",
  "    console.log(\x60Count changed to: $\x7bcount\x7d\x60);",
  "  \x7d, [count]);",
  "",
  "  const incrementCount = () => setCount(count + 1);",
  "",
  "  return \x7b count, incrementCount \x7d;",
  "\x7d;",
  "",
  "export default useCount;",
  "",
  "// components/MyComponent.tsx",
  "import React from \"react\";",
  "import useCount from \"../customHooks/useCount\";",
  "",
  "interface MyComponentProps \x7b",
  "  initialCount: number;",
  "\x7d",
  "",
  "const MyComponent: React.FC<MyComponentProps> = (\x7b initialCount \x7d) => \x7b",
  "  const \x7b count, incrementCount \x7d = useCount(initialCount);",
  "",
  "  return (",
  "    <div>",
  "      <button onClick=\x7bincrementCount\x7d>Increment count</button>",
  "    </div>",
  "  );",
  "\x7d;",
  "",
  "export default MyComponent;",
  "\x60\x60\x60",
  "",
  "In this final step, the state logic has been relocated to a custom hook \x60useCount\x60, facilitating its reuse across different components. Notably, the consistent order is adhered to: import statements, type definitions, state definitions, side effect logic, event handlers and auxiliary functions, culminating in the component return statement. This structure provides a logical flow to the component, thus boosting readability and promoting efficient maintenance.",
  "",
  "This approach of employing custom hooks promotes code reusability, while reducing complexity and redundancy, making your React application more maintainable and efficient. This pattern is a vital addition to any advanced React developer\x27s toolkit as they race against time to deliver high-performing applications.",
  ""]

/-- Lines of the source document at `pages/react-cheatsheets/patterns-worth-knowing/structuring-your-components.mdx#related1` (verbatim, one string per line). -/
def doc_structuring_your_components_related1 : List String := [
  "# Red Flags in Product Development: A Case for Technical Leadership and Autonomy",
  "",
  "The reality of product development often lies in the unwritten rules of the game - the people and process pitfalls that can cause projects to derail. As experienced devs, we\x27ve seen it all. This is a frank guide to the red flags you might encounter and how to address them effectively, championing technical leadership, team autonomy, and asynchronous communication.",
  "",
  "## 1. The All-Seeing CEO",
  "",
  "**Red Flag**: Imagine a CEO who believes they are the de facto project manager, design authority, and lead developer rolled into one. They\x27re in every pull request, commenting on every UI decision, even dabbling in DevOps. Case in point, a startup where the CEO began dictating database design without relevant expertise, leading to data integrity issues down the line.",
  "",
  "**Counter Strategy**: As technical experts, we must champion our own domain. Push for technical decisions to be made by the technical team. Arrange regular updates for the CEO, but ensure the nitty-gritty is handled by those with the know-how.",
  "",
  "## 2. The Well-Meaning, Yet Clueless Product Owners",
  "",
  "**Red Flag**: Product Owners with a vision but zero tech grounding. They set moonshot targets without understanding technical constraints. Remember the time a Product Owner wanted a complex AI system integrated within a week?",
  "",
  "**Counter Strategy**: Empower the technical team. Advocate for the inclusion of tech leads or architects in decision-making, balancing vision with feasibility. Autonomy in our field is paramount for efficiency.",
  "",
  "## 3. The Whirlwind of Shifting Deadlines",
  "",
  "**Red Flag**: Deadlines that shift more frequently than the British weather. It\x27s a symptom of poor planning that can lead to a miserable, overworked team and a compromised product. ",
  "",
  "**Counter Strategy**: Autonomy again is key. Implement a structured project management approach such as Agile or Scrum, and make it clear that incessant deadline changes do more harm than good.",
  "",
  "## 4. The \"We\x27ll Fix It Later\" Mentality",
  "",
  "**Red Flag**: A relentless push for new features while ignoring mounting tech debt. Before you know it, your codebase resembles a house of cards, just like that e-commerce project that chose to ignore a bloated legacy system until it crashed on Cyber Monday.",
  "",
  "**Counter Strategy**: Be a strong advocate for regular refactoring and tech debt management. Stress that a robust, maintainable codebase is essential for a successful, future-proof product.",
  "",
  "## 5. The Game of Chinese Whispers",
  "",
  "**Red Flag**: Information is either shared in hushed huddles or lost in the ether. The result? A disconnected team and misaligned project goals.",
  "",
  "**Counter Strategy**: Asynchronous communication is king. Champion the use of tools like Slack or Basecamp for transparent, accessible communication that doesn\x27t interrupt the workflow. ",
  "",
  "## 6. The \"Mission Impossible\" Expectations",
  "",
  "**Red Flag**: Expectations so lofty, they\x27re orbiting Jupiter. Project goals need to be grounded in reality, not existing in a fantastical dream world. ",
  "",
  "**Counter Strategy**: Offer realistic estimates and push back against unachievable targets. Remember when we were asked to build a full-featured mobile app in a month? Don\x27t let history repeat itself.",
  "",
  "The key takeaway? Technical leadership, team autonomy, and async communication are fundamental to successful product development. Spot these red flags early, address them proactively, and ensure your team and project remain on a stable, successful path."]

/-- Lines of the source document at `pages/react-cheatsheets/patterns-worth-knowing/utilizing-the-decorator-pattern.mdx` (verbatim, one string per line). -/
def doc_utilizing_the_decorator_pattern : List String := [
  "# Cheatsheet: Utilizing the Decorator Pattern in Functional TypeScript",
  "",
  "The Decorator Pattern is a structural design pattern that enables you to add behavior to an object dynamically or statically, without altering other objects from the same class.",
  "",
  "The primary value of this pattern is flexibility - it facilitates augmenting the functionality of existing components without complicating the base component with extra code. It\x27s advantageous when you need to extend a component in certain scenarios while keeping it lean and simple elsewhere.",
  "",
  "In the context of React and TypeScript, decorators can be implemented in several manners. A prevalent use case is Higher-Order Components (HOCs), a function that accepts a component and returns a new component with additional props or functionality.",
  "",
  "Here\x27s an example demonstrating a decorator implemented as an HOC:",
  "",
  "\x60\x60\x60tsx",
  "import React from \"react\";",
  "",
  "// Decorator function",
  "const withLogging = (WrappedComponent) => (props) => \x7b",
  "  console.log(\"Component rendered with props\", props); // Log the props",
  "  return <WrappedComponent \x7b...props\x7d />; // Render the wrapped component with its original props",
  "\x7d;",
  "",
  "const Component = (\x7b name \x7d: \x7b name: string \x7d) => <div>\x7b\x60Hello, $\x7bname\x7d!\x60\x7d</div>; // Original, undecorated component",
  "",
  "const DecoratedComponent = withLogging(Component); // Decoration of our component",
  "",
  "// Usage",
  "const App = () => <DecoratedComponent name=\"John\" />; // Decorated component logs its props before rendering",
  "\x60\x60\x60",
  "",
  "In this example, \x60withLogging\x60 is a decorator logging the props a component gets before rendering it. By wrapping \x60Component\x60 with \x60withLogging\x60, we create \x60DecoratedComponent\x60, having the same interface as \x60Component\x60, but with additional logging functionality.",
  "",
  "This pattern is useful when you want to add common functionality to many different components. Instead of duplicating code, create a decorator and apply it to any component requiring it.",
  "",
  "# Additional Use Cases for the Decorator Pattern",
  "",
  "Here are a few additional contexts where the Decorator Pattern can come in handy:",
  "",
  "1. **Validation Decorators**: You can create a decorator to handle form validation logic. This way, the base component stays focused on UI and behavior, and the decorator manages validation rules.",
  "",
  "2. **Authentication and Authorization**: Decorators can manage user permissions and roles. You can create a decorator that checks if a user is authenticated/authorized before rendering certain components or invoking specific actions.",
  "",
  "3. **State Management**: Decorators can inject props into a component that are derived from your application\x27s state store. This is how libraries like Redux connect components to the state.",
  "",
  "4. **Analytics**: Decorators can log user interactions or page views for analytics purposes. This could be valuable for tracking user behavior without cluttering up your components with logging code.",
  "",
  "5. **Performance Optimizations**: Decorators could implement logic for memoization or component lazy-loading, keeping your core components clean and focused on their main job.",
  "",
  "## Potential Pitfalls to Keep in Mind",
  "",
  "While the Decorator Pattern is powerful, it\x27s important to use it judiciously. Here are a few reasons why you need to be cautious:",
  "",
  "1. **Component Obfuscation**: Too many decorators or complex decorators can obfuscate a component\x27s purpose. Developers may have a hard time understanding what a component is doing if there\x27s too much indirection via decorators.",
  "",
  "2. **Prop Drilling**: If decorators are injecting a lot of props into components, you may end up with the \"prop drilling\" problem, where too many props need to be passed through intermediary components.",
  "",
  "3. **Performance Issues**: Decorators add extra layers of function calls which could potentially slow down your application, especially when used excessively.",
  "",
  "4. **Type Checking**: In TypeScript, decorators can make type checking more complex. If decorators are altering the props being passed to a component, you will need to ensure that the type definitions correctly reflect the changes.",
  "",
  "Remember, the Decorator Pattern is a tool, and like all tools, it can be misused. Use decorators when they enhance readability, maintainability, and reusability, and avoid them when they complicate these aspects.",
  "",
  "",
  "",
  "This pattern is advanced and should be used with caution. Excessive or inappropriate usage can introduce complexity and obfuscate a component\x27s original intent. However, when applied in the right context, it can greatly improve code readability, maintainability, and reusability."]

/-- Lines of the source document at `pages/react-cheatsheets/react-performance-debugging/lazy-loading-components-with-react-lazy.mdx` (verbatim, one string per line). -/
def doc_lazy_loading_components_with_react_lazy : List String := [
  "# Cheatsheet: Lazy Loading Components with React.lazy",
  "",
  "When building extensive applications, we often end up with a substantial JavaScript bundle size that can affect the load time of our app. React, however, provides us with a handy feature for code splitting and lazy loading to mitigate this issue. Today, let\x27s delve into how \x60React.lazy\x60 can assist us in reducing initial load time.",
  "",
  "## An Overview of React.lazy",
  "",
  "\x60React.lazy()\x60 is a function that allows you to render a dynamic import as a regular component. It makes it possible to load components only when they are needed, instead of loading all at once. Here\x27s how you can implement it:",
  "",
  "**GreetComponent.tsx**",
  "\x60\x60\x60typescript",
  "import React from \x27react\x27;",
  "",
  "const GreetComponent: React.FC = () => <h1>Hello, React!</h1>;",
  "",
  "export default GreetComponent;",
  "\x60\x60\x60",
  "",
  "**App.tsx**",
  "\x60\x60\x60typescript",
  "import React, \x7b Suspense \x7d from \x27react\x27;",
  "",
  "const GreetComponent = React.lazy(() => import(\x27./GreetComponent\x27));",
  "",
  "const App: React.FC = () => \x7b",
  "  return (",
  "    <div className=\"App\">",
  "      <Suspense fallback=\x7b<div>Loading...</div>\x7d>",
  "        <GreetComponent />",
  "      </Suspense>",
  "    </div>",
  "  );",
  "\x7d;",
  "",
  "export default App;",
  "\x60\x60\x60",
  "",
  "## Code Splitting with React.lazy",
  "",
  "Code-splitting is another feature that goes hand in hand with \x60React.lazy()\x60. It allows us to split our code into small chunks which can then be loaded on demand.",
  "",
  "Webpack, the module bundler that Create React App uses under the hood, supports this out of the box via the dynamic \x60import()\x60 syntax.",
  "",
  "\x60\x60\x60typescript",
  "import React, \x7b Suspense \x7d from \x27react\x27;",
  "",
  "const ComponentOne = React.lazy(() => import(\x27./ComponentOne\x27));",
  "const ComponentTwo = React.lazy(() => import(\x27./ComponentTwo\x27));",
  "",
  "const App: React.FC = () => \x7b",
  "  return (",
  "    <div className=\"App\">",
  "      <Suspense fallback=\x7b<div>Loading...</div>\x7d>",
  "        <ComponentOne />",
  "        <ComponentTwo />",
  "      </Suspense>",
  "    </div>",
  "  );",
  "\x7d;",
  "",
  "export default App;",
  "\x60\x60\x60",
  "In the above example, \x60ComponentOne\x60 and \x60ComponentTwo\x60 will be loaded only when they are rendered for the first time, hence reducing the initial load time.",
  "",
  "## Things to Note:",
  "",
  "**Fallback Component:** When using \x60React.lazy\x60, we should wrap it in a \x60Suspense\x60 component. The fallback prop takes the component that you want to render while waiting for the lazy component to load.",
  "",
  "**Default Export:** \x60React.lazy()\x60 requires the module to export a default component. So if your component uses named exports, you might want to create an intermediate module that reexports it as the default.",
  "",
  "**Error Boundaries:** If the module fails to load (for instance, due to network failure), it will trigger an error. This error can be handled by wrapping the lazy component with an error boundary.",
  "",
  "There you have it! With \x60React.lazy\x60 in your toolbox, you\x27re well-equipped to tackle large bundle sizes and improve user experience with faster load times. Just remember, while \x60React.lazy\x60 is a mighty tool, it\x27s not always necessary to use it for every component in your app. Use it where it makes sense, typically for larger components which are not initially visible. As always, happy coding!"]

/-- Lines of the source document at `pages/react-cheatsheets/react-performance-debugging/offloading-to-web-workers.mdx` (verbatim, one string per line). -/
def doc_offloading_to_web_workers : List String := [
  "# Cheatsheet: Offloading to Web Workers in TypeScript and React",
  "",
  "Alright, mate! Ever had a scenario where your React app\x27s doing so many number crunches it\x27s behaving like an overworked accountant during tax season? It\x27s time to call in some extra help with Web Workers. Let\x27s dive in and free up that main thread, shall we?",
  "",
  "## The Issue at Hand - Congested Main Thread",
  "",
  "If you\x27re asking your main thread to do all the work, it\x27s bound to get overwhelmed at some point. Too many computations can lead to a janky, unresponsive UI, and nobody wants that. ",
  "",
  "Let\x27s take a gander at this number-crunching component for our online shop. You\x27ve got a function \x60findBestDeal\x60 that sifts through all your products to find the best deal based on some complex calculations.",
  "",
  "**BestDeal.tsx**",
  "\x60\x60\x60typescript",
  "import React from \x27react\x27;",
  "",
  "const findBestDeal = (products: Array<Product>) => \x7b",
  "  // Some heavy computations...",
  "\x7d;",
  "",
  "const BestDeal = (\x7b products \x7d: \x7b products: Array<Product> \x7d) => \x7b",
  "  const bestDeal = findBestDeal(products);",
  "",
  "  return <div>Best deal: \x7bbestDeal.name\x7d</div>;",
  "\x7d;",
  "",
  "export default BestDeal;",
  "\x60\x60\x60",
  "",
  "## The Calvary - Web Workers",
  "",
  "Web Workers to the rescue! They\x27re like your own personal assistants, taking on those heavy tasks and leaving your main thread free to focus on user interactions.",
  "",
  "Let\x27s create a new worker file that will take care of finding the best deal.",
  "",
  "**bestDealWorker.ts**",
  "\x60\x60\x60typescript",
  "self.onmessage = (event) => \x7b",
  "  const products = event.data;",
  "  // Compute the best deal here...",
  "",
  "  self.postMessage(bestDeal);",
  "\x7d;",
  "\x60\x60\x60",
  "",
  "## Integrating Web Workers with React",
  "",
  "Here\x27s how we can put our new worker to work in the \x60BestDeal\x60 component.",
  "",
  "**BestDeal.tsx**",
  "\x60\x60\x60typescript",
  "import React, \x7b useEffect, useState \x7d from \x27react\x27;",
  "import Worker from \x27./bestDealWorker\x27;",
  "",
  "const BestDeal = (\x7b products \x7d: \x7b products: Array<Product> \x7d) => \x7b",
  "  const [bestDeal, setBestDeal] = useState<Product | null>(null);",
  "  const worker = new Worker();",
  "",
  "  useEffect(() => \x7b",
  "    worker.postMessage(products);",
  "    worker.onmessage = (event) => setBestDeal(event.data);",
  "    return () => worker.terminate();",
  "  \x7d, [products]);",
  "",
  "  return <div>Best deal: \x7bbestDeal ? bestDeal.name : \x27Calculating...\x27\x7d</div>;",
  "\x7d;",
  "",
  "export default BestDeal;",
  "\x60\x60\x60",
  "",
  "## The Lowdown",
  "",
  "Just like that, you\x27ve handed off the hard graft to a Web Worker. The UI stays responsive because your main thread is as free as a bird, and the computations are handled in the background.",
  "",
  "Web Workers aren\x27t a silver bullet and might not be the right fit for every scenario. They come with a little bit of extra complexity and some restrictions (like no DOM access), but when you\x27re dealing with heavy computations, they\x27re a great tool to have in your toolkit. You\x27re a badass, now."]

/-- Lines of the source document at `pages/react-cheatsheets/react-performance-debugging/optimizing-api-calls-with-useeffect-and-usecallback.mdx` (verbatim, one string per line). -/
def doc_optimizing_api_calls_with_useeffect_and_usecallback : List String := [
  "# Cheatsheet: Optimizing API Calls Relying On User Input",
  "",
  "React\x27s Hooks \x60useEffect\x60 and \x60useCallback\x60 are great tools when it comes to dealing with API They allow us to carve out a balance between performance and UX by sidestepping unnecessary network requests, bolstering performance, and generally making our UI more responsive and pleasant for users.",
  "",
  "",
  "## Case Study 1: Debouncing API Calls in a Search Component",
  "",
  "Envision a \x60Search\x60 component in which every keystroke initiates a network request. As users type, this could lead to a plethora of network requests, bogging down performance and potentially inundating the API server. Here\x27s where \x60useEffect\x60 and \x60useCallback\x60 can work their magic.",
  "",
  "**Step 1: The Setup**",
  "",
  "Let\x27s start with a basic \x60Search\x60 component that sends a request with every keystroke:",
  "",
  "\x60\x60\x60tsx",
  "import React, \x7b useState, useEffect \x7d from \"react\";",
  "import axios from \"axios\";",
  "",
  "interface Result \x7b",
  "  id: string;",
  "  title: string;",
  "  // other fields...",
  "\x7d",
  "",
  "const Search: React.FC = () => \x7b",
  "  const [term, setTerm] = useState<string>(\"\");",
  "  const [results, setResults] = useState<Result[]>([]);",
  "",
  "  useEffect(() => \x7b",
  "    const fetchResults = async () => \x7b",
  "      const response = await axios.get<Result[]>(",
  "        \x60https://api.example.com/search?term=$\x7bterm\x7d\x60",
  "      );",
  "      setResults(response.data);",
  "    \x7d;",
  "",
  "    fetchResults();",
  "  \x7d, [term]);",
  "",
  "  // ... render the component ...",
  "\x7d;",
  "",
  "export default Search;",
  "\x60\x60\x60",
  "",
  "**Step 2: Apply useCallback**",
  "",
  "Next, let\x27s wrap our API call in the \x60useCallback\x60 hook. This will give us a memoized version of the function, which means it will only change if its dependencies change:",
  "",
  "\x60\x60\x60tsx",
  "import React, \x7b useState, useEffect, useCallback \x7d from \"react\";",
  "import axios from \"axios\";",
  "",
  "interface Result \x7b",
  "  id: string;",
  "  title: string;",
  "  // other fields...",
  "\x7d",
  "",
  "const Search: React.FC = () => \x7b",
  "  const [term, setTerm] = useState<string>(\"\");",
  "  const [results, setResults] = useState<Result[]>([]);",
  "",
  "  const fetchResults = useCallback(async () => \x7b",
  "    const response = await axios.get<Result[]>(",
  "      \x60https://api.example.com/search?term=$\x7bterm\x7d\x60",
  "    );",
  "    setResults(response.data);",
  "  \x7d, [term]);",
  "",
  "  useEffect(() => \x7b",
  "    fetchResults();",
  "  \x7d, [fetchResults]);",
  "",
  "  // ... render the component ...",
  "",
  "  return <div>\x7b/* JSX content goes here */\x7d</div>;",
  "\x7d;",
  "",
  "export default Search;",
  "\x60\x60\x60",
  "",
  "**Step 3: Debounce with useEffect**",
  "",
  "Finally, let\x27s debounce our API calls using a combination of \x60useEffect\x60 and \x60useCallback\x60. We\x27ll add a delay to our \x60useEffect\x60 hook so that it waits for the user to stop typing before it sends a request:",
  "",
  "\x60\x60\x60tsx",
  "import React, \x7b useState, useEffect, useCallback \x7d from \"react\";",
  "import axios, \x7b AxiosResponse \x7d from \"axios\";",
  "",
  "interface Result \x7b",
  "  id: string;",
  "  title: string;",
  "  // other fields...",
  "\x7d",
  "",
  "const Search: React.FC = () => \x7b",
  "  const [term, setTerm] = useState<string>(\"\");",
  "  const [results, setResults] = useState<Result[]>([]);",
  "",
  "  const fetchResults = useCallback(async () => \x7b",
  "    const \x7b data \x7d: AxiosResponse<Result[]> = await axios.get(",
  "      \x60https://api.example.com/search?term=$\x7bterm\x7d\x60",
  "    );",
  "    setResults(data);",
  "  \x7d, [term]);",
  "",
  "  useEffect(() => \x7b",
  "    const timerId = setTimeout(fetchResults, 500);",
  "",
  "    return () => \x7b",
  "      clearTimeout(timerId);",
  "    \x7d;",
  "  \x7d, [fetchResults]);",
  "",
  "  // ... render the component ...",
  "",
  "  return <div>\x7b/* JSX content goes here */\x7d</div>;",
  "\x7d;",
  "",
  "export default Search;",
  "\x60\x60\x60",
  "",
  "Here, we\x27ve added a 500ms delay before the API call is made. If the user types something else within this delay, the previous API call is cancelled, and the timer is reset. Now, we\x27ve got a component that makes API calls intelligently, considering both user experience and API load.",
  "",
  "## Case Study 2: Reducing Unnecessary API Calls in a Pagination Component",
  "",
  "Picture a \x60Pagination\x60 component that sends an API request every time the page changes. However, the component also makes a new request even if the user re-selects the current page. Here\x27s how we can utilize \x60useEffect\x60 and \x60useCallback\x60 to avoid unnecessary network requests.",
  "",
  "**Step 1: The Initial Structure**",
  "",
  "We start with a basic \x60Pagination\x60 component that triggers an API call each time the page changes:",
  "",
  "\x60\x60\x60jsx",
  "import React, \x7b useState, useEffect \x7d from \"react\";",
  "import axios from \"axios\";",
  "",
  "const Pagination = () => \x7b",
  "  const [page, setPage] = useState(1);",
  "  const [data, setData] = useState([]);",
  "",
  "  useEffect(() => \x7b",
  "    const fetchData = async () => \x7b",
  "      const \x7b data \x7d = await axios.get(\x60https://api.example.com/page=$\x7bpage\x7d\x60);",
  "      setData(data);",
  "    \x7d;",
  "",
  "    fetchData();",
  "  \x7d, [page]);",
  "",
  "  // ... render the component ...",
  "\x7d;",
  "\x60\x60\x60",
  "",
  "**Step 2: Implement useCallback**",
  "",
  "Next, we encapsulate the API call inside the \x60useCallback\x60 hook. The memoized version of the function will only update if its dependencies change:",
  "",
  "\x60\x60\x60jsx",
  "import React, \x7b useState, useEffect, useCallback \x7d from \"react\";",
  "import axios from \"axios\";",
  "",
  "const Pagination = () => \x7b",
  "  const [page, setPage] = useState(1);",
  "  const [data, setData] = useState([]);",
  "",
  "  const fetchData = useCallback(async () => \x7b",
  "    const \x7b data \x7d = await axios.get(\x60https://api.example.com/page=$\x7bpage\x7d\x60);",
  "    setData(data);",
  "  \x7d, [page]);",
  "",
  "  useEffect(() => \x7b",
  "    fetchData();",
  "  \x7d, [fetchData]);",
  "",
  "  // ... render the component ...",
  "\x7d;",
  "\x60\x60\x60",
  "",
  "**Step 3: Avoid unnecessary API calls**",
  "",
  "Now we add an extra layer of intelligence to our component. We only want to call \x60fetchData\x60 when the page truly changes. We can achieve this by storing the previous page value and comparing it with the current page:",
  "",
  "\x60\x60\x60jsx",
  "import React, \x7b useState, useEffect, useCallback, useRef \x7d from \"react\";",
  "import axios from \"axios\";",
  "",
  "const Pagination = () => \x7b",
  "  const [page, setPage] = useState(1);",
  "  const [data, setData] = useState([]);",
  "  const prevPageRef = useRef(page);",
  "",
  "  const fetchData = useCallback(async () => \x7b",
  "    if (prevPageRef.current !== page) \x7b",
  "      const \x7b data \x7d = await axios.get(\x60https://api.example.com/page=$\x7bpage\x7d\x60);",
  "      setData(data);",
  "    \x7d",
  "  \x7d, [page]);",
  "",
  "  useEffect(() => \x7b",
  "    fetchData();",
  "    prevPageRef.current = page;",
  "  \x7d, [fetchData, page]);",
  "",
  "  // ... render the component ...",
  "\x7d;",
  "\x60\x60\x60",
  "",
  "By comparing the current page with the previous page before making the API call, we avoid sending redundant requests when the page hasn\x27t actually changed. Thus, we optimize our React component by reducing unnecessary network requests, enhancing the overall performance.",
  "",
  "## Case Study 3: Intelligent API Request Throttling in a Multi-Filter Component",
  "",
  "Consider a \x60Filter\x60 component where each filter change initiates a network request. This could result in a multitude of network requests, affecting performance and potentially overwhelming the API server. By leveraging \x60useEffect\x60 and \x60useCallback\x60, we can optimize our application, improving performance and the user experience.",
  "",
  "**Step 1: Initial Setup**",
  "",
  "Let\x27s start with a simple \x60Filter\x60 component that sends a request every time a filter changes:",
  "",
  "\x60\x60\x60jsx",
  "import React, \x7b useState, useEffect \x7d from \"react\";",
  "import axios from \"axios\";",
  "",
  "const Filter = () => \x7b",
  "  const [filters, setFilters] = useState(\x7b color: \"\", size: \"\" \x7d);",
  "  const [results, setResults] = useState([]);",
  "",
  "  useEffect(() => \x7b",
  "    const fetchResults = async () => \x7b",
  "      const \x7b data \x7d = await axios.get(\x60https://api.example.com/search\x60, \x7b",
  "        params: filters,",
  "      \x7d);",
  "      setResults(data);",
  "    \x7d;",
  "",
  "    fetchResults();",
  "  \x7d, [filters]);",
  "",
  "  // ... render the component ...",
  "\x7d;",
  "\x60\x60\x60",
  "",
  "**Step 2: Introduce useCallback**",
  "",
  "The next step is to encapsulate the API call in the \x60useCallback\x60 hook. This will provide us with a memoized version of the function that only changes when its dependencies do:",
  "",
  "\x60\x60\x60jsx",
  "import React, \x7b useState, useEffect, useCallback \x7d from \"react\";",
  "import axios from \"axios\";",
  "",
  "const Filter = () => \x7b",
  "  const [filters, setFilters] = useState(\x7b color: \"\", size: \"\" \x7d);",
  "  const [results, setResults] = useState([]);",
  "",
  "  const fetchResults = useCallback(async () => \x7b",
  "    const \x7b data \x7d = await axios.get(\x60https://api.example.com/search\x60, \x7b",
  "      params: filters,",
  "    \x7d);",
  "    setResults(data);",
  "  \x7d, [filters]);",
  "",
  "  useEffect(() => \x7b",
  "    fetchResults();",
  "  \x7d, [fetchResults]);",
  "",
  "  // ... render the component ...",
  "\x7d;",
  "\x60\x60\x60",
  "",
  "**Step 3: Throttle API Calls with useEffect**",
  "",
  "Finally, let\x27s throttle our API calls using \x60useEffect\x60 and \x60useCallback\x60. By introducing a delay in our \x60useEffect\x60 hook, we can ensure that it waits a reasonable time before sending a request:",
  "",
  "\x60\x60\x60jsx",
  "import React, \x7b useState, useEffect, useCallback \x7d from \"react\";",
  "import axios from \"axios\";",
  "",
  "const Filter = () => \x7b",
  "  const [filters, setFilters] = useState(\x7b color: \"\", size: \"\" \x7d);",
  "  const [results, setResults] = useState([]);",
  "",
  "  const fetchResults = useCallback(async () => \x7b",
  "    const \x7b data \x7d = await axios.get(\x60https://api.example.com/search\x60, \x7b",
  "      params: filters,",
  "    \x7d);",
  "    setResults(data);",
  "  \x7d, [filters]);",
  "",
  "  useEffect(() => \x7b",
  "    const timerId = setTimeout(fetchResults, 1000);",
  "",
  "    return () => \x7b",
  "      clearTimeout(timerId);",
  "    \x7d;",
  "  \x7d, [fetchResults]);",
  "",
  "  // ... render the component ...",
  "\x7d;",
  "\x60\x60\x60",
  "",
  "In this step, we\x27ve introduced a 1000ms delay before executing the API call. This means the API request will only be sent after a full second has passed without any filter changes. If a filter is adjusted during this delay, the previous API call is cancelled, and the timer resets.",
  "",
  "This approach provides a more responsive user experience, avoids unnecessary network requests, and reduces server load. Keep in mind that while powerful, this technique should be applied thoughtfully, considering both the user experience and the specific demands of your application.",
  "",
  "## Case Study 4: Conditional API Calls in a Profile Update Component",
  "",
  "Imagine a \x60Profile\x60 component that allows users to update their details. The component sends an API request every time the user clicks the save button. However, if there are no changes in the user\x27s information, the component should not make an unnecessary API request. Here\x27s how we can apply \x60useEffect\x60 and \x60useCallback\x60 to avoid these needless network requests.",
  "",
  "**Step 1: Initial Setup**",
  "",
  "First, let\x27s start with a basic \x60Profile\x60 component that triggers an API call each time the save button is clicked:",
  "",
  "\x60\x60\x60jsx",
  "import React, \x7b useState, useEffect \x7d from \"react\";",
  "import axios from \"axios\";",
  "",
  "const Profile = (\x7b initialProfile \x7d) => \x7b",
  "  const [profile, setProfile] = useState(initialProfile);",
  "",
  "  useEffect(() => \x7b",
  "    const saveProfile = async () => \x7b",
  "      await axios.put(\x60https://api.example.com/profile\x60, profile);",
  "    \x7d;",
  "",
  "    saveProfile();",
  "  \x7d, [profile]);",
  "",
  "  // ... render the component ...",
  "\x7d;",
  "\x60\x60\x60",
  "",
  "**Step 2: Implement useCallback**",
  "",
  "Next, we encapsulate the API call in the \x60useCallback\x60 hook. This provides a memoized version of the function that will only update if its dependencies change:",
  "",
  "\x60\x60\x60jsx",
  "import React, \x7b useState, useEffect, useCallback \x7d from \"react\";",
  "import axios from \"axios\";",
  "",
  "const Profile = (\x7b initialProfile \x7d) => \x7b",
  "  const [profile, setProfile] = useState(initialProfile);",
  "",
  "  const saveProfile = useCallback(async () => \x7b",
  "    await axios.put(\x60https://api.example.com/profile\x60, profile);",
  "  \x7d, [profile]);",
  "",
  "  useEffect(() => \x7b",
  "    saveProfile();",
  "  \x7d, [saveProfile]);",
  "",
  "  // ... render the component ...",
  "\x7d;",
  "\x60\x60\x60",
  "",
  "**Step 3: Avoid Unnecessary API Calls**",
  "",
  "Finally, we add intelligence to our component. We want to call \x60saveProfile\x60 only when there are actual changes to the user\x27s profile:",
  "",
  "\x60\x60\x60jsx",
  "import React, \x7b useState, useEffect, useCallback, useRef \x7d from \"react\";",
  "import axios from \"axios\";",
  "",
  "const Profile = (\x7b initialProfile \x7d) => \x7b",
  "  const [profile, setProfile] = useState(initialProfile);",
  "  const initialProfileRef = useRef(initialProfile);",
  "",
  "  const saveProfile = useCallback(async () => \x7b",
  "    if (JSON.stringify(initialProfileRef.current) !== JSON.stringify(profile)) \x7b",
  "      await axios.put(\x60https://api.example.com/profile\x60, profile);",
  "    \x7d",
  "  \x7d, [profile]);",
  "",
  "  useEffect(() => \x7b",
  "    saveProfile();",
  "    initialProfileRef.current = profile;",
  "  \x7d, [saveProfile, profile]);",
  "",
  "  // ... render the component ...",
  "\x7d;",
  "\x60\x60\x60",
  "",
  "In this final step, we compare the initial profile with the current profile before making the API call, avoiding redundant requests when the profile hasn\x27t actually changed. This results in a smarter React component that reduces unnecessary network requests and enhances performance.",
  "",
  "## Case Study 5: Instant Profile Update with Real-Time API Calls",
  "",
  "Imagine a \x60Profile\x60 component where every change made by the user instantly updates their profile by triggering an API request. However, if the user makes rapid changes, we risk making numerous, unnecessary requests. By effectively using \x60useEffect\x60 and \x60useCallback\x60, we can prevent these redundant calls.",
  "",
  "**Step 1: Initial Setup**",
  "",
  "Let\x27s begin with a basic \x60Profile\x60 component that sends an API request every time the user alters their profile:",
  "",
  "\x60\x60\x60jsx",
  "import React, \x7b useState, useEffect \x7d from \"react\";",
  "import axios from \"axios\";",
  "",
  "const Profile = (\x7b initialProfile \x7d) => \x7b",
  "  const [profile, setProfile] = useState(initialProfile);",
  "",
  "  useEffect(() => \x7b",
  "    const updateProfile = async () => \x7b",
  "      await axios.put(\x60https://api.example.com/profile\x60, profile);",
  "    \x7d;",
  "",
  "    updateProfile();",
  "  \x7d, [profile]);",
  "",
  "  // ... render the component ...",
  "\x7d;",
  "\x60\x60\x60",
  "",
  "**Step 2: Implement useCallback**",
  "",
  "Next, we\x27ll encase the API call in the \x60useCallback\x60 hook. This gives us a memoized version of the function that only changes when its dependencies change:",
  "",
  "\x60\x60\x60jsx",
  "import React, \x7b useState, useEffect, useCallback \x7d from \"react\";",
  "import axios from \"axios\";",
  "",
  "const Profile = (\x7b initialProfile \x7d) => \x7b",
  "  const [profile, setProfile] = useState(initialProfile);",
  "",
  "  const updateProfile = useCallback(async () => \x7b",
  "    await axios.put(\x60https://api.example.com/profile\x60, profile);",
  "  \x7d, [profile]);",
  "",
  "  useEffect(() => \x7b",
  "    updateProfile();",
  "  \x7d, [updateProfile]);",
  "",
  "  // ... render the component ...",
  "\x7d;",
  "\x60\x60\x60",
  "",
  "**Step 3: Optimized API Calls with useRef**",
  "",
  "Finally, we optimize our component by comparing the previous profile with the current one before making the API call. We avoid sending unnecessary requests when the profile hasn\x27t changed, improving both performance and efficiency:",
  "",
  "\x60\x60\x60jsx",
  "import React, \x7b useState, useEffect, useCallback, useRef \x7d from \"react\";",
  "import axios from \"axios\";",
  "",
  "const Profile = (\x7b initialProfile \x7d) => \x7b",
  "  const [profile, setProfile] = useState(initialProfile);",
  "  const prevProfileRef = useRef(profile);",
  "",
  "  const updateProfile = useCallback(async () => \x7b",
  "    if (JSON.stringify(prevProfileRef.current) !== JSON.stringify(profile)) \x7b",
  "      await axios.put(\x60https://api.example.com/profile\x60, profile);",
  "    \x7d",
  "  \x7d, [profile]);",
  "",
  "  useEffect(() => \x7b",
  "    updateProfile();",
  "    prevProfileRef.current = profile;",
  "  \x7d, [updateProfile, profile]);",
  "",
  "  // ... render the component ...",
  "\x7d;",
  "\x60\x60\x60",
  "",
  "In this configuration, the component now only makes an API request if there\x27s an actual change in the profile data, reducing the number of network requests.",
  "",
  "## Case Study 6: Creating a Custom Hook for Optimized API Calls",
  "",
  "Putting this all together, let\x27s write a \x60useApiRequest\x60 Custom Hook that allows debouncing and dependency checks for API calls to avoid unnecessary requests when params haven\x27t changed, or a user is still making UI changes.",
  "",
  "**Step 1: Initial Setup**",
  "",
  "First, let\x27s define a custom hook that performs an API request and sets the response to the state. It will be named \x60useApiRequest\x60, and it will take the initial data, request type, path, initial parameters, and delay as arguments:",
  "",
  "\x60\x60\x60jsx",
  "import \x7b useState, useEffect, useCallback \x7d from \"react\";",
  "import axios from \"axios\";",
  "",
  "const useApiRequest = (",
  "  initialData,",
  "  requestType,",
  "  path,",
  "  initialParams,",
  "  delay",
  ") => \x7b",
  "  const [data, setData] = useState(initialData);",
  "  const [params, setParams] = useState(initialParams);",
  "",
  "  // We\x27ll define the apiRequest function in the next step...",
  "",
  "  return [data, setData, setParams];",
  "\x7d;",
  "\x60\x60\x60",
  "",
  "**Step 2: Incorporating useCallback and useRef**",
  "",
  "Next, we define the \x60apiRequest\x60 function using \x60useCallback\x60 to prevent unnecessary re-creations of the function. Additionally, we employ \x60useRef\x60 to hold a reference to the previous data and parameters, allowing us to check if they\x27ve changed before performing the API request:",
  "",
  "\x60\x60\x60jsx",
  "import \x7b useState, useEffect, useCallback, useRef \x7d from \"react\";",
  "import axios from \"axios\";",
  "",
  "const useApiRequest = (",
  "  initialData,",
  "  requestType,",
  "  path,",
  "  initialParams,",
  "  delay",
  ") => \x7b",
  "  const [data, setData] = useState(initialData);",
  "  const [params, setParams] = useState(initialParams);",
  "  const prevDataRef = useRef(data);",
  "  const prevParamsRef = useRef(params);",
  "",
  "  const apiRequest = useCallback(async () => \x7b",
  "    if (",
  "      JSON.stringify(prevDataRef.current) !== JSON.stringify(data) ||",
  "      JSON.stringify(prevParamsRef.current) !== JSON.stringify(params)",
  "    ) \x7b",
  "      let response;",
  "      switch (requestType) \x7b",
  "        case \"GET\":",
  "          response = await axios.get(path, \x7b params \x7d);",
  "          break;",
  "        case \"POST\":",
  "          response = await axios.post(path, data);",
  "          break;",
  "        case \"PUT\":",
  "          response = await axios.put(path, data);",
  "          break;",
  "        case \"DELETE\":",
  "          response = await axios.delete(path);",
  "          break;",
  "        default:",
  "          throw new Error(\"Invalid request type\");",
  "      \x7d",
  "      setData(response.data);",
  "      prevDataRef.current = data;",
  "      prevParamsRef.current = params;",
  "    \x7d",
  "  \x7d, [data, requestType, path, params]);",
  "",
  "  return [data, setData, setParams];",
  "\x7d;",
  "\x60\x60\x60",
  "",
  "**Step 3: Applying useEffect for Debouncing**",
  "",
  "Finally, we leverage \x60useEffect\x60 to manage the timing of the API request. The \x60setTimeout\x60 function, together with the \x60delay\x60 argument, provides a debounce effect, preventing the request from being sent until the user has stopped making changes for a certain period:",
  "",
  "\x60\x60\x60jsx",
  "import \x7b useState, useEffect, useCallback, useRef \x7d from \x27react\x27;",
  "import axios from \x27axios\x27;",
  "",
  "const useApiRequest = (initialData, requestType, path, initialParams, delay) => \x7b",
  "  const [data, setData] = useState(initialData);",
  "  const [params, setParams] = useState(initialParams);",
  "  const prevDataRef = useRef(data);",
  "  const prevParamsRef = useRef(params);",
  "",
  "  const apiRequest = useCallback(async () => \x7b",
  "    if (JSON.stringify(prevDataRef.current) !== JSON.stringify(data) ||",
  "        JSON.stringify(prevParams",
  "",
  "Ref.current) !== JSON.stringify(params)) \x7b",
  "",
  "      let response;",
  "      switch(requestType) \x7b",
  "        case \x27GET\x27:",
  "          response = await axios.get(path, \x7b params \x7d);",
  "          break;",
  "        case \x27POST\x27:",
  "          response = await axios.post(path, data);",
  "          break;",
  "        case \x27PUT\x27:",
  "          response = await axios.put(path, data);",
  "          break;",
  "        case \x27DELETE\x27:",
  "          response = await axios.delete(path);",
  "          break;",
  "        default:",
  "          throw new Error(\x27Invalid request type\x27);",
  "      \x7d",
  "      setData(response.data);",
  "      prevDataRef.current = data;",
  "      prevParamsRef.current = params;",
  "    \x7d",
  "  \x7d, [data, requestType, path, params]);",
  "",
  "  useEffect(() => \x7b",
  "    const timerId = setTimeout(apiRequest, delay);",
  "",
  "    return () => \x7b",
  "      clearTimeout(timerId);",
  "    \x7d;",
  "  \x7d, [apiRequest, delay]);",
  "",
  "  return [data, setData, setParams];",
  "\x7d;",
  "\x60\x60\x60",
  "",
  "And finally, let\x27s do a final refactoring to clear up the code, add an isLoading state for data, and handle any errors. We\x27ll need these so our components can handle various states and update the UI accordinly to always keep the user informed of what\x27s going on.",
  "",
  "- **Introduced New State Variables:** We added \x60isLoading\x60 and \x60error\x60 as new state variables. \x60isLoading\x60 will be used to track the loading status of the API request, while \x60error\x60 will store any errors that occur during the API request.",
  "",
  "- **Updated \x60apiRequest\x60 function:**",
  "",
  "  - **Add Types:** We added types to the \x60apiRequest\x60 function to make it more readable and easier to understand.",
  "",
  "  - **Start of Request:** As soon as the API request begins, we set \x60isLoading\x60 to \x60true\x60 and \x60error\x60 to \x60null\x60. This indicates that the request has started and there are currently no errors.",
  "",
  "  - **Successful Request:** In case of a successful request, we follow the same approach as before - updating the \x60data\x60 and storing the current \x60data\x60 and \x60params\x60 into their respective refs.",
  "",
  "  - **Error Handling:** We wrapped the API call in a try-catch block. If an error is thrown during the request, we catch the error and store it in the \x60error\x60 state variable.",
  "",
  "  - **End of Request:** Finally, regardless of whether the request was successful or an error occurred, we set \x60isLoading\x60 to \x60false\x60 to indicate that the request has finished.",
  "",
  "- **Updated Hook Return Values:** Lastly, we updated the return values of the hook to include the new state variables \x60isLoading\x60 and \x60error\x60. This allows the component using the hook to access and handle the loading status and any errors.",
  "",
  "\x60\x60\x60tsx",
  "import \x7b useState, useEffect, useCallback, useRef \x7d from \"react\";",
  "import axios, \x7b AxiosResponse \x7d from \"axios\";",
  "",
  "// Generic Request Config interface",
  "interface RequestConfig<T> \x7b",
  "  initialData: T;",
  "  requestType: \"GET\" | \"POST\" | \"PUT\" | \"DELETE\";",
  "  url: string;",
  "  initialParameters?: T;",
  "  delay: number;",
  "\x7d",
  "",
  "// Generic return type of useApiRequest",
  "type UseApiRequestReturn<T> = [",
  "  data: T,",
  "  setData: React.Dispatch<React.SetStateAction<T>>,",
  "  setParameters: React.Dispatch<React.SetStateAction<T>>,",
  "  isLoading: boolean,",
  "  error: Error | null",
  "];",
  "",
  "// Generic performRequest function",
  "const performRequest = async <T,>(",
  "  requestType: \"GET\" | \"POST\" | \"PUT\" | \"DELETE\",",
  "  url: string,",
  "  parameters: T,",
  "  data: T",
  "): Promise<AxiosResponse<T>> => \x7b",
  "  switch (requestType) \x7b",
  "    case \"GET\":",
  "      return await axios.get<T>(url, \x7b params: parameters \x7d);",
  "    case \"POST\":",
  "      return await axios.post<T>(url, data);",
  "    case \"PUT\":",
  "      return await axios.put<T>(url, data);",
  "    case \"DELETE\":",
  "      return await axios.delete<T>(url);",
  "    default:",
  "      throw new Error(\"Invalid request type\");",
  "  \x7d",
  "\x7d;",
  "",
  "// Generic useApiRequest hook",
  "const useApiRequest = <T,>(\x7b",
  "  initialData,",
  "  requestType,",
  "  url,",
  "  initialParameters = \x7b\x7d as T,",
  "  delay,",
  "\x7d: RequestConfig<T>): UseApiRequestReturn<T> => \x7b",
  "  const [data, setData] = useState<T>(initialData);",
  "  const [parameters, setParameters] = useState<T>(initialParameters);",
  "  const [isLoading, setIsLoading] = useState<boolean>(false);",
  "  const [error, setError] = useState<Error | null>(null);",
  "",
  "  const previousData = useRef<T>(data);",
  "  const previousParameters = useRef<T>(parameters);",
  "",
  "  const executeApiRequest = useCallback(async () => \x7b",
  "    if (",
  "      JSON.stringify(previousData.current) !== JSON.stringify(data) ||",
  "      JSON.stringify(previousParameters.current) !== JSON.stringify(parameters)",
  "    ) \x7b",
  "      setIsLoading(true);",
  "      setError(null);",
  "",
  "      try \x7b",
  "        const response = await performRequest<T>(",
  "          requestType,",
  "          url,",
  "          parameters,",
  "          data",
  "        );",
  "        setData(response.data);",
  "        previousData.current = data;",
  "        previousParameters.current = parameters;",
  "      \x7d catch (error) \x7b",
  "        setError(error);",
  "      \x7d finally \x7b",
  "        setIsLoading(false);",
  "      \x7d",
  "    \x7d",
  "  \x7d, [data, requestType, url, parameters]);",
  "",
  "  useEffect(() => \x7b",
  "    const timerId = setTimeout(executeApiRequest, delay);",
  "    return () => clearTimeout(timerId);",
  "  \x7d, [executeApiRequest, delay]);",
  "",
  "  return [data, setData, setParameters, isLoading, error];",
  "\x7d;",
  "\x60\x60\x60",
  "",
  "### Examples",
  "",
  "Now that we have our hook, let\x27s see how we can use it in our components -",
  "",
  "#### \x60GET\x60 Request",
  "",
  "\x60\x60\x60tsx",
  "// Usage of useApiRequest with User type",
  "// User data type",
  "interface User \x7b",
  "  name: string;",
  "  age: number;",
  "  email: string;",
  "\x7d",
  "",
  "const DisplayUsers = () => \x7b",
  "  const [userData, setUserData, setParameters, isLoading, error] =",
  "    useApiRequest<User>(\x7b",
  "      initialData: \x7b name: \"\", age: 0, email: \"\" \x7d,",
  "      requestType: \"GET\",",
  "      url: \"/api/user\",",
  "      delay: 1000,",
  "    \x7d);",
  "",
  "  // ... use the userData, setUserData, setParameters, isLoading, error in your component",
  "\x7d;",
  "\x60\x60\x60",
  "",
  "#### \x60POST\x60 Request",
  "",
  "\x60\x60\x60tsx",
  "// Example data type for a POST request",
  "interface PostData \x7b",
  "  title: string;",
  "  body: string;",
  "  userId: number;",
  "\x7d",
  "",
  "// Example component",
  "const ExampleComponent = () => \x7b",
  "  const [postData, setPostData, setParameters, isLoading, error] =",
  "    useApiRequest<PostData>(\x7b",
  "      initialData: \x7b title: \"foo\", body: \"bar\", userId: 1 \x7d, // The body of the POST request",
  "      requestType: \"POST\",",
  "      url: \"/api/posts\",",
  "      delay: 1000,",
  "    \x7d);",
  "",
  "  // ... use postData, setPostData, setParameters, isLoading, error in your component",
  "\x7d;",
  "\x60\x60\x60",
  "",
  "",
  "## Conclusion",
  "",
  "So there you have it! Advanced data fetching with React Hooks, taking user experience and server load into consideration. These techniques can be overkill in smaller apps, but once you\x27re really getting down to optimizing performance, i\x27d recommend learning these patterns to see what fits.",
  ""]

/-- Lines of the source document at `pages/react-cheatsheets/react-performance-debugging/optimizing-context-api-with-memoization-and-context-splitting.mdx` (verbatim, one string per line). -/
def doc_optimizing_context_api_with_memoization_and_context_splitting : List String := [
  "# Advanced Optimization Techniques for React\x27s Context API: A Deep Dive into Memoization and Context Splitting",
  "",
  "In the vast landscape of state management solutions in React, the Context API has emerged as a popular tool for handling global state due to its simplicity and ease of integration. However, as seasoned React developers, we often come face-to-face with a pesky performance issue: excessive re-renders caused by the Context API. This article delves into advanced techniques that tackle this problem, namely memoization and context splitting, and demonstrates their practical application.",
  "",
  "The implications of these techniques are manifold. They not only help boost performance, but also allow more modular code, increase flexibility and, in some cases, simplify debugging. By strategically leveraging memoization and context splitting, you can minimize unnecessary re-renders and achieve a smoother user experience, regardless of the scale and complexity of your React applications.",
  "",
  "## A Real-World Scenario: Online Shopping Cart",
  "",
  "Consider the ubiquitous online shopping cart, an ideal case study that highlights the pain points of global state management. A cart\x27s state and its associated actions - adding and removing items - encapsulate both the data (state) and the behavior (actions) required by different components in our application.",
  "",
  "**CartContext.js**",
  "",
  "\x60\x60\x60jsx",
  "import React, \x7b createContext, useReducer \x7d from \"react\";",
  "import cartReducer from \"./cartReducer\";",
  "",
  "const CartContext = createContext();",
  "",
  "const CartProvider = (\x7b children \x7d) => \x7b",
  "  const [cart, dispatch] = useReducer(cartReducer, []);",
  "",
  "  const addToCart = (item) => \x7b",
  "    dispatch(\x7b type: \"ADD_ITEM\", item \x7d);",
  "  \x7d;",
  "",
  "  // ...",
  "",
  "  return (",
  "    <CartContext.Provider value=\x7b\x7b cart, addToCart \x7d\x7d>",
  "      \x7bchildren\x7d",
  "    </CartContext.Provider>",
  "  );",
  "\x7d;",
  "\x60\x60\x60",
  "",
  "## The Challenge: Unnecessary Re-renders",
  "",
  "Components subscribing to \x60CartContext\x60 are re-rendered every time the cart state changes, a behavior intrinsic to React\x27s Context API. However, this becomes problematic when certain components need only the actions (like \x60addToCart\x60) and are indifferent to state changes. Despite this, they\x27re unnecessarily re-rendered, leading to performance inefficiencies.",
  "",
  "Take the \x60AddToCartButton\x60 component as an example. It uses the \x60addToCart\x60 function without any need for the \x60cart\x60 state. However, any changes to the cart trigger a re-render of this component.",
  "",
  "**AddToCartButton.js**",
  "",
  "\x60\x60\x60jsx",
  "import React, \x7b useContext \x7d from \"react\";",
  "import \x7b CartContext \x7d from \"./CartContext\";",
  "",
  "const AddToCartButton = (\x7b item \x7d) => \x7b",
  "  const \x7b addToCart \x7d = useContext(CartContext);",
  "  return <button onClick=\x7b() => addToCart(item)\x7d>Add to Cart</button>;",
  "\x7d;",
  "\x60\x60\x60",
  "",
  "## The Techniques: Memoization and Context Splitting",
  "",
  "### Memoization",
  "",
  "To circumvent unnecessary re-renders, we utilize memoization, leveraging React\x27s built-in \x60useMemo\x60 hook to memoize the context value.",
  "",
  "**Updated CartContext.js**",
  "",
  "\x60\x60\x60jsx",
  "import React, \x7b createContext, useReducer, useMemo \x7d from \"react\";",
  "import cartReducer from \"./cartReducer\";",
  "",
  "const CartContext = createContext();",
  "",
  "const CartProvider = (\x7b children \x7d) => \x7b",
  "  const [cart, dispatch] = useReducer(cartReducer, []);",
  "",
  "  const addToCart = (item) => \x7b",
  "    dispatch(\x7b type: \"ADD_ITEM\", item \x7d);",
  "  \x7d;",
  "",
  "  const value = useMemo(() => (\x7b cart, addToCart \x7d), [cart]);",
  "",
  "  return <CartContext.Provider value=\x7bvalue\x7d>\x7bchildren\x7d</CartContext.Provider>;",
  "\x7d;",
  "\x60\x60\x60",
  "",
  "### Context Splitting",
  "",
  "An alternative strategy involves context splitting, where we separate the context into \x60CartStateContext\x60 for the state and \x60CartDispatchContext\x60 for the actions.",
  "",
  "**SplitCartContext.js**",
  "",
  "\x60\x60\x60jsx",
  "import React, \x7b createContext, useReducer \x7d from \"react\";",
  "import cartReducer from \"./cartReducer\";",
  "",
  "const CartStateContext = createContext();",
  "const CartDispatchContext = createContext();",
  "",
  "const CartProvider = (\x7b children \x7d) => \x7b",
  "  const [cart, dispatch] = useReducer(cartReducer, []);",
  "",
  "  const addToCart = (item) => \x7b",
  "    dispatch(\x7b type: \"ADD_ITEM\", item \x7d);",
  "  \x7d;",
  "",
  "  // ...",
  "",
  "  return (",
  "    <CartStateContext.Provider value=\x7bcart\x7d>",
  "      <CartDispatchContext.Provider value=\x7baddToCart\x7d>",
  "        \x7bchildren\x7d",
  "      </CartDispatchContext.Provider>",
  "    </CartStateContext.Provider>",
  "  );",
  "\x7d;",
  "\x60\x60\x60",
  "",
  "With this arrangement, \x60AddToCartButton\x60 can consume \x60CartDispatchContext\x60 exclusively, eliminating superfluous re-renders triggered by changes to the cart state.",
  "",
  "**Updated AddToCartButton.js**",
  "",
  "\x60\x60\x60jsx",
  "import React, \x7b useContext \x7d from \"react\";",
  "import \x7b CartDispatchContext \x7d from \"./SplitCartContext\";",
  "",
  "const AddToCartButton = (\x7b item \x7d) => \x7b",
  "  const addToCart = useContext(CartDispatchContext);",
  "  return <button onClick=\x7b() => addToCart(item)\x7d>Add to Cart</button>;",
  "\x7d;",
  "\x60\x60\x60",
  "",
  "## Wrapping Up",
  "",
  "Both memoization and context splitting serve as potent techniques to enhance application performance by curbing unnecessary re-renders. They facilitate the effective use of the Context API for global state management, minimizing performance overhead. Embrace these advanced optimization strategies, and watch your React applications perform seamlessly. Happy coding, fellow developers!",
  ""]

/-- Lines of the source document at `pages/react-cheatsheets/react-performance-debugging/optimizing-context-api-with-memoization-and-context-splitting.mdx#related1` (verbatim, one string per line). -/
def doc_optimizing_context_api_with_memoization_and_context_splitting_related1 : List String := [
  "# Cheatsheet: Optimizing Context API with Memoization and Context Splitting",
  "",
  "Feeling the heat from all those unnecessary re-renders due to React\x27s Context API? Well, you\x27re not alone. This cheatsheet will guide you through how you can optimize Context API using memoization and context splitting. ",
  "",
  "Let\x27s head back to our favorite case study, the ever-entertaining online shopping cart, and see how we can make this baby purr.",
  "",
  "## Online Shopping Cart - Case Study",
  "",
  "Take a gander at this context provider for our cart. We\x27ve got our cart state and a couple of handy-dandy actions like adding and removing items from the cart. ",
  "",
  "**CartContext.js**",
  "\x60\x60\x60jsx",
  "import React, \x7b createContext, useReducer \x7d from \x27react\x27;",
  "import cartReducer from \x27./cartReducer\x27;",
  "",
  "const CartContext = createContext();",
  "",
  "const CartProvider = (\x7b children \x7d) => \x7b",
  "  const [cart, dispatch] = useReducer(cartReducer, []);",
  "",
  "  const addToCart = (item) => \x7b",
  "    dispatch(\x7b type: \x27ADD_ITEM\x27, item \x7d);",
  "  \x7d;",
  "",
  "  // ...",
  "",
  "  return (",
  "    <CartContext.Provider value=\x7b\x7b cart, addToCart \x7d\x7d>",
  "      \x7bchildren\x7d",
  "    </CartContext.Provider>",
  "  );",
  "\x7d;",
  "\x60\x60\x60",
  "",
  "## The Problem - Unwanted Guests (aka Unnecessary Re-Renders)",
  "",
  "Any component that pulls up a chair to the \x60CartContext\x60 table will re-render when the cart state changes. But what about the components that only need the actions, like \x60addToCart\x60, and couldn\x27t care less about the state? Yep, you guessed it, they\x27re still forced to re-render when the cart state changes.",
  "",
  "**AddToCartButton.js**",
  "\x60\x60\x60jsx",
  "import React, \x7b useContext \x7d from \x27react\x27;",
  "import \x7b CartContext \x7d from \x27./CartContext\x27;",
  "",
  "const AddToCartButton = (\x7b item \x7d) => \x7b",
  "  const \x7b addToCart \x7d = useContext(CartContext);",
  "  return <button onClick=\x7b() => addToCart(item)\x7d>Add to Cart</button>;",
  "\x7d;",
  "\x60\x60\x60",
  "",
  "Our \x60AddToCartButton\x60 above only needs the \x60addToCart\x60 function and not the \x60cart\x60 state. But alas, it still re-renders whenever the cart changes since it\x27s chowing down at the \x60CartContext\x60.",
  "",
  "## The Solution - Memoization and Context Splitting",
  "",
  "### Memoization",
  "",
  "We\x27ll use React\x27s built-in \x60useMemo\x60 hook for memoizing the context value, which will prevent unnecessary re-renders.",
  "",
  "**Updated CartContext.js**",
  "\x60\x60\x60jsx",
  "import React, \x7b createContext, useReducer, useMemo \x7d from \x27react\x27;",
  "import cartReducer from \x27./cartReducer\x27;",
  "",
  "const CartContext = createContext();",
  "",
  "const CartProvider = (\x7b children \x7d) => \x7b",
  "  const [cart, dispatch] = useReducer(cartReducer, []);",
  "",
  "  const addToCart = (item) => \x7b",
  "    dispatch(\x7b type: \x27ADD_ITEM\x27, item \x7d);",
  "  \x7d;",
  "",
  "  const value = useMemo(() => (\x7b cart, addToCart \x7d), [cart]);",
  "",
  "  return <CartContext.Provider value=\x7bvalue\x7d>\x7bchildren\x7d</CartContext.Provider>;",
  "\x7d;",
  "\x60\x60\x60",
  "",
  "### Context Splitting",
  "",
  "Another approach we can leverage is to split our context into two: a \x60CartStateContext\x60 for the state and a \x60CartDispatchContext\x60 for the actions. ",
  "",
  "**SplitCartContext.js**",
  "\x60\x60\x60jsx",
  "import React, \x7b createContext, useReducer \x7d from \x27react\x27;",
  "import cartReducer from \x27./cartReducer\x27;",
  "",
  "const CartStateContext = createContext();",
  "const CartDispatchContext = createContext();",
  "",
  "const CartProvider = (\x7b children \x7d) => \x7b",
  "  const [cart, dispatch] = useReducer(cartReducer, []);",
  "",
  "  const addToCart = (item) => \x7b",
  "    dispatch(\x7b type: \x27ADD_ITEM\x27, item \x7d);",
  "  \x7d;",
  "",
  "  // ...",
  "",
  "  return (",
  "    <CartStateContext.Provider value=\x7bcart\x7d>",
  "      <Cart",
  "",
  "DispatchContext.Provider value=\x7baddToCart\x7d>",
  "        \x7bchildren\x7d",
  "      </CartDispatchContext.Provider>",
  "    </CartStateContext.Provider>",
  "  );",
  "\x7d;",
  "\x60\x60\x60",
  "",
  "With this setup, our \x60AddToCartButton\x60 can tap into the \x60CartDispatchContext\x60 only and will no longer re-render when the cart state changes.",
  "",
  "**Updated AddToCartButton.js**",
  "\x60\x60\x60jsx",
  "import React, \x7b useContext \x7d from \x27react\x27;",
  "import \x7b CartDispatchContext \x7d from \x27./SplitCartContext\x27;",
  "",
  "const AddToCartButton = (\x7b item \x7d) => \x7b",
  "  const addToCart = useContext(CartDispatchContext);",
  "  return <button onClick=\x7b() => addToCart(item)\x7d>Add to Cart</button>;",
  "\x7d;",
  "\x60\x60\x60",
  "",
  "## In Conclusion",
  "",
  "Both memoization and context splitting are fantastic solutions to optimize our app performance by curtailing unnecessary re-renders. It\x27s all about using Context API for global state management without having to break a sweat over performance issues. Happy coding, amigo!"]

/-- Lines of the source document at `pages/react-cheatsheets/react-performance-debugging/profiling-components-with-react-devtools.mdx` (verbatim, one string per line). -/
def doc_profiling_components_with_react_devtools : List String := [
  "# React Component Profiling Cheatsheet",
  "",
  "**Note**: Ensure you have the React DevTools extension installed in your browser to follow this guide.",
  "",
  "### Accessing the Profiler",
  "",
  "1. Open React DevTools in your browser\x27s developer tools panel.",
  "2. Click on the \"Profiler\" tab in the toolbar.",
  "",
  "### Starting and Stopping the Profiling Session",
  "",
  "1. Click the \"Record\" button to start a profiling session.",
  "2. Interact with your app as you normally would. The Profiler will collect performance information during this time.",
  "3. Click the \"Record\" button again to stop the profiling session.",
  "",
  "### Analyzing the Results",
  "",
  "1. **Flamegraph**: The Flamegraph represents each component that was rendered during the profiling session. Each bar represents a React component (the wider the bar, the longer it took to render).",
  "",
  "2. **Ranked Chart**: The ranked chart presents the same information as the flame graph, but in a list form sorted by render time.",
  "",
  "3. **Component Chart**: The component chart shows how many times each component rendered during the profiling session.",
  "",
  "### Understanding the Flamegraph",
  "",
  "1. **Color**: Each bar in the flamegraph is color-coded to represent how much time was spent rendering the components:",
  "",
  "   - Gray: time spent rendering components outside of the profiling session.",
  "   - Blue: time spent on the current commit where components were rendered.",
  "   - Yellow: time spent on other activities.",
  "",
  "2. **Width**: The width of a bar represents how long the component (and its children) took to render. A wider bar means a longer render time.",
  "",
  "### Selecting a Commit",
  "",
  "1. Use the slider or the arrows at the bottom to select a specific commit to inspect.",
  "",
  "### Inspecting a Component",
  "",
  "1. Click on a bar in the flamegraph to see more information about the component. This will show:",
  "   - Which props changed since the last render.",
  "   - The actual and base durations of the component.",
  "",
  "### Analyzing the Results",
  "",
  "1. **Long Bars in the Flamegraph**: Look for bars that are significantly wider than others. These components took longer to render and might be candidates for optimization.",
  "",
  "2. **Frequent Re-renders in the Component Chart**: If a component shows a high count in the component chart, it might be rendering too often.",
  "",
  "### Profiling Options",
  "",
  "1. **Record why each component rendered while profiling**: This option can provide more information about why a component re-rendered.",
  "",
  "2. **Highlight updates when components render**: This can be useful to visually see which parts of the page are re-rendering.",
  "",
  "",
  "### Case Study 1: Profiling a Slow List Component",
  "",
  "Imagine you have a \x60ProductList\x60 component that renders a large list of \x60ProductItem\x60 components. You\x27ve noticed that when a single product is added or removed, the entire list re-renders, causing a noticeable delay.",
  "",
  "**Step 1: Start Profiling**",
  "",
  "Start the profiling session and interact with the \x60ProductList\x60 component.",
  "",
  "**Step 2: Analyze the Flamegraph**",
  "",
  "In the Flamegraph, you notice that \x60ProductList\x60 is taking a considerable amount of time to render, and every \x60ProductItem\x60 is also being re-rendered.",
  "",
  "**Step 3: Inspect the Component**",
  "",
  "By selecting the \x60ProductList\x60 component in the flamegraph, you find that the \x60products\x60 prop is changing every time, causing the component and all its children to re-render.",
  "",
  "**Solution**",
  "",
  "In this case, the issue might be that a new \x60products\x60 array is created every time the state changes. A possible solution would be to ensure that product items have consistent identities across renders. You could use the \x60useMemo\x60 hook to memoize the \x60products\x60 array, or ensure that the \x60ProductItem\x60 components are only re-rendering when their specific product changes.",
  "",
  "### Case Study 2: Profiling a Complex Form Component",
  "",
  "Let\x27s say you have a \x60UserForm\x60 component with several input fields. Users have reported that typing into the fields feels sluggish.",
  "",
  "**Step 1: Start Profiling**",
  "",
  "Begin the profiling session, then interact with the form by typing into the fields.",
  "",
  "**Step 2: Analyze the Component Chart**",
  "",
  "The Component Chart reveals that the \x60UserForm\x60 component is re-rendering every time you type a character into any field.",
  "",
  "**Step 3: Inspect the Component**",
  "",
  "Upon selecting the \x60UserForm\x60 in the flamegraph, you find that the entire form re-renders every time the \x60formValues\x60 state changes.",
  "",
  "**Solution**",
  "",
  "The issue could be that the form is keeping all of its values in a single state object, causing a re-render every time any field changes. A possible solution would be to break up the \x60formValues\x60 state into individual state variables for each field using the \x60useState\x60 hook. This way, changing the state of one field doesn\x27t cause the others to re-render.",
  "",
  "In both these cases, using React DevTools Profiler allowed us to identify performance issues and helped us strategize the solutions to enhance the app\x27s performance.",
  "",
  "Remember, the goal of profiling is not to eliminate all re-renders or to make your flame graph perfectly flat. Instead, use these tools to find the areas of your app that are doing more work than necessary, and optimize accordingly.",
  ""]

/-- Lines of the source document at `pages/react-cheatsheets/react-performance-debugging/suspense-and-concurrent-mode-in-react-18.mdx` (verbatim, one string per line). -/
def doc_suspense_and_concurrent_mode_in_react_18 : List String := [
  "# Cheatsheet: Dipping Into Suspense & Concurrent Mode with TypeScript & React",
  "",
  "Pull up a chair, and let\x27s dive into the React toolbox again, shall we? This time, we\x27re uncovering the mysteries of Suspense and Concurrent Mode. They sound fancy, don\x27t they? That\x27s because they are, and they\x27re about to change the way you think about loading states and perceived performance in your React apps.",
  "",
  "## Setting the Stage - Loading States and Janky User Experience",
  "",
  "We\x27ve all been there - you have components in your app that fetch data, and while they\x27re waiting for that data, they need to show some loading state. Here\x27s an example, fetching products for our online store:",
  "",
  "**ProductList.tsx**",
  "\x60\x60\x60typescript",
  "import React, \x7b useEffect, useState \x7d from \x27react\x27;",
  "import \x7b fetchProducts \x7d from \x27./api\x27;",
  "",
  "const ProductList = () => \x7b",
  "  const [products, setProducts] = useState<Product[] | null>(null);",
  "",
  "  useEffect(() => \x7b",
  "    fetchProducts().then(setProducts);",
  "  \x7d, []);",
  "",
  "  if (!products) \x7b",
  "    return <div>Loading...</div>;",
  "  \x7d",
  "",
  "  return (",
  "    <ul>",
  "      \x7bproducts.map(product => <li key=\x7bproduct.id\x7d>\x7bproduct.name\x7d</li>)\x7d",
  "    </ul>",
  "  );",
  "\x7d;",
  "",
  "export default ProductList;",
  "\x60\x60\x60",
  "",
  "## The New Kids on the Block - Suspense and Concurrent Mode",
  "",
  "Suspense and Concurrent Mode take a new approach to this. Instead of showing a loading state, Suspense allows you to wait for some code to load and declaratively specify a loading UI. Concurrent Mode, on the other hand, allows your app to stay responsive even under heavy load. Sounds like a dream team, doesn\x27t it? ",
  "",
  "Let\x27s set up a suspense cache for our products.",
  "",
  "**suspenseCache.ts**",
  "\x60\x60\x60typescript",
  "import \x7b fetchProducts \x7d from \x27./api\x27;",
  "",
  "export const productCache = createResource(fetchProducts);",
  "\x60\x60\x60",
  "",
  "Now, here\x27s how you can use this in the \x60ProductList\x60 component with Suspense.",
  "",
  "**ProductList.tsx**",
  "\x60\x60\x60typescript",
  "import React, \x7b Suspense \x7d from \x27react\x27;",
  "import \x7b productCache \x7d from \x27./suspenseCache\x27;",
  "",
  "const ProductList = () => \x7b",
  "  const products = productCache.read();",
  "",
  "  return (",
  "    <ul>",
  "      \x7bproducts.map(product => <li key=\x7bproduct.id\x7d>\x7bproduct.name\x7d</li>)\x7d",
  "    </ul>",
  "  );",
  "\x7d;",
  "",
  "const SuspensefulProductList = () => (",
  "  <Suspense fallback=\x7b<div>Loading...</div>\x7d>",
  "    <ProductList />",
  "  </Suspense>",
  ");",
  "",
  "export default SuspensefulProductList;",
  "\x60\x60\x60",
  "",
  "Alright, now, let\x27s put on our wizard hats and enable Concurrent Mode. It\x27s as simple as wrapping your app in \x60React.unstable_ConcurrentMode\x60.",
  "",
  "**App.tsx**",
  "\x60\x60\x60typescript",
  "import React from \x27react\x27;",
  "import SuspensefulProductList from \x27./ProductList\x27;",
  "",
  "const App = () => (",
  "  <React.unstable_ConcurrentMode>",
  "    <SuspensefulProductList />",
  "  </React.unstable_ConcurrentMode>",
  ");",
  "",
  "export default App;",
  "\x60\x60\x60",
  "",
  "## The Takeaway",
  "",
  "Just like that, you\x27ve just waltzed your way into a better loading state handling with Suspense and a smoother user experience with Concurrent Mode. You\x27ve gotta love it when code not only becomes cleaner but also provides a more seamless user experience. ",
  "",
  "Do remember, Concurrent Mode and Suspense are still experimental as of React 18, so use them judiciously. But don\x27t be afraid to experiment and see how they can improve your apps. Until next time, happy coding!"]

/-- Lines of the source document at `pages/react-cheatsheets/using-passes/1-pass-one.mdx` (verbatim, one string per line). -/
def doc_1_pass_one : List String := [
  "# Pass One: Getting it done",
  "",
  "#### When? Immediately.",
  "#### Objective: It works. That\x27s it.",
  "",
  "The aim here is to get started. Pen on paper mode, let\x27s go. Create your new component file (\x60kebab-case.tsx\x60) and get to work scaffolding everything you need. Move fast, stay native, and get to a point that things work.",
  "",
  "Keep types to a minimum, don\x27t be afraid of \x60[key] : any\x60 and definitely work from one single file. \x60useState\x60, \x60useEffect\x60 etc are more than enough at this stage - You can always refactor that messy logic to custom hook later on if needed. The objective is to get your code working so you can move onto Pass two.",
  "",
  "",
  "",
  "\x60\x60\x60tsx",
  "// Pass One: user-profile.tsx",
  "",
  "import \x7b useState, useEffect \x7d from \x27react\x27;",
  "",
  "const UserProfile = () => \x7b",
  "  const [user, setUser] = useState<any>(null);",
  "",
  "  useEffect(() => \x7b",
  "    fetch(\x60https://api.example.com/user/1\x60)",
  "      .then(response => response.json())",
  "      .then(data => setUser(data));",
  "  \x7d, []);",
  "",
  "  if (!user) \x7b",
  "    return <div>Loading...</div>;",
  "  \x7d",
  "",
  "  return (",
  "    <div className=\"p-4\">",
  "      <h2 className=\"text-2xl font-bold mb-2\">\x7buser.name\x7d</h2>",
  "      <p className=\"text-gray-700\">\x7buser.email\x7d</p>",
  "    </div>",
  "  );",
  "\x7d;",
  "",
  "export default UserProfile;",
  "",
  "",
  "\x60\x60\x60"]

/-- Lines of the source document at `pages/react-cheatsheets/using-passes/1-pass-one.mdx#related1` (verbatim, one string per line). -/
def doc_1_pass_one_related1 : List String := [
  "## Testing: Staying on point at each pass",
  "",
  "For the most part, I don\x27t bother testing, but it has its place, definitely. As your team grows and you can\x27t properly vet those that work on your codebase, it\x27s important to have some safety nets for when shit hits the fan.",
  "",
  "Let\x27s go over each pass again with a focus on making our code testable. We\x27ll be using Jest along with React Testing Library for our tests as they\x27re commonly used with Next.js.",
  "",
  "#### Pass One: Get it done",
  "",
  "In this initial stage, testing may not be the primary concern. However, you can still write a simple test to check if your component renders without crashing",
  "",
  "\x60\x60\x60tsx",
  "// user-profile.test.tsx",
  "import \x7b render \x7d from \"@testing-library/react\";",
  "import UserProfile from \"./user-profile\";",
  "",
  "it(\"renders without crashing\", () => \x7b",
  "  render(<UserProfile />);",
  "\x7d);",
  "\x60\x60\x60",
  "",
  "#### Pass Two: Make it right",
  "",
  "At this stage, you\x27re refining your component and adding more specificity. You can add a few more tests here to check if your component is working as expected",
  "",
  "\x60\x60\x60tsx",
  "// user-profile.test.tsx",
  "import \x7b render, screen \x7d from \"@testing-library/react\";",
  "import UserProfile from \"./user-profile\";",
  "",
  "// Mock fetch",
  "global.fetch = jest.fn(() =>",
  "  Promise.resolve(\x7b",
  "    json: () =>",
  "      Promise.resolve(\x7b id: 1, name: \"John Doe\", email: \"john@example.com\" \x7d),",
  "  \x7d)",
  ");",
  "",
  "it(\"displays user name and email\", async () => \x7b",
  "  render(<UserProfile />);",
  "  const userName = await screen.findByText(/John Doe/i);",
  "  const userEmail = await screen.findByText(/john@example.com/i);",
  "  expect(userName).toBeInTheDocument();",
  "  expect(userEmail).toBeInTheDocument();",
  "\x7d);",
  "\x60\x60\x60",
  "",
  "#### Pass Three: Make it good",
  "",
  "Here, you optimize and refactor your component. You might extract state logic into a custom hook, which should also be tested.",
  "",
  "\x60\x60\x60tsx",
  "// useUser.test.ts",
  "import \x7b renderHook, act \x7d from \"@testing-library/react-hooks\";",
  "import \x7b useUser \x7d from \"./hooks/useUser\";",
  "",
  "it(\"handles fetch errors\", async () => \x7b",
  "  // Mock fetch to simulate an error",
  "  global.fetch = jest.fn(() => Promise.reject(\"API error\"));",
  "",
  "  const \x7b result, waitForNextUpdate \x7d = renderHook(() => useUser());",
  "",
  "  // Wait for useEffect to complete",
  "  await act(() => waitForNextUpdate());",
  "",
  "  expect(result.current.error).toBe(\"API error\");",
  "\x7d);",
  "\x60\x60\x60",
  "",
  "#### Pass Four: Make it resilient",
  "",
  "At this point, we are adding robustness to our code, considering error handling, edge cases, and the user experience when things go wrong. We\x27ll add tests for these error scenarios as well.",
  "",
  "\x60\x60\x60tsx",
  "// user-profile.test.tsx",
  "import \x7b render, screen \x7d from \"@testing-library/react\";",
  "import UserProfile from \"./user-profile\";",
  "import \x7b useUser \x7d from \"./hooks/useUser\";",
  "",
  "// Mock the custom hook",
  "jest.mock(\"./hooks/useUser\");",
  "",
  "it(\"displays error message when fetch fails\", async () => \x7b",
  "  // Setup the mock to return an error",
  "  (useUser as jest.Mock).mockReturnValue(\x7b",
  "    user: null,",
  "    error: \"Failed to fetch user\",",
  "  \x7d);",
  "",
  "  render(<UserProfile />);",
  "  const errorMessage = await screen.findByText(/Failed to fetch user/i);",
  "  expect(errorMessage).toBeInTheDocument();",
  "\x7d);",
  "",
  "it(\"displays user data when fetch succeeds\", async () => \x7b",
  "  // Setup the mock to return a user",
  "  (useUser as jest.Mock).mockReturnValue(\x7b",
  "    user: \x7b id: 1, name: \"John Doe\", email: \"john@example.com\" \x7d,",
  "    error: null,",
  "  \x7d);",
  "",
  "  render(<UserProfile />);",
  "  const userName = await screen.findByText(/John Doe/i);",
  "  const userEmail = await screen.findByText(/john@example.com/i);",
  "  expect(userName).toBeInTheDocument();",
  "  expect(userEmail).toBeInTheDocument();",
  "\x7d);",
  "\x60\x60\x60",
  "",
  "These tests ensure that the UserProfile component correctly handles both success and error scenarios from the \x60useUser\x60 hook. The \x60jest.mock\x60 function is used to replace the \x60useUser\x60 hook with a mock implementation for the purpose of the tests.",
  ""]

/-- Lines of the source document at `pages/react-cheatsheets/using-passes/2-pass-two.mdx` (verbatim, one string per line). -/
def doc_2_pass_two : List String := [
  "# Pass Two: Making it right",
  "",
  "#### Objective: It works as expected and is understandable. ",
  "",
  "Now that your code is working, start adding more specific types to replace any \x60[key]: any\x60 you might have used. Break down large functions into smaller, named functions. This will make your code easier to understand and debug. Start introducing some testing at this stage to make sure your code not only works, but it works as expected.",
  "",
  "\x60\x60\x60tsx",
  "// Pass Two: user-profile.tsx",
  "interface User \x7b",
  "  id: number;",
  "  name: string;",
  "  email: string;",
  "  // Other fields...",
  "\x7d",
  "",
  "export const UserProfile = () => \x7b",
  "  const [user, setUser] = useState<User | null>(null);",
  "",
  "  const fetchUser = async () => \x7b",
  "    const res = await fetch(\x60https://.../users\x60);",
  "    const user = await res.json() as User;",
  "    setUser(user);",
  "  \x7d;",
  "",
  "  useEffect(() => \x7b",
  "    fetchUser();",
  "  \x7d, []);",
  "",
  "  return (",
  "    // JSX",
  "  );",
  "\x7d;",
  "",
  "\x60\x60\x60"]

/-- Lines of the source document at `pages/react-cheatsheets/using-passes/5-using-passes.mdx` (verbatim, one string per line). -/
def doc_5_using_passes : List String := [
  "### Some Thoughts on #CodingPasses",
  "",
  "There are countless facets of development that could be divided into separate \x27passes\x27 or phases. Let\x27s consider a few examples:",
  "",
  "1.  **Styling and Theming:** In the first pass, you might opt for inline styles or fundamental CSS classes. The second pass could see you transforming your styles into a CSS-in-JS approach like styled-components or employing a CSS framework such as Tailwind. The third pass may involve creating a shared theme or design system to ensure consistency throughout your application. By the fourth pass, you could be adding features like dark mode or other accessibility options.",
  "    ",
  "2.  **Data Fetching and State Management:** The first pass might see you fetching data directly in your components using the fetch API. In the second pass, you could refactor this into a custom hook, making your data fetching code reusable. Should your application\x27s state complexity grow, the third pass might see the introduction of a state management library like Redux or MobX. The fourth pass could add caching or other performance enhancements.",
  "    ",
  "3.  **Routing and Navigation:** In the first pass, you might have simple routes without nested routes or parameters. By the second pass, you might start working with route parameters, query parameters, and nested routes. The third pass could see the introduction of transitions or animations between routes. In the fourth pass, you could include robust error handling for 404 pages and other routing mishaps.",
  "    ",
  "4.  **Forms and Validation:** The first pass might involve creating straightforward forms with default HTML validation. In the second pass, a form library like Formik or React Hook Form could be introduced to help manage your form state. The third pass might see complex validation rules added using a library like Yup. By the fourth pass, you could be adding real-time validation or other enhancements to improve the user experience.",
  "    ",
  "5.  **Testing:** In the initial pass, you might write basic unit tests for your components. The second pass could see you introducing integration tests to examine larger parts of your application together. In the third pass, end-to-end tests using a tool like Cypress might be added. The fourth pass could involve performance testing or other advanced testing techniques.",
  "    ",
  "6.  **Performance Optimization:** In the first pass, you might primarily focus on building your application without any specific attention to performance. In the second pass, you might start utilising performance profiling tools to identify any bottlenecks. The third pass could see you refactoring your code to enhance performance, using techniques like memoization or virtualization. By the fourth pass, you could introduce advanced performance optimisations, like code splitting or service workers.",
  "    ",
  "",
  "Keep in mind that the precise sequence and significance of these stages will depend on your specific use case and the requirements of your application. It\x27s always best to prioritise the features and enhancements that will provide the most substantial impact for your users and your business."]

/-- Lines of the source document at `pages/scraping-guide/advanced-css-selector-guide.mdx` (verbatim, one string per line). -/
def doc_advanced_css_selector_guide : List String := [
  "# Cheatsheet: Advanced CSS Selector Patterns for Console Usage",
  "",
  "Using a hypothetical HTML structure, we\x27ll illustrate the types of elements each selector pattern might target. ",
  "",
  "\x60\x60\x60jsx",
  "<div id=\"main\">",
  "    <ul>",
  "        <li class=\"active\">Home</li>",
  "        <li>About</li>",
  "        <li>Contact</li>",
  "    </ul>",
  "    <article data-author=\"john\">",
  "        <p class=\"highlighted\">Lorem ipsum...</p>",
  "        <p>Dolor sit amet...</p>",
  "    </article>",
  "</div>",
  "\x60\x60\x60",
  "",
  "## 1. Attribute Selectors",
  "",
  "**1.1 Select Elements with Specific Attributes**",
  "",
  "This selects elements with a specified attribute.",
  "",
  "\x60\x60\x60javascript",
  "let elements = document.querySelectorAll(\x27[data-author]\x27);",
  "// selects <article data-author=\"john\">",
  "\x60\x60\x60",
  "",
  "**1.2 Select Elements with Specific Attribute Values**",
  "",
  "This selects elements with a specified attribute value.",
  "",
  "\x60\x60\x60javascript",
  "let elements = document.querySelectorAll(\x27[data-author=\"john\"]\x27);",
  "// selects <article data-author=\"john\">",
  "\x60\x60\x60",
  "",
  "**1.3 Select Elements with Attribute Values Starting with a Specific String**",
  "",
  "This selects elements where the specified attribute value starts with a specified string.",
  "",
  "\x60\x60\x60javascript",
  "let elements = document.querySelectorAll(\x27[data-author^=\"j\"]\x27);",
  "// selects <article data-author=\"john\">",
  "\x60\x60\x60",
  "",
  "**1.4 Select Elements with Attribute Values Ending with a Specific String**",
  "",
  "This selects elements where the specified attribute value ends with a specified string.",
  "",
  "\x60\x60\x60javascript",
  "let elements = document.querySelectorAll(\x27[data-author$=\"hn\"]\x27);",
  "// selects <article data-author=\"john\">",
  "\x60\x60\x60",
  "",
  "**1.5 Select Elements with Attribute Values Containing a Specific Substring**",
  "",
  "This selects elements where the specified attribute value contains a specified substring.",
  "",
  "\x60\x60\x60javascript",
  "let elements = document.querySelectorAll(\x27[data-author*=\"oh\"]\x27);",
  "// selects <article data-author=\"john\">",
  "\x60\x60\x60",
  "",
  "**1.6 Select Elements with Multiple Attributes**",
  "",
  "You can chain multiple attribute selectors together to select elements that match all conditions:",
  "",
  "\x60\x60\x60javascript",
  "document.querySelectorAll(\x27[attribute1][attribute2]\x27)",
  "\x60\x60\x60",
  "",
  "Example:",
  "\x60\x60\x60javascript",
  "document.querySelectorAll(\x27[type=\"checkbox\"][checked]\x27)",
  "\x60\x60\x60",
  "This will select all checked checkboxes.",
  "",
  "**1.7 Select Elements Without a Specific Attribute**",
  "",
  "You can select elements that do not have a specific attribute using the \x60:not()\x60 pseudo-class:",
  "",
  "\x60\x60\x60javascript",
  "document.querySelectorAll(\x27:not([attribute])\x27)",
  "\x60\x60\x60",
  "",
  "Example:",
  "\x60\x60\x60javascript",
  "document.querySelectorAll(\x27:not([disabled])\x27)",
  "\x60\x60\x60",
  "This will select all elements that do not have the \x60disabled\x60 attribute.",
  "",
  "**1.8 Selecting Elements with Complex Queries**",
  "",
  "Here\x27s an example that selects a very specific subset of elements:",
  "",
  "\x60\x60\x60javascript",
  "document.querySelectorAll(\x27div[data-user]:not([disabled]):not([class=\"admin\"]) a[href*=\"https\"]\x27)",
  "\x60\x60\x60",
  "",
  "Remember, while this selector is extremely specific, it also has potential to be quite expensive performance-wise on larger DOMs due to its complexity. Always consider the performance implications when using complex selectors.",
  "",
  "## 2. Pseudo-Classes",
  "",
  "**2.1 Select the First Child of Every Element of a Type**",
  "",
  "\x60\x60\x60javascript",
  "let firstChildElements = document.querySelectorAll(\x27li:first-child\x27);",
  "// selects <li class=\"active\">Home</li>",
  "\x60\x60\x60",
  "",
  "**2.2 Select the Last Child of Every Element of a Type**",
  "",
  "\x60\x60\x60javascript",
  "let lastChildElements = document.querySelectorAll(\x27li:last-child\x27);",
  "// selects <li>Contact</li>",
  "\x60\x60\x60",
  "",
  "**2.3 Select Every nth Child of Every Element of a Type**",
  "",
  "\x60\x60\x60javascript",
  "let nthChildElements = document.querySelectorAll(\x27li:nth-child(2)\x27);",
  "// selects <li>About</li>",
  "\x60\x60\x60",
  "",
  "**2.4 Select Elements That are the Only Child of Their Parent**",
  "",
  "\x60\x60\x60javascript",
  "let onlyChildElements = document.querySelectorAll(\x27p:only-child\x27);",
  "//",
  "",
  " selects none",
  "\x60\x60\x60",
  "",
  "**2.5 Select Elements That are the Only Element of Their Type**",
  "",
  "\x60\x60\x60javascript",
  "let onlyOfTypeElements = document.querySelectorAll(\x27ul:only-of-type\x27);",
  "// selects <ul>...</ul>",
  "\x60\x60\x60",
  "",
  "**2.6 Select Elements That are Currently in Focus**",
  "",
  "\x60\x60\x60javascript",
  "let focusedElements = document.querySelectorAll(\x27:focus\x27);",
  "// selects none",
  "\x60\x60\x60",
  "",
  "**2.7 Select Elements That are Currently Hovered Over**",
  "",
  "\x60\x60\x60javascript",
  "let hoveredElements = document.querySelectorAll(\x27:hover\x27);",
  "// selects none",
  "\x60\x60\x60",
  "",
  "**2.8 Select Elements That are Currently Active**",
  "",
  "\x60\x60\x60javascript",
  "let activeElements = document.querySelectorAll(\x27:active\x27);",
  "// selects none",
  "\x60\x60\x60",
  "",
  "**2.9 Select Checked Elements**",
  "",
  "\x60\x60\x60javascript",
  "let checkedElements = document.querySelectorAll(\x27:checked\x27);",
  "// selects none",
  "\x60\x60\x60",
  "",
  "## 3. Combining Selectors",
  "",
  "**3.1 Select All Paragraphs Inside Divs**",
  "",
  "\x60\x60\x60javascript",
  "let paragraphsInDivs = document.querySelectorAll(\x27div p\x27);",
  "// selects <p class=\"highlighted\">Lorem ipsum...</p>",
  " and <p>Dolor sit amet...</p>",
  "\x60\x60\x60",
  "",
  "**3.2 Select All Elements with a Specific Class Inside Elements with a Different Specific Class**",
  "",
  "\x60\x60\x60javascript",
  "let elements = document.querySelectorAll(\x27.active ~ li\x27);",
  "// selects <li>About</li> and <li>Contact</li>",
  "\x60\x60\x60",
  "",
  "**3.3 Select All Direct Children of an Element with a Specific Class**",
  "",
  "\x60\x60\x60javascript",
  "let directChildren = document.querySelectorAll(\x27ul > .active\x27);",
  "// selects <li class=\"active\">Home</li>",
  "\x60\x60\x60",
  "",
  "**3.4 Select All Elements with a Specific Class that Follow After Elements with a Different Specific Class**",
  "",
  "\x60\x60\x60javascript",
  "let elements = document.querySelectorAll(\x27.active + li\x27);",
  "// selects <li>About</li>",
  "\x60\x60\x60",
  "",
  "Please note that some selections in the code examples, like \x60:hover\x60, \x60:focus\x60, and \x60:active\x60, are based on the user\x27s interactions with the page and may not return any elements if none are in the corresponding state at the moment the command is run."]

/-- Lines of the source document at `pages/scraping-guide/advanced-css-selector-guide.mdx#related1` (verbatim, one string per line). -/
def doc_advanced_css_selector_guide_related1 : List String := [
  "## Scraping Literally Anything: Advanced Edition",
  "Be sure to act responsibly when implementing these techniques. You\x27ve been warned.",
  "",
  "### Mapping D.QSA + CSS Selectors",
  "",
  "Get the data you need directly from the console using the spread operator and \x60document.querySelectorAll\x60. Occasionally, you may need to polyfill the spread operator, but it\x27s becoming less necessary. Right-click the \x60object\x60 in the console and choose \x27copy\x27 to get the complete object.",
  "",
  "\x60\x60\x60javascript",
  "[...document.querySelectorAll(\x27div[id*=\"partial-match\"]\x27)].map(item => item.innerText)",
  "\x60\x60\x60",
  "",
  "### Examples of Matching",
  "",
  "Combine CSS selectors in different ways to get at almost anything. Use this template as a basis for your unique combination.",
  "",
  "\x60\x60\x60javascript",
  "element[attribute=\"value\"][anotherAttribute*=\"partially matched value\"]:not([class])\"",
  "\x60\x60\x60",
  "",
  "### Mutation Observers",
  "",
  "Mutation observers help you wait for certain elements to appear in JavaScript-heavy renderings. Use \x60new MutationObserver\x60 to observe changes to an element (\x60body\x60). Monitor whether it has been \x60added\x60, \x60removed\x60, \x60attributes changed\x60, etc. Once you\x27ve got what you need, be sure to disconnect the observer with \x60observer.disconnect()\x60.",
  "",
  "### DQSA Shortcut",
  "",
  "Save time in the \x60devtools\x60 console by typing \x60doc\x60, pressing \x60\u21b2\x60, then typing \x60.qsa\x60 and pressing \x60\u21b2\x60 again. This will autocomplete to \x60document.querySelectorAll\x60.",
  "",
  "## Advanced Puppeteer Techniques",
  "",
  "### Network Request Intercepting",
  "",
  "Puppeteer allows you to interact programmatically with a site, but you can also access data directly by reverse-engineering client fetching and network requests. This bypasses the need to deal with DOM elements.",
  "",
  "Possible use cases include:",
  "",
  "1. Increasing crawl speed by blocking unnecessary items from loading, such as images and stylesheets.",
  "2. Staying stealthy by blocking requests to analytics services, such as Google Analytics.",
  "3. Reading server responses to access more data than is being rendered. Always check here before traversing the DOM.",
  "4. Intercepting JS libraries, monkey patching key functions, and reverse-engineering site development.",
  "",
  "\x60\x60\x60javascript",
  "// Example of aborting requests for .png and .jpg images.",
  "const puppeteer = require(\x27puppeteer\x27);  ",
  "  ",
  "(async () => \x7b  ",
  "\tconst browser = await puppeteer.launch();  ",
  "\tconst page = await browser.newPage();  ",
  "\tawait page.setRequestInterception(true);  ",
  "",
  "\tpage.on(\x27request\x27, interceptedRequest => \x7b  ",
  "\t\tif (interceptedRequest.isInterceptResolutionHandled()) return;  ",
  "\t\t\tif (  ",
  "\t\t\t\tinterceptedRequest.url().endsWith(\x27.png\x27) ||  ",
  "\t\t\t\tinterceptedRequest.url().endsWith(\x27.jpg\x27)  ",
  "\t\t\t\t)  ",
  "\t\t\tinterceptedRequest.abort();  ",
  "\t\t\telse interceptedRequest.continue();  ",
  "\t\t\t\x7d);  ",
  "\t\tawait page.goto(\x27https://example.com\x27);  ",
  "\t\tawait browser.close();  ",
  "\x7d)();",
  "\x60\x60\x60",
  "",
  "### Client Spoofing",
  "",
  "When dealing with a site that makes requests to a third party, you can mimic these requests and modify the body \x60payload\x60 or \x60urlParams\x60. This can allow you to alter limits, filters, search queries, and more.",
  "",
  "You may run into issues with CORS or client-server security if you\x27re using API testing tools like Insomnia. The server may be expecting certain cookies or header requests that you can\x27t provide.",
  "",
  "#### How to Find Endpoints",
  "",
  "1. Open the \x60Network\x60 tab while performing actions that load data asynchronously. Remember to disable the cache.",
  "2. Use Puppeteer to automate the interception of data.",
  "3. Use a man-in-the-middle proxy like [MITM Proxy](https://mitmproxy.org/). This creates a local proxy server that captures all in/out traffic from your machine. It\x27s useful when devtools isn\x27t available",
  "",
  " (e.g. for web extensions and software).",
  "",
  "#### Make the Request from Within the Page Evaluation",
  "",
  "You can bypass CORS and client-server security issues by making a native \x60fetch\x60 request from within the page using \x60page.evaluate(() => \x7b...\x7d)\x60. Then, return the value. ",
  "",
  "This technique, combined with preemptive request interception, can overcome most server-related fetching issues. It also reduces the time required to scrape at scale. ",
  "",
  "**Note**: Be mindful of rate limits. If unsure, use a proxy.",
  "",
  "### Intercepting Third-Party Libraries",
  "",
  "Listen for specific requests to JavaScript libraries, and replace them with your own versions. Many developers overlook this possibility, and you can take advantage of it to access hidden information. ",
  "",
  "**Note**: This is powerful but can have serious implications. Always understand what you\x27re doing and who it affects. Act responsibly and respectfully.",
  "",
  "### Automating Endpoint Searches Through Crawling",
  "",
  "Use Puppeteer\x27s request intercept event listener and programmatic website traversal to build a crawler that intercepts backend requests for later analysis.",
  "",
  "\x60\x60\x60javascript",
  "// Step 1: Set up Intercept Listener",
  "// 1. Listen for POST requests",
  "// 2. Listen for requests with body / searchParams",
  "// 3. Check requests for common phrases like \x27/api/v1\x27",
  "// 4. Optional. Replace response data to unlock features on site. ",
  "// 5. Dump everything for later analysis",
  "",
  "// Step 2: Crawl site",
  "// 1. Parse Sitemap and visit each page. (Split into templates where needed)",
  "// 2. Mimic crawl behaviour (doc.qsa all links on a page, open each in a new tab, rinse repeat)",
  "// 3. Add logic to determine duplicate page templates / requests. (Redis cache?)",
  "\x60\x60\x60",
  "",
  "## Other Scraping Techniques",
  "",
  "### TamperMonkey Snippets",
  "",
  "[TamperMonkey](https://tampermonkey.net/) is a Chrome extension that lets you run custom JavaScript snippets on any site, once approved by the user. Use it to augment websites permanently, e.g., adding a CSV export button to a profile page.",
  "",
  "[Greasemonkey](https://addons.mozilla.org/en-US/firefox/addon/greasemonkey/) offers similar functionality for Firefox users."]

/-- Lines of the source document at `pages/scraping-guide/collecting-paginated-data-easily.mdx` (verbatim, one string per line). -/
def doc_collecting_paginated_data_easily : List String := [
  "\x60\x60\x60tsx",
  "import axios from \x27axios\x27;",
  "",
  "interface Todo \x7b",
  "  id: number;",
  "  userId: number;",
  "  title: string;",
  "  completed: boolean;",
  "\x7d",
  "",
  "interface PaginationParams \x7b",
  "  pageQueryParam: string;",
  "\x7d",
  "",
  "type AggregatorCallback = (data: Todo[], aggregatedData: Todo[]) => Todo[];",
  "",
  "async function fetchAllData(",
  "  url: string,",
  "  paginationParams: PaginationParams,",
  "  aggregator: AggregatorCallback",
  "): Promise<Todo[]> \x7b",
  "  const \x7b pageQueryParam \x7d = paginationParams;",
  "  let currentPage = 1;",
  "  let aggregatedData: Todo[] = [];",
  "",
  "  try \x7b",
  "    while (true) \x7b",
  "      const response = await axios.get<Todo[]>(url, \x7b",
  "        params: \x7b",
  "          [pageQueryParam]: currentPage,",
  "        \x7d,",
  "      \x7d);",
  "",
  "      const \x7b data \x7d = response;",
  "      aggregatedData = aggregator(data, aggregatedData);",
  "",
  "      if (data.length === 0) \x7b",
  "        // No more data available, exit the loop",
  "        break;",
  "      \x7d",
  "",
  "      currentPage++;",
  "    \x7d",
  "",
  "    return aggregatedData;",
  "  \x7d catch (error) \x7b",
  "    console.error(\x27An error occurred:\x27, error);",
  "    throw error;",
  "  \x7d",
  "\x7d",
  "",
  "// Example aggregator callback that concatenates the fetched todos",
  "const concatenateAggregator: AggregatorCallback = (data, aggregatedData) => \x7b",
  "  return aggregatedData.concat(data);",
  "\x7d;",
  "",
  "// Example usage with the Todos API",
  "const url = \x27https://jsonplaceholder.typicode.com/todos\x27;",
  "const paginationParams = \x7b",
  "  pageQueryParam: \x27_page\x27,",
  "\x7d;",
  "",
  "fetchAllData(url, paginationParams, concatenateAggregator)",
  "  .then((todos) => \x7b",
  "    console.log(\x27Aggregated todos:\x27, todos);",
  "  \x7d)",
  "  .catch((error) => \x7b",
  "    console.error(\x27Error:\x27, error);",
  "  \x7d);",
  "  \x60\x60\x60"]

/-- Lines of the source document at `pages/scraping-guide/manipulate-dom-with-console-commands.mdx` (verbatim, one string per line). -/
def doc_manipulate_dom_with_console_commands : List String := [
  "# Cheatsheet: Advanced DOM Manipulation & Web Scraping Techniques Using the Console",
  "",
  "## 1. Selecting Elements",
  "",
  "**1.1 Query Selector**",
  "",
  "Selects the first match of a specified CSS selector(s).",
  "",
  "\x60\x60\x60javascript",
  "let element = document.querySelector(\x27.my-class\x27);",
  "\x60\x60\x60",
  "",
  "**1.2 Query Selector All**",
  "",
  "Selects all matches of a specified CSS selector(s).",
  "",
  "\x60\x60\x60javascript",
  "let elements = document.querySelectorAll(\x27.my-class\x27);",
  "\x60\x60\x60",
  "",
  "**1.3 Get Elements By ClassName**",
  "",
  "Selects all elements with a specific class.",
  "",
  "\x60\x60\x60javascript",
  "let elements = document.getElementsByClassName(\x27my-class\x27);",
  "\x60\x60\x60",
  "",
  "**1.4 Get Element By Id**",
  "",
  "Selects the element with the specified id.",
  "",
  "\x60\x60\x60javascript",
  "let element = document.getElementById(\x27my-id\x27);",
  "\x60\x60\x60",
  "",
  "## 2. Manipulating Elements",
  "",
  "**2.1 Changing Inner HTML**",
  "",
  "Modifies the inner HTML of a selected element.",
  "",
  "\x60\x60\x60javascript",
  "element.innerHTML = \x27New Content\x27;",
  "\x60\x60\x60",
  "",
  "**2.2 Adding a Class**",
  "",
  "Adds a class to the selected element.",
  "",
  "\x60\x60\x60javascript",
  "element.classList.add(\x27new-class\x27);",
  "\x60\x60\x60",
  "",
  "**2.3 Removing a Class**",
  "",
  "Removes a class from the selected element.",
  "",
  "\x60\x60\x60javascript",
  "element.classList.remove(\x27remove-class\x27);",
  "\x60\x60\x60",
  "",
  "**2.4 Toggle a Class**",
  "",
  "Toggles a class on the selected element.",
  "",
  "\x60\x60\x60javascript",
  "element.classList.toggle(\x27toggle-class\x27);",
  "\x60\x60\x60",
  "",
  "## 3. Web Scraping Techniques",
  "",
  "**3.1 Extracting Text Content**",
  "",
  "Extracts the text content of an element.",
  "",
  "\x60\x60\x60javascript",
  "let text = element.textContent;",
  "\x60\x60\x60",
  "",
  "**3.2 Extracting HTML Content**",
  "",
  "Extracts the HTML content of an element.",
  "",
  "\x60\x60\x60javascript",
  "let html = element.innerHTML;",
  "\x60\x60\x60",
  "",
  "**3.3 Extracting Attribute Values**",
  "",
  "Extracts the value of a specified attribute from an element.",
  "",
  "\x60\x60\x60javascript",
  "let src = element.getAttribute(\x27src\x27);",
  "\x60\x60\x60",
  "",
  "**3.4 Looping Over Elements**",
  "",
  "Loops over a NodeList, applying a function to each element.",
  "",
  "\x60\x60\x60javascript",
  "elements.forEach((element) => \x7b",
  "  console.log(element.textContent);",
  "\x7d);",
  "\x60\x60\x60",
  "",
  "## 4. Feature Augmentation",
  "",
  "**4.1 Creating New Elements**",
  "",
  "Creates a new element and adds it to the DOM.",
  "",
  "\x60\x60\x60javascript",
  "let newElement = document.createElement(\x27div\x27);",
  "newElement.innerHTML = \x27I am a new element\x27;",
  "document.body.appendChild(newElement);",
  "\x60\x60\x60",
  "",
  "**4.2 Event Listeners**",
  "",
  "Attaches an event listener to an element.",
  "",
  "\x60\x60\x60javascript",
  "element.addEventListener(\x27click\x27, function() \x7b",
  "  console.log(\x27Element clicked!\x27);",
  "\x7d);",
  "\x60\x60\x60",
  "",
  "**4.3 Styling Elements**",
  "",
  "Applies CSS styles to an element.",
  "",
  "\x60\x60\x60javascript",
  "element.style.color = \x27blue\x27;",
  "element.style.fontSize = \x272em\x27;",
  "\x60\x60\x60",
  "",
  "**4.4 Manipulating Attributes**",
  "",
  "Modifies the attributes of an element.",
  "",
  "\x60\x60\x60javascript",
  "element.setAttribute(\x27src\x27, \x27new-image.jpg\x27);",
  "\x60\x60\x60",
  "Remember to use these techniques responsibly."]

/-- Lines of the source document at `pages/scraping-guide/puppeteer-crash-course.mdx` (verbatim, one string per line). -/
def doc_puppeteer_crash_course : List String := [
  "# Advanced Cheatsheet: Puppeteer for Web Scraping",
  "",
  "Puppeteer is a Node library that provides a high-level API to control Chrome or Chromium over the DevTools Protocol. It can generate screenshots and PDFs of pages, crawl Single-Page Applications, and so on. But in this cheatsheet, we\x27ll focus on using Puppeteer for web scraping. This requires a good understanding of Promises and async/await as Puppeteer is built on these concepts.",
  "",
  "## 1. Setup and Navigation",
  "To start, install Puppeteer using npm:",
  "",
  "\x60\x60\x60",
  "npm install puppeteer",
  "\x60\x60\x60",
  "",
  "Here is how you initialize Puppeteer and navigate to a page:",
  "",
  "\x60\x60\x60javascript",
  "const puppeteer = require(\x27puppeteer\x27);",
  "",
  "async function run() \x7b",
  "    const browser = await puppeteer.launch();",
  "    const page = await browser.newPage();",
  "    await page.goto(\x27http://example.com\x27);",
  "    // Further actions...",
  "    await browser.close();",
  "\x7d",
  "",
  "run();",
  "\x60\x60\x60",
  "",
  "## 2. Waiting for Elements",
  "",
  "Sometimes, the elements you want to scrape might not be immediately available when the page loads. In such cases, Puppeteer provides several methods to wait for elements:",
  "",
  "\x60\x60\x60javascript",
  "// Wait for an element matching selector to appear in DOM. Fails if waiting time exceeds \x60timeout\x60.",
  "await page.waitForSelector(\x27#selector\x27);",
  "",
  "// Wait for an element with a certain XPath to appear in DOM. Fails if waiting time exceeds \x60timeout\x60.",
  "await page.waitForXPath(\x27XPath\x27);",
  "",
  "// Wait for a function to be true. Useful for checking conditions on page load. Fails if waiting time exceeds \x60timeout\x60.",
  "await page.waitForFunction(() => window.status === \x27ready\x27);",
  "\x60\x60\x60",
  "",
  "## 3. Using Mutation Observers",
  "",
  "If you need to wait for certain changes in the DOM structure (like the addition or removal of elements), you can use Mutation Observers:",
  "",
  "\x60\x60\x60javascript",
  "await page.evaluate(() => \x7b",
  "    new MutationObserver((mutations, observer) => \x7b",
  "        for(let mutation of mutations) \x7b",
  "            if (mutation.type === \x27childList\x27) \x7b",
  "                observer.disconnect();",
  "                window.MUTATION_OBSERVER_MUTATED = true;",
  "            \x7d",
  "        \x7d",
  "    \x7d).observe(document.body, \x7b childList: true \x7d);",
  "\x7d);",
  "await page.waitForFunction(() => window.MUTATION_OBSERVER_MUTATED);",
  "\x60\x60\x60",
  "",
  "## 4. Evaluating Functions in Page Context",
  "",
  "You can use \x60page.evaluate()\x60 to evaluate a function in the page context:",
  "",
  "\x60\x60\x60javascript",
  "let data = await page.evaluate(() => \x7b",
  "    let elements = Array.from(document.querySelectorAll(\x27.selector\x27));",
  "    return elements.map(el => el.textContent);",
  "\x7d);",
  "\x60\x60\x60",
  "",
  "Remember that you cannot directly reference variables defined in your Puppeteer script inside of \x60page.evaluate()\x60. This function gets serialized and then evaluated in the browser context, so it does not have access to the Puppeteer scope.",
  "",
  "## 5. Common Gotchas",
  "",
  "- **Navigation Timeout**: Puppeteer uses a default navigation timeout of 30 seconds. If a page takes longer than that to load, you\x27ll get a timeout error. You can adjust this timeout using \x60page.setDefaultNavigationTimeout(time)\x60 or \x60page.goto(url, \x7b timeout: time \x7d)\x60.",
  "",
  "- **Non-Serializable Data**: \x60page.evaluate()\x60 can only return serializable data (essentially, the data that can be JSON.stringified). If you try to return a function, a DOM element, or a complex object like a Map or Set, you\x27ll run into errors.",
  "",
  "- **Error Handling**: Many Puppeteer operations can fail, so it\x27s important to handle errors appropriately. This usually means wrapping your code in try/catch blocks and handling any exceptions that might occur.",
  "",
  "- **Closing the Browser**: Always make sure to close the browser by calling \x60browser.close()\x60. Not doing so might leave hanging Chromium instances and can consume a lot of",
  "",
  " resources.",
  "",
  "- **Working with SPA**: When working with Single Page Applications, be aware that they might take a while to load all the data. Ensure to wait for all the elements you want to interact with or scrape.",
  "",
  "## 6. Interacting with the Page: Inputs, Clicks, and Looking Human",
  "",
  "Puppeteer gives you full control over Chrome\x27s input events, meaning you can simulate typing, clicking buttons, scrolling, and other user interactions with a webpage.",
  "",
  "**Typing into Inputs**",
  "",
  "Here\x27s how you can type into an input field:",
  "",
  "\x60\x60\x60javascript",
  "await page.type(\x27#myinput\x27, \x27Hello World\x27);",
  "\x60\x60\x60",
  "",
  "The \x60page.type()\x60 method types at about 100 characters per second, but you can slow this down to simulate a real user:",
  "",
  "\x60\x60\x60javascript",
  "await page.type(\x27#myinput\x27, \x27Hello World\x27, \x7b delay: 100 \x7d); // Types slower, like a human",
  "\x60\x60\x60",
  "",
  "**Clicking Buttons**",
  "",
  "Clicking buttons or any other element is also straightforward:",
  "",
  "\x60\x60\x60javascript",
  "await page.click(\x27#mybutton\x27); // Clicks a button",
  "\x60\x60\x60",
  "",
  "**Scrolling**",
  "",
  "Simulating scroll can be a bit tricky as Puppeteer doesn\x27t have a built-in method for it, but you can do it inside \x60page.evaluate()\x60:",
  "",
  "\x60\x60\x60javascript",
  "await page.evaluate(() => \x7b",
  "    window.scrollBy(0, window.innerHeight);",
  "\x7d);",
  "\x60\x60\x60",
  "",
  "**Looking Human**",
  "",
  "To make your bot look more like a human, you can:",
  "",
  "1. **Randomize the typing speed**. Humans don\x27t type at a constant speed, so add some randomness to your delays:",
  "",
  "\x60\x60\x60javascript",
  "const delay = Math.floor(Math.random() * 100) + 50; // Random delay between 50 and 150 ms",
  "await page.type(\x27#myinput\x27, \x27Hello World\x27, \x7b delay: delay \x7d);",
  "\x60\x60\x60",
  "",
  "2. **Move the mouse**. Puppeteer can also simulate mouse movements:",
  "",
  "\x60\x60\x60javascript",
  "await page.mouse.move(0, 0);",
  "await page.mouse.move(100, 100);",
  "\x60\x60\x60",
  "",
  "3. **Simulate \"reading\"**. If you\x27re scraping a page, don\x27t do it instantly. Instead, wait for a few seconds before and after you \"read\" the content:",
  "",
  "\x60\x60\x60javascript",
  "await page.waitForTimeout(2000 + Math.floor(Math.random() * 1000)); // Wait 2-3 seconds",
  "const content = await page.content();",
  "await page.waitForTimeout(2000 + Math.floor(Math.random() * 1000)); // Wait 2-3 seconds",
  "\x60\x60\x60",
  "",
  "These strategies will make your bot look more like a human user. However, always respect websites\x27 terms of service and robots.txt files when scraping.",
  "",
  "## 7. Staying Under The Radar: Proxy, Stealth, and More",
  "",
  "When you\x27re scraping, it\x27s crucial to not get caught. There are several ways to ensure your Puppeteer instances remain undetected.",
  "",
  "**Proxies**",
  "",
  "One way to mask your bot\x27s IP is to use a proxy:",
  "",
  "\x60\x60\x60javascript",
  "const puppeteer = require(\x27puppeteer\x27);",
  "",
  "const proxyUrl = \x27http://proxy_IP:proxy_port\x27;",
  "const browser = await puppeteer.launch(\x7b",
  "    args: [ \x60--proxy-server=$\x7bproxyUrl\x7d\x60 ],",
  "\x7d);",
  "\x60\x60\x60",
  "",
  "This way, all the requests made by the Puppeteer instance will be made through the proxy.",
  "",
  "**Puppeteer Extra Stealth**",
  "",
  "Puppeteer-extra-stealth is a plugin that applies various evasion techniques to make detection of headless Chrome harder:",
  "",
  "\x60\x60\x60javascript",
  "const puppeteer = require(\x27puppeteer-extra\x27);",
  "const StealthPlugin = require(\x27puppeteer-extra-plugin-stealth\x27);",
  "",
  "puppeteer.use(StealthPlugin());",
  "",
  "const browser = await puppeteer.launch(\x7b headless: true \x7d);",
  "\x60\x60\x60",
  "",
  "**Randomizing User Agents**",
  "",
  "Changing the user agent of your Puppeteer instance can also make detection harder:",
  "",
  "\x60\x60\x60javascript",
  "const userAgent = \x27Mozilla/5.0 (Windows NT 10.0; Win64; x64) AppleWebKit/537.36 (KHTML, like Gecko) Chrome/58.0.3029.110 Safari/537\x27;",
  "await page.setUserAgent(userAgent);",
  "\x60\x60\x60",
  "",
  "Remember to use an up-to-date user agent and avoid known headless user agents.",
  "",
  "**Disabling JavaScript**",
  "",
  "Some websites use JavaScript to detect headless browsers. If the site you\x27re scraping works without JavaScript, you can disable JavaScript in Puppeteer:",
  "",
  "\x60\x60\x60javascript",
  "await page.setJavaScriptEnabled(false);",
  "\x60\x60\x60",
  "",
  "Keep in mind that these methods aren\x27t perfect and some websites may still be able to detect your Puppeteer instances. Always respect websites\x27 terms of service and robots.txt files when scraping."]

/-- Lines of the source document at `pages/scraping-guide/structuring-your-puppeteer-scrape.mdx` (verbatim, one string per line). -/
def doc_structuring_your_puppeteer_scrape : List String := [
  "1. **Initial Setup**: Install Puppeteer and necessary plugins. Here we\x27re using the Stealth plugin to prevent detection of Puppeteer by the website.",
  "",
  "\x60\x60\x60typescript",
  "import puppeteer from \x27puppeteer-extra\x27;",
  "import StealthPlugin from \x27puppeteer-extra-plugin-stealth\x27;",
  "puppeteer.use(StealthPlugin());",
  "",
  "//Launch browser",
  "const browser = await puppeteer.launch(\x7b headless: false \x7d); // Set headless to false for debugging. In production, you\x27d want this to be true.",
  "\x60\x60\x60",
  "> **Do**: Use plugins like \x60puppeteer-extra-plugin-stealth\x60 to bypass common bot detection techniques.\\",
  "> **Don\x27t**: Don\x27t forget to handle errors during launch.",
  "",
  "2. **Define Target URLs**: These could be hardcoded or dynamically generated.",
  "",
  "\x60\x60\x60typescript",
  "const urlsToScrape: string[] = [\"https://example.com\", \"https://anotherexample.com\"];",
  "\x60\x60\x60",
  "> **Do**: Make sure the URLs are valid and accessible.\\",
  "> **Don\x27t**: Don\x27t overload the target server with too many requests at once.",
  "",
  "3. **Scrape**: Visit each page and extract the necessary data.",
  "",
  "\x60\x60\x60typescript",
  "const scrapedData: any[] = []; // Adjust the type to fit your data structure",
  "",
  "for (let url of urlsToScrape) \x7b",
  "    const page = await browser.newPage();",
  "    await page.goto(url);",
  "    // Scrape data",
  "    const data = await page.evaluate(() => \x7b",
  "        // ...scrape data here...",
  "    \x7d);",
  "    scrapedData.push(data);",
  "    await page.close();",
  "\x7d",
  "\x60\x60\x60",
  "> **Do**: Respect the target website\x27s \x60robots.txt\x60 rules. Also, consider closing each page after use to free up resources.\\",
  "> **Don\x27t**: Don\x27t neglect error handling here. If one page fails, you don\x27t want your entire scraping job to fail.",
  "",
  "4. **Wrangle & Process Data**: Format and clean the scraped data.",
  "",
  "\x60\x60\x60typescript",
  "const processedData = scrapedData.map((data) => \x7b",
  "    // ...process data here...",
  "\x7d);",
  "\x60\x60\x60",
  "> **Do**: Handle unexpected or missing data gracefully during processing.\\",
  "> **Don\x27t**: Don\x27t process data on the fly while scraping. It\x27s usually better to separate these steps.",
  "",
  "5. **Store/Output Data**: This could be writing data to a file, a database, or sending it to an API.",
  "",
  "\x60\x60\x60typescript",
  "import fs from \x27fs\x27;",
  "fs.writeFileSync(\x27./output.json\x27, JSON.stringify(processedData, null, 2));",
  "\x60\x60\x60",
  "> **Do**: Ensure that the location where you\x27re storing data has enough space and proper write permissions.\\",
  "> **Don\x27t**: Don\x27t forget to handle IO errors.",
  "",
  "6. **Close the Browser**: Important to free up resources.",
  "",
  "\x60\x60\x60typescript",
  "await browser.close();",
  "\x60\x60\x60",
  "> **Do**: Always clean up after your script is done to prevent memory leaks.\\",
  "> **Don\x27t**: Don\x27t leave browser instances hanging, especially in a production environment.",
  "",
  ""]

/-- Lines of the source document at `unnamed/part_000` (verbatim, one string per line). -/
def doc_part_000 : List String := [
  "# Cheatsheet: Understanding Render Cycles in React",
  "",
  "It\x27s time we break down the mechanics behind React\x27s rendering process. We\x27ll venture into when and why our components render, and more importantly, how to prevent those superfluous rerenders. ",
  "",
  "## When Does a Component Render?",
  "",
  "First things first, let\x27s lay down the groundwork and discuss when a component renders. A component renders under the following scenarios:",
  "",
  "1. Initial rendering: Every component renders at least once when it\x27s initially added to the DOM.",
  "",
  "2. Parent Rendering: If a component\x27s parent component rerenders, it triggers a render for the child component too.",
  "",
  "3. Prop Changes: When a component receives new props, it triggers a rerender.",
  "",
  "4. State Changes: A state change using \x60setState\x60 or \x60useState\x60 hooks prompts a rerender.",
  "",
  "5. Context Changes: A component consuming a Context will rerender if the Context value changes.",
  "",
  "Here\x27s a simple component that renders when its parent does, or when props or state change.",
  "",
  "**ParentComponent.tsx**",
  "\x60\x60\x60typescript",
  "import React, \x7b useState \x7d from \x27react\x27;",
  "import ChildComponent from \x27./ChildComponent\x27;",
  "",
  "const ParentComponent = () => \x7b",
  "  const [counter, setCounter] = useState(0);",
  "",
  "  return (",
  "    <div>",
  "      <button onClick=\x7b() => setCounter(counter + 1)\x7d>Increase Counter</button>",
  "      <ChildComponent counter=\x7bcounter\x7d />",
  "    </div>",
  "  );",
  "\x7d;",
  "",
  "export default ParentComponent;",
  "\x60\x60\x60",
  "",
  "**ChildComponent.tsx**",
  "\x60\x60\x60typescript",
  "import React from \x27react\x27;",
  "",
  "interface ChildProps \x7b",
  "  counter: number;",
  "\x7d",
  "",
  "const ChildComponent: React.FC<ChildProps> = (\x7b counter \x7d) => \x7b",
  "  console.log(\x27ChildComponent rendered\x27);",
  "  return <div>Counter: \x7bcounter\x7d</div>;",
  "\x7d;",
  "",
  "export default ChildComponent;",
  "\x60\x60\x60",
  "",
  "## Mitigating Unnecessary Rerenders",
  "",
  "While React is pretty efficient in managing renders, unnecessary rerenders can still degrade performance, especially for complex applications. Here are some tactics to handle such cases.",
  "",
  "### Using \x60React.memo\x60",
  "",
  "\x60React.memo\x60 is a higher order component that prevents unnecessary rerenders when the props remain the same. It\x27s pretty straightforward to use:",
  "",
  "**MemoizedChildComponent.tsx**",
  "\x60\x60\x60typescript",
  "import React from \x27react\x27;",
  "",
  "interface ChildProps \x7b",
  "  counter: number;",
  "\x7d",
  "",
  "const ChildComponent: React.FC<ChildProps> = (\x7b counter \x7d) => \x7b",
  "  console.log(\x27ChildComponent rendered\x27);",
  "  return <div>Counter: \x7bcounter\x7d</div>;",
  "\x7d;",
  "",
  "export default React.memo(ChildComponent);",
  "\x60\x60\x60",
  "",
  "### Using \x60useCallback\x60 and \x60useMemo\x60 hooks",
  "",
  "\x60useCallback\x60 returns a memoized version of the callback function that only changes if one of the dependencies has changed, and \x60useMemo\x60 returns a memoized value that only recomputes if one of the dependencies has changed. These hooks can be very useful when passing callbacks or props to child components.",
  "",
  "\x60\x60\x60typescript",
  "import React, \x7b useCallback, useMemo \x7d from \x27react\x27;",
  "import ChildComponent from \x27./ChildComponent\x27;",
  "",
  "const ParentComponent = () => \x7b",
  "  const [counter, setCounter] = useState(0);",
  "  ",
  "  const incrementCounter = useCallback(() => \x7b",
  "    setCounter(counter => counter + 1);",
  "  \x7d, []);",
  "",
  "  const counterProps = useMemo(() => (\x7b counter \x7d), [counter]);",
  "",
  "  return (",
  "    <div>",
  "      <button onClick=\x7bincrementCounter\x7d>Increase Counter</button>",
  "      <ChildComponent \x7b...counterProps\x7d />",
  "    </div>",
  "  );",
  "\x7d;",
  "",
  "export default ParentComponent;",
  "\x60\x60\x60",
  "",
  "Understanding React\x27s rendering process and lifecycle is vital for developing efficient applications. However, remember that premature optimization is the root of all evil. React is already designed to be fast, and many optimizations can lead to complex code. Only apply these techniques when necessary",
  "",
  ". ",
  "",
  "Next time we\x27ll take a deeper dive into the performance tools you can use to measure your React application\x27s performance. Until then, keep building and learning."]

/-- Lines of the source document at `unnamed/part_001` (verbatim, one string per line). -/
def doc_part_001 : List String := [
  "Sure, let\x27s dive into \"Optimizing API Calls with \x60useEffect\x60 and \x60useCallback\x60\" with the tone of voice you\x27ve specified:",
  "",
  "React\x27s Hooks \x60useEffect\x60 and \x60useCallback\x60 can be powerful allies when it comes to dealing with API calls. By judiciously applying these hooks, we can sidestep unnecessary network requests, bolster performance, and generally make our applications more responsive and pleasant for users. ",
  "",
  "## Case Study 1: Debouncing API Calls in a Search Component",
  "",
  "Envision a \x60Search\x60 component in which every keystroke initiates a network request. As users type, this could lead to a plethora of network requests, bogging down performance and potentially inundating the API server. Here\x27s where \x60useEffect\x60 and \x60useCallback\x60 can work their magic.",
  "",
  "**Step 1: The Setup**",
  "",
  "Let\x27s start with a basic \x60Search\x60 component that sends a request with every keystroke:",
  "",
  "\x60\x60\x60jsx",
  "import React, \x7b useState, useEffect \x7d from \x27react\x27;",
  "import axios from \x27axios\x27;",
  "",
  "const Search = () => \x7b",
  "  const [term, setTerm] = useState(\x27\x27);",
  "  const [results, setResults] = useState([]);",
  "",
  "  useEffect(() => \x7b",
  "    const fetchResults = async () => \x7b",
  "      const \x7b data \x7d = await axios.get(\x60https://api.example.com/search?term=$\x7bterm\x7d\x60);",
  "      setResults(data);",
  "    \x7d;",
  "",
  "    fetchResults();",
  "  \x7d, [term]);",
  "",
  "  // ... render the component ...",
  "\x7d;",
  "\x60\x60\x60",
  "",
  "**Step 2: Apply useCallback**",
  "",
  "Next, let\x27s wrap our API call in the \x60useCallback\x60 hook. This will give us a memoized version of the function, which means it will only change if its dependencies change:",
  "",
  "\x60\x60\x60jsx",
  "import React, \x7b useState, useEffect, useCallback \x7d from \x27react\x27;",
  "import axios from \x27axios\x27;",
  "",
  "const Search = () => \x7b",
  "  const [term, setTerm] = useState(\x27\x27);",
  "  const [results, setResults] = useState([]);",
  "",
  "  const fetchResults = useCallback(async () => \x7b",
  "    const \x7b data \x7d = await axios.get(\x60https://api.example.com/search?term=$\x7bterm\x7d\x60);",
  "    setResults(data);",
  "  \x7d, [term]);",
  "",
  "  useEffect(() => \x7b",
  "    fetchResults();",
  "  \x7d, [fetchResults]);",
  "",
  "  // ... render the component ...",
  "\x7d;",
  "\x60\x60\x60",
  "",
  "**Step 3: Debounce with useEffect**",
  "",
  "Finally, let\x27s debounce our API calls using a combination of \x60useEffect\x60 and \x60useCallback\x60. We\x27ll add a delay to our \x60useEffect\x60 hook so that it waits for the user to stop typing before it sends a request:",
  "",
  "\x60\x60\x60jsx",
  "import React, \x7b useState, useEffect, useCallback \x7d from \x27react\x27;",
  "import axios from \x27axios\x27;",
  "",
  "const Search = () => \x7b",
  "  const [term, setTerm] = useState(\x27\x27);",
  "  const [results, setResults] = useState([]);",
  "",
  "  const fetchResults = useCallback(async () => \x7b",
  "    const \x7b data \x7d = await axios.get(\x60https://api.example.com/search?term=$\x7bterm\x7d\x60);",
  "    setResults(data);",
  "  \x7d, [term]);",
  "",
  "  useEffect(() => \x7b",
  "    const timerId = setTimeout(fetchResults, 500);",
  "",
  "    return () => \x7b",
  "      clearTimeout(timerId);",
  "    \x7d;",
  "  \x7d, [fetchResults]);",
  "",
  "  // ... render the component ...",
  "\x7d;",
  "\x60\x60\x60",
  "",
  "Here, we\x27ve added a 500ms delay before the API call is made. If the user types something else within this delay, the previous API call is cancelled, and the timer is reset. Now, we\x27ve got a component that makes API calls intelligently, considering both user experience and API load. ",
  "",
  "Remember, with great power comes great responsibility. Use these hooks wisely to tune the performance of your React applications."]

/-- Lines of the source document at `unnamed/part_002` (verbatim, one string per line). -/
def doc_part_002 : List String := [
  "# Cheatsheet: Assessing App Performance and Identifying Optimal Moments for Optimization in React",
  "",
  "Hello, experienced React developers! Understanding when and how to optimize your application is critical. However, before embarking on that optimization journey, it\x27s essential to measure the current performance of your application to establish a baseline. Here\x27s your cheatsheet to identifying performance bottlenecks and determining the right time for optimization.",
  "",
  "## Measuring App Performance",
  "",
  "1. **React Developer Tools (Profiling)**: This browser extension provides invaluable insights. Its Profiler feature helps identify performance bottlenecks in React components. It visualizes rendering times, helping you understand what\x27s slowing down your app.",
  "",
  "2. **Google Lighthouse**: This open-source tool, built into Chrome DevTools, provides a comprehensive overview of the performance of your app. It gives performance metrics like First Contentful Paint (FCP), Speed Index, and Time to Interactive (TTI).",
  "",
  "3. **Chrome DevTools Performance Tab**: This records runtime performance, enabling you to see how your website performs during load and runtime, and helps identify costly JavaScript operations, long network requests, and more.",
  "",
  "4. **Web Vitals**: Web Vitals is an initiative by Google to provide guidelines on essential metrics for a healthy site. Metrics like Largest Contentful Paint (LCP), First Input Delay (FID), and Cumulative Layout Shift (CLS) are key to understanding user experience.",
  "",
  "## When to Consider Optimization",
  "",
  "1. **Slow Component Rendering**: If React DevTools indicates certain components are consistently slow to render, it\x27s time to consider optimizing.",
  "",
  "2. **Long Task Times**: The Performance Tab in Chrome DevTools shows tasks in the main thread. If you observe long tasks (over 50ms), optimization might be necessary.",
  "",
  "3. **Unsatisfactory Lighthouse Score**: A low performance score (below 90) in Lighthouse is generally an indicator of needed optimizations.",
  "",
  "4. **Poor Web Vitals Metrics**: Poor LCP, FID, or CLS scores often indicate performance issues that negatively impact user experience.",
  "",
  "## The Path to Optimization",
  "",
  "1. **Code Splitting**: Implementing code splitting via React.lazy() and Suspense allows you to break up code and reduce the size of the initial load, increasing app performance.",
  "",
  "2. **Memoization**: Techniques such as using \x60React.memo()\x60, \x60useMemo()\x60, or \x60useCallback()\x60 help avoid unnecessary re-renders or computations.",
  "",
  "3. **Web Workers**: For heavy computations, consider offloading tasks to Web Workers to free up the main thread.",
  "",
  "4. **Using Production Build for Measurements**: Always measure performance with a production build. Development mode includes extra warnings that can make React slower.",
  "",
  "5. **Efficient Data Structures**: Use appropriate data structures. For instance, using a JavaScript Set for membership checks is much faster than an array.",
  "",
  "Okay great, but what does this look like in a practical setting? Here are some case studies showcasing the use of React Developer Tools and Google Lighthouse.",
  "",
  "## Case Study 1: Profiling with React Developer Tools",
  "",
  "Consider this \x60ExpensiveComponent\x60 which renders a list of items.",
  "",
  "\x60\x60\x60jsx",
  "import React from \"react\";",
  "",
  "const ExpensiveComponent = (\x7b items \x7d) => \x7b",
  "  return (",
  "    <div>",
  "      \x7bitems.map((item) => (",
  "        <div key=\x7bitem.id\x7d>\x7bitem.name\x7d</div>",
  "      ))\x7d",
  "    </div>",
  "  );",
  "\x7d;",
  "",
  "export default ExpensiveComponent;",
  "\x60\x60\x60",
  "",
  "To profile this component:",
  "",
  "1. Install and open the React Developer Tools extension in your browser.",
  "2. Click on the \"Profiler\" tab in the React Developer Tools panel.",
  "3. Click the record button and interact with your application. For example, you can update the list of items that the \x60ExpensiveComponent\x60 is rendering.",
  "4. Stop the recording and analyze the flamegraph and ranked chart. This provides an understanding of the components that take the most time to render.",
  "",
  "## Case Study 2: Auditing with Google Lighthouse",
  "",
  "Let\x27s use Google Lighthouse to audit an application that displays a list of items.",
  "",
  "\x60\x60\x60jsx",
  "import React, \x7b useState, useEffect \x7d from \"react\";",
  "",
  "const ItemList = () => \x7b",
  "  const [items, setItems] = useState([]);",
  "",
  "  useEffect(() => \x7b",
  "    fetch(\"https://api.example.com/items\")",
  "      .then((response) => response.json())",
  "      .then((data) => setItems(data));",
  "  \x7d, []);",
  "",
  "  return (",
  "    <div>",
  "      \x7bitems.map((item) => (",
  "        <div key=\x7bitem.id\x7d>\x7bitem.name\x7d</div>",
  "      ))\x7d",
  "    </div>",
  "  );",
  "\x7d;",
  "",
  "export default ItemList;",
  "\x60\x60\x60",
  "",
  "To run a Lighthouse audit:",
  "",
  "1. Open your application in Google Chrome and press F12 to open Chrome DevTools.",
  "2. Navigate to the Lighthouse tab, select the \"Performance\" category, and then click \"Generate report\".",
  "3. Review the metrics provided. Lighthouse gives a score between 0 and 100 for performance. It also provides metrics like First Contentful Paint and Time to Interactive, which directly reflect the user\x27s experience.",
  "4. The report also provides suggestions for performance improvements, such as removing unused code or reducing server response times.",
  "",
  "In both these case studies, measuring the performance of the components will provide insights on where optimizations may be needed. It is always essential to measure before starting any performance optimization tasks.",
  "",
  "Remember, premature optimization can lead to increased complexity and maintenance. The mantra is, \"Measure, don\x27t guess!\" Always ensure the performance issue exists before optimizing. Happy coding!",
  ""]

/-- Lines of the source document at `unnamed/part_003` (verbatim, one string per line). -/
def doc_part_003 : List String := [
  "# Cheatsheet: Understanding useMemo and useCallback in React",
  "",
  "React provides us with a variety of hooks, each with its own set of use cases and considerations. Today, we\x27ll focus on \x60useMemo\x60 and \x60useCallback\x60, unraveling their differences and understanding when to reach for each. ",
  "",
  "## useMemo: ",
  "",
  "\x60useMemo\x60 returns a memoized value. You can think of this hook as a way to tell React to store a value and only recompute it when certain dependencies change. This is extremely useful for expensive calculations.",
  "",
  "Here\x27s an example where we compute factorial of a number using \x60useMemo\x60:",
  "",
  "**FactorialComponent.tsx**",
  "\x60\x60\x60typescript",
  "import React, \x7b useState, useMemo \x7d from \x27react\x27;",
  "",
  "const calculateFactorial = (num: number): number => \x7b",
  "  if (num === 0) return 1;",
  "  let i = num;",
  "  while (--num) i *= num;",
  "  return i;",
  "\x7d;",
  "",
  "const FactorialComponent: React.FC = () => \x7b",
  "  const [number, setNumber] = useState(5);",
  "",
  "  const factorial = useMemo(() => calculateFactorial(number), [number]);",
  "",
  "  return (",
  "    <div>",
  "      <input",
  "        type=\"number\"",
  "        value=\x7bnumber\x7d",
  "        onChange=\x7b(e) => setNumber(Number(e.target.value))\x7d",
  "      />",
  "      <p>Factorial: \x7bfactorial\x7d</p>",
  "    </div>",
  "  );",
  "\x7d;",
  "",
  "export default FactorialComponent;",
  "\x60\x60\x60",
  "",
  "In the above example, the factorial calculation will only run when the \x60number\x60 state changes.",
  "",
  "## useCallback:",
  "",
  "\x60useCallback\x60 on the other hand, returns a memoized version of the callback function that only changes if one of the dependencies has changed. This is useful when passing callbacks to optimized child components that rely on reference equality to prevent unnecessary renders.",
  "",
  "Here\x27s an example where we use \x60useCallback\x60 to ensure that the \x60handleClick\x60 function we pass to a child component doesn\x27t change unless necessary:",
  "",
  "**CallbackComponent.tsx**",
  "\x60\x60\x60typescript",
  "import React, \x7b useState, useCallback \x7d from \x27react\x27;",
  "import ChildComponent from \x27./ChildComponent\x27;",
  "",
  "const CallbackComponent: React.FC = () => \x7b",
  "  const [counter, setCounter] = useState(0);",
  "",
  "  const handleClick = useCallback(() => \x7b",
  "    setCounter((counter) => counter + 1);",
  "  \x7d, []);",
  "",
  "  return (",
  "    <div>",
  "      <ChildComponent onClick=\x7bhandleClick\x7d />",
  "      <p>Counter: \x7bcounter\x7d</p>",
  "    </div>",
  "  );",
  "\x7d;",
  "",
  "export default CallbackComponent;",
  "\x60\x60\x60",
  "",
  "**ChildComponent.tsx**",
  "\x60\x60\x60typescript",
  "import React, \x7b ReactElement \x7d from \x27react\x27;",
  "",
  "interface ChildProps \x7b",
  "  onClick: () => void;",
  "\x7d",
  "",
  "const ChildComponent: React.FC<ChildProps> = React.memo((\x7b onClick \x7d) => \x7b",
  "  console.log(\x27ChildComponent rendered\x27);",
  "  return <button onClick=\x7bonClick\x7d>Increase Counter</button>;",
  "\x7d);",
  "",
  "export default ChildComponent;",
  "\x60\x60\x60",
  "",
  "In this case, the child component will not rerender unnecessarily because the \x60handleClick\x60 callback maintains its identity across rerenders, thanks to \x60useCallback\x60.",
  "",
  "## When to Use useMemo and useCallback",
  "",
  "As a rule of thumb, use \x60useMemo\x60 when you need to optimize expensive computations and \x60useCallback\x60 when you pass callbacks to optimized child components.",
  "",
  "However, it\x27s important to note that **over-optimization can lead to more harm than good**. Both \x60useMemo\x60 and \x60useCallback\x60 come with their own overhead, so use them judiciously and only when necessary.",
  "",
  "So there you have it, a concise exploration into the realm of \x60useMemo\x60 and \x60useCallback\x60. These tools can be a boon to your React performance, but remember the golden rule of optimization: don\x27t do it prematurely. Happy coding!"]

/-- Lines of the source document at `unnamed/part_004` (verbatim, one string per line). -/
def doc_part_004 : List String := [
  "# How to ship fast using code passes. ",
  "",
  "Don\x27t bother with  go-to best-practice code from the very start; it slows down development and stops you delivering quickly. Instead of aiming for perfection from day one, split your coding sessions into three distinct passes. When you first write code, it should be with an aim to get it done quickly; a working prototype. There\x27s plenty of time to fix your mistakes and make your code \x27acceptable\x27 after this, but right now, relax.",
  "",
  "## Pass One: Get it done",
  "",
  "#### When? Immediately.",
  "#### Objective: It works. That\x27s it.",
  "",
  "The aim here is to get started. Pen on paper mode, let\x27s go. Create your new component file (\x60kebab-case.tsx\x60) and get to work scaffolding everything you need. Move fast, stay native, and get to a point that things work.",
  "",
  "Keep types to a minimum, don\x27t be afraid of \x60[key] : any\x60 and definitely work from one single file. \x60useState\x60, \x60useEffect\x60 etc are more than enough at this stage - You can always refactor that messy logic to custom hook later on if needed. The objective is to get your code working so you can move onto Pass two.",
  "",
  "",
  "",
  "\x60\x60\x60tsx",
  "// Pass One: user-profile.tsx",
  "",
  "import \x7b useState, useEffect \x7d from \x27react\x27;",
  "",
  "const UserProfile = () => \x7b",
  "  const [user, setUser] = useState<any>(null);",
  "",
  "  useEffect(() => \x7b",
  "    fetch(\x60https://api.example.com/user/1\x60)",
  "      .then(response => response.json())",
  "      .then(data => setUser(data));",
  "  \x7d, []);",
  "",
  "  if (!user) \x7b",
  "    return <div>Loading...</div>;",
  "  \x7d",
  "",
  "  return (",
  "    <div className=\"p-4\">",
  "      <h2 className=\"text-2xl font-bold mb-2\">\x7buser.name\x7d</h2>",
  "      <p className=\"text-gray-700\">\x7buser.email\x7d</p>",
  "    </div>",
  "  );",
  "\x7d;",
  "",
  "export default UserProfile;",
  "",
  "",
  "\x60\x60\x60",
  "",
  "#### Pass Two: Make it right",
  "",
  "##### Objective: It works as expected and is understandable. ",
  "",
  "Now that your code is working, start adding more specific types to replace any \x60[key]: any\x60 you might have used. Break down large functions into smaller, named functions. This will make your code easier to understand and debug. Start introducing some testing at this stage to make sure your code not only works, but it works as expected.",
  "",
  "\x60\x60\x60tsx",
  "// Pass Two: user-profile.tsx",
  "interface User \x7b",
  "  id: number;",
  "  name: string;",
  "  email: string;",
  "  // Other fields...",
  "\x7d",
  "",
  "export const UserProfile = () => \x7b",
  "  const [user, setUser] = useState<User | null>(null);",
  "",
  "  const fetchUser = async () => \x7b",
  "    const res = await fetch(\x60https://.../users\x60);",
  "    const user = await res.json() as User;",
  "    setUser(user);",
  "  \x7d;",
  "",
  "  useEffect(() => \x7b",
  "    fetchUser();",
  "  \x7d, []);",
  "",
  "  return (",
  "    // JSX",
  "  );",
  "\x7d;",
  "",
  "\x60\x60\x60",
  "",
  "",
  "#### Pass Three: Make it good",
  "",
  "##### Objective: It\x27s optimized and maintainable. ",
  "",
  "This is the stage where you start thinking about optimizing your code. Can some parts of your code be memoized to improve performance? Can some state and functions be moved into custom hooks for better organization and reusability? You should also consider splitting your files if they\x27ve grown too large at this stage.",
  "",
  "\x60\x60\x60tsx",
  "// Pass Three: useUser.ts",
  "export const useUser = () => \x7b",
  "  const [user, setUser] = useState<User | null>(null);",
  "",
  "  const fetchUser = async () => \x7b",
  "    const res = await fetch(\x60https://.../users\x60);",
  "    const user = await res.json() as User;",
  "    setUser(user);",
  "  \x7d;",
  "",
  "  useEffect(() => \x7b",
  "    fetchUser();",
  "  \x7d, []);",
  "",
  "  return user;",
  "\x7d;",
  "",
  "// Pass Three: user-profile.tsx",
  "import \x7b useUser \x7d from \x27./hooks/useUser\x27;",
  "",
  "export const UserProfile = () => \x7b",
  "  const user = useUser();",
  "",
  "  return (",
  "    // JSX",
  "  );",
  "\x7d;",
  "",
  "\x60\x60\x60",
  "",
  "#### Pass Four: Make it resilient",
  "",
  "Objective: It\x27s robust and can handle failure gracefully. This pass involves thinking about error handling, edge cases, and the overall user experience when things don\x27t go as expected. In the context of our example, this might involve handling scenarios where the user data couldn\x27t be fetched, or perhaps the data comes back in an unexpected format.",
  "",
  "Here\x27s what this might look like in code:",
  "",
  "\x60\x60\x60tsx",
  "// Pass Four: useUser.ts",
  "import \x7b useState, useEffect \x7d from \x27react\x27;",
  "",
  "interface User \x7b",
  "  id: number;",
  "  name: string;",
  "  email: string;",
  "  // Other fields...",
  "\x7d",
  "",
  "export const useUser = () => \x7b",
  "  const [user, setUser] = useState<User | null>(null);",
  "  const [error, setError] = useState<string | null>(null);",
  "",
  "  const fetchUser = async () => \x7b",
  "    try \x7b",
  "      const res = await fetch(\x60https://.../users\x60);",
  "      if (!res.ok) \x7b",
  "        throw new Error(\x27Failed to fetch user\x27);",
  "      \x7d",
  "      const user = await res.json() as User;",
  "      setUser(user);",
  "    \x7d catch (err) \x7b",
  "      setError(err.message);",
  "    \x7d",
  "  \x7d;",
  "",
  "  useEffect(() => \x7b",
  "    fetchUser();",
  "  \x7d, []);",
  "",
  "  return \x7b user, error \x7d;",
  "\x7d;",
  "",
  "// Pass Four: user-profile.tsx",
  "import \x7b useUser \x7d from \x27./hooks/useUser\x27;",
  "",
  "export const UserProfile = () => \x7b",
  "  const \x7b user, error \x7d = useUser();",
  "",
  "  if (error) \x7b",
  "    return <div>Error: \x7berror\x7d</div>;",
  "  \x7d",
  "",
  "  if (!user) \x7b",
  "    return <div>Loading...</div>;",
  "  \x7d",
  "",
  "  return (",
  "    // JSX",
  "  );",
  "\x7d;",
  "",
  "\x60\x60\x60",
  "",
  "In this example, we have added error handling to the \x60fetchUser\x60 function in our custom hook, and the hook now returns an \x60error\x60 state alongside the \x60user\x60 state. The \x60UserProfile\x60 component can then display an error message to the user when something goes wrong. This makes our application more resilient and provides a better user experience.",
  "",
  "Remember, you don\x27t necessarily have to follow these passes in order or only once. It\x27s more of an iterative process where you continually refine and improve your code over time. You might go through several cycles of \"making it work\", then \"making it right\", then \"making it good\", then \"making it resilient\" as you develop an application."]

/-- Lines of the source document at `unnamed/part_005` (verbatim, one string per line). -/
def doc_part_005 : List String := [
  "#### Pass Three: Getting it Fast",
  "",
  "##### Objective: It\x27s efficient and manageable.",
  "",
  "This is the juncture where the lens shifts towards optimising your code. Could certain segments of your code benefit from memoization to bolster performance? Could state and functions migrate into custom hooks to enhance organisation and reusability? It\x27s also time to contemplate file-splitting if they\x27ve become a bit of a behemoth.",
  "",
  "Speaking of tests, they need a bit of attention here, too. As you refactor and optimise, your tests may need updates to reflect any changes. It\x27s also a good opportunity to review your coverage, ensuring you\x27ve not missed any crucial functionality.",
  "",
  "For instance, if you have moved some logic into a custom hook, you could add tests specifically for this hook:",
  "",
  "\x60\x60\x60typescript",
  "// Pass Three: useUser.ts",
  "export const useUser = () => \x7b",
  "  const [user, setUser] = useState<User | null>(null);",
  "",
  "  const fetchUser = async () => \x7b",
  "    const res = await fetch(\x60https://.../users\x60);",
  "    const user = await res.json() as User;",
  "    setUser(user);",
  "  \x7d;",
  "",
  "  useEffect(() => \x7b",
  "    fetchUser();",
  "  \x7d, []);",
  "",
  "  return user;",
  "\x7d;",
  "",
  "// Pass Three: user-profile.tsx",
  "import \x7b useUser \x7d from \x27./hooks/useUser\x27;",
  "",
  "export const UserProfile = () => \x7b",
  "  const user = useUser();",
  "",
  "  return (",
  "    // JSX",
  "  );",
  "\x7d;",
  "\x60\x60\x60",
  "",
  "In this test, we\x27re using the \x60renderHook\x60 function from React Testing Library\x27s Hooks testing library. You would replace the \"...Your test assertions here...\" comment with tests specific to what your hook does. By the end of Pass Three, your code should be sleek, efficient, and your tests should ensure everything still works as expected after the optimisations."]

/-- Lines of the source document at `unnamed/part_006` (verbatim, one string per line). -/
def doc_part_006 : List String := [
  "# Advanced State Management with \x60useReducer\x60 and \x60useContext\x60",
  "",
  "Navigating state management in a React application can be intricate, especially as your state starts to escalate in complexity. \x60useState\x60 may be inadequate, and it\x27s at this point that \x60useReducer\x60 and \x60useContext\x60 reveal their usefulness. These React hooks provide a more disciplined and scalable approach to managing elaborate state structures.",
  "",
  "## Use Case: E-commerce Shopping Cart State Management",
  "",
  "Visualize an e-commerce application where there\x27s a \x60Cart\x60 component. The cart needs to perform several actions, including adding items, removing items, updating quantities, and resetting the cart, among others.",
  "",
  "**Step 1: Cart Component Setup**",
  "",
  "Initially, our \x60Cart\x60 component utilizing \x60useState\x60 might look as follows:",
  "",
  "\x60\x60\x60jsx",
  "import React, \x7b useState \x7d from \x27react\x27;",
  "",
  "const Cart = () => \x7b",
  "  const [items, setItems] = useState([]);",
  "",
  "  // Item manipulation functions...",
  "",
  "  // ... Component rendering logic...",
  "\x7d;",
  "\x60\x60\x60",
  "",
  "However, as more actions are introduced and state complexity escalates, this approach may become burdensome and challenging to maintain.",
  "",
  "**Step 2: Transitioning to useReducer**",
  "",
  "The \x60useReducer\x60 hook addresses this by allowing us to centralize our state logic into a reducer function. This yields a codebase that is significantly cleaner and more maintainable:",
  "",
  "\x60\x60\x60jsx",
  "import React, \x7b useReducer \x7d from \x27react\x27;",
  "",
  "const cartReducer = (state, action) => \x7b",
  "  // Switch statement for different actions...",
  "",
  "\x7d;",
  "",
  "const Cart = () => \x7b",
  "  const [items, dispatch] = useReducer(cartReducer, []);",
  "",
  "  // ... Component rendering logic...",
  "\x7d;",
  "\x60\x60\x60",
  "",
  "Now, we possess a single \x60dispatch\x60 function capable of performing any state alteration.",
  "",
  "**Step 3: Integrating useContext**",
  "",
  "To propagate our state and \x60dispatch\x60 function to other components, we employ the \x60useContext\x60 Hook:",
  "",
  "\x60\x60\x60jsx",
  "import React, \x7b useReducer, createContext, useContext \x7d from \x27react\x27;",
  "",
  "const CartContext = createContext();",
  "",
  "const cartReducer = (state, action) => \x7b",
  "  // ... Same reducer function...",
  "\x7d;",
  "",
  "const Cart = () => \x7b",
  "  const [items, dispatch] = useReducer(cartReducer, []);",
  "",
  "  // Wrap component with context provider...",
  "\x7d;",
  "",
  "// Access cart state and dispatch function in another part of the app...",
  "const \x7b items, dispatch \x7d = useContext(CartContext);",
  "\x60\x60\x60",
  "",
  "Congratulations! You now possess a scalable strategy for managing complex state structures in your application.",
  "",
  "# Considerations for useReducer and useContext",
  "",
  "While \x60useReducer\x60 and \x60useContext\x60 are powerful, they should not be used indiscriminately:",
  "",
  "1. **Overhead**: These hooks introduce a certain degree of overhead. If you\x27re managing simple state, \x60useState\x60 could be a better choice.",
  "",
  "2. **Complexity**: They may increase complexity, especially if you have numerous actions. Make sure to break down your reducer functions into manageable pieces.",
  "",
  "3. **Performance**: React\x27s context API is not optimized for high-frequency updates, which can lead to unnecessary re-renders and performance degradation.",
  "",
  "# Alternatives to Consider",
  "",
  "If \x60useReducer\x60 and \x60useContext\x60 don\x27t meet your needs, or if your state management requirements are more complex, consider using a dedicated state management library:",
  "",
  "1. **Redux**: This is a robust state management library that is well-suited to applications with complex state requirements. It has a steeper learning curve, but it is very powerful.",
  "",
  "2. **MobX**: This library provides a more straightforward and less boilerplate alternative to Redux. It\x27s simpler to learn and use but may not offer the same level of control as Redux.",
  "",
  "3. **Zustand**: Zustand provides a minimalistic approach to state management. It\x27s lightweight and doesn\x27t have the",
  "",
  " boilerplate of Redux or the complexity of MobX.",
  "",
  "4. **Jotai**: Jotai is another lightweight state management library with a unique atom-based approach. It is well-suited for managing both local and global state.",
  "",
  "5. **Recoil**: Developed by Facebook, Recoil manages state based on atoms and selectors and provides excellent integration with concurrent mode.",
  "",
  "Remember, the best tool often depends on the specific requirements of your project and the complexity of your state.",
  ""]

/-- Lines of the source document at `unnamed/part_007` (verbatim, one string per line). -/
def doc_part_007 : List String := [
  "# Cheatsheet: Kebab-case for Component File Names",
  "",
  "In advanced software development, minor details such as file naming conventions can make a significant difference. Here\x27s a closer look at the argument for using kebab-case for component files:",
  "",
  "**Arguments for Kebab-case**:",
  "",
  "1. **Platform Uniformity**: Kebab-case ensures cross-platform consistency. This is crucial since different operating systems, like Windows (case-insensitive) and Linux (case-sensitive), treat file casing differently. Kebab-case can enhance code portability and mitigate potential issues.",
  "",
  "\x60\x60\x60typescript",
  "// user-profile.tsx",
  "export const UserProfile = () => \x7b",
  "  /*...*/",
  "\x7d;",
  "\x60\x60\x60",
  "",
  "2. **URL Compatibility**: When component names tie directly to routes, kebab-case is a safe choice. It doesn\x27t misinterpret spaces or underscores as special characters or encodings since URLs are case-insensitive.",
  "",
  "\x60\x60\x60typescript",
  "// user-profile.tsx -> www.example.com/user-profile",
  "\x60\x60\x60",
  "",
  "3. **Adherence to Conventions**: Kebab-case is a standard convention in many developer communities. Sticking to it can reduce cognitive load and confusion for developers new to your project, ensuring accessibility and easy navigation.",
  "",
  "4. **Improved Readability**: Kebab-case enhances readability of multi-word filenames and eliminates confusion with camelCase or PascalCase.",
  "",
  "\x60\x60\x60typescript",
  "// user-profile-settings.tsx is more readable than UserProfileSettings.tsx",
  "\x60\x60\x60",
  "",
  "**Arguments Against Kebab-case:**",
  "",
  "1. **Inconsistency in Coding Style**: While kebab-case might be suitable for filenames, it\x27s not used in JavaScript or TypeScript for variable names, class names, or function names. This might lead to a cognitive dissonance when the filename differs in style from the content.",
  "",
  "2. **Auto-import Issues**: Some IDEs may not automatically recognize kebab-case files, leading to manual importing.",
  "",
  "While the impact of using kebab-case may seem minimal, it\x27s a strategic choice that can enhance maintainability and readability. However, remember to weigh it against potential issues like coding style inconsistency and IDE compatibility. Above all, consistency within your project or team should be the top priority.",
  ""]

/-- Lines of the source document at `unnamed/part_008` (verbatim, one string per line). -/
def doc_part_008 : List String := [
  "# **Mastering Salary Negotiations: The Hiring Manager\x27s Playbook**",
  "",
  "Mastering salary negotiation as a hiring manager or team lead is critical for a number of reasons.",
  "",
  "Firstly, it\x27s about getting the best talent onboard. In an industry as competitive as tech, top talent has options. Being able to negotiate effectively means you\x27re more likely to secure the right people for your team. You can sell them not only on the salary, but also the broader benefits and opportunities that come with the role in your company.",
  "",
  "Secondly, it directly impacts your team\x27s satisfaction and retention. Salary is more than just a number - it\x27s a measure of an employee\x27s worth in the organisation. If your team feels they\x27re being fairly compensated for their skills and efforts, they\x27ll be happier, more productive, and more likely to stay with the company for longer.",
  "",
  "Lastly, it benefits you as a leader. Being able to successfully navigate these discussions shows your team, and the company at large, that you possess the necessary skills to advocate for and manage your team effectively. It earns you respect and credibility, which are crucial for any leadership role.",
  "",
  "Heres a few tips to help you master salary negotiations.",
  "",
  "## 1. Understand Market Rates",
  "",
  "Stay current with industry salary benchmarks for similar roles, experience, skills, and location. Websites like Glassdoor, Payscale, and industry surveys can provide useful insights. ",
  "",
  "### Case Study: Fair Compensation",
  "",
  "Tech Lead position opened up in your team. After doing research, you understand the average salary for this role in your city is \u00a3120,000. This benchmark informs the salary range you offer, maintaining competitiveness while staying within budget.",
  "",
  "#### Do:",
  "- Regularly update knowledge of market rates",
  "- Balance between budget constraints and competitive salaries",
  "",
  "#### Don\x27t:",
  "- Offer below market rates without good reason",
  "- Inflate the salary beyond your budget",
  "",
  "## 2. Offer a Comprehensive Package",
  "",
  "Consider the total compensation package. Include bonuses, stock options, insurance, flexible work arrangements, professional development opportunities, and other benefits that could attract and retain talent.",
  "",
  "### Case Study: Compensation Package",
  "",
  "You offer a base salary of \u00a3110,000, slightly lower than the average. But your package also includes health benefits, annual bonuses, and stock options, making it attractive to potential candidates.",
  "",
  "#### Do:",
  "- Highlight the full range of benefits you offer",
  "- Tailor packages to the needs and preferences of potential employees",
  "",
  "#### Don\x27t:",
  "- Focus solely on the base salary",
  "- Ignore the impact of non-monetary benefits",
  "",
  "## 3. Respond to Competing Offers Tactfully",
  "",
  "When a candidate has competing offers, handle the situation with care. Weigh the value the candidate brings against your budget.",
  "",
  "### Case Study: Negotiating with Competing Offers",
  "",
  "A candidate mentions a competing offer of \u00a3125,000. You value this candidate highly and decide to raise your offer to \u00a3130,000.",
  "",
  "#### Do:",
  "- Evaluate the worth of the candidate carefully",
  "- Show the candidate their value to the company",
  "",
  "#### Don\x27t:",
  "- Get into a bidding war you can\x27t sustain",
  "- Dismiss the candidate\x27s worth based on competing offers",
  "",
  "## 4. Avoid Salary Anchoring",
  "",
  "Let the candidate state their salary expectation before you make an offer. This prevents the negotiation from being anchored to a specific figure.",
  "",
  "### Case Study: Avoiding Anchoring",
  "",
  "The candidate does not disclose their current salary or expectations. You make the first offer at \u00a3120,000, based on your budget and their qualifications.",
  "",
  "#### Do:",
  "- Let the candidate state their expectations first",
  "- Base your offer on your budget and their qualifications",
  "",
  "#### Don\x27t:",
  "- Insist on knowing the candidate\x27s current salary",
  "- Lowball the first offer excessively",
  "",
  "## 5. Be Transparent and Fair",
  "",
  "Transparency builds trust. Be open about the constraints and considerations that shape the offer.",
  "",
  "### Case Study: Transparent Negotiation",
  "",
  "You explain that while the base salary is \u00a3115,000, the comprehensive benefits package, positive work culture, and opportunities for growth add significant value.",
  "",
  "#### Do:",
  "- Be honest about what you can and can\x27t offer",
  "- Highlight the benefits of your company and the role",
  "",
  "#### Don\x27t:",
  "- Hide aspects of the compensation or role",
  "- Misrepresent the company culture or job requirements",
  "",
  "## 6. Be Flexible, But Ready to Let Go",
  "",
  "If a candidate\x27s salary expectations far exceed your budget, be ready to respectfully let them go. There will always be other suitable candidates.",
  "",
  "### Case Study: Agreeing to Disagree",
  "",
  "A candidate insists on a \u00a3130,000 base salary, which exceeds your budget. You politely decline and express hope for possible future collaboration.",
  "",
  "#### Do:",
  "- Show flexibility within your constraints",
  "- Maintain good relations with all candidates",
  "",
  "#### Don\x27t:",
  "- Overstretch your budget",
  "- Burn bridges with potential future hires",
  "",
  "Just as candidates have tactics in negotiations,",
  "",
  " so do companies. It\x27s about balancing the needs of the company with the expectations of the candidate, to foster a mutually beneficial relationship. It is not a battle to be won but a negotiation to be mastered."]

/-- The content corpus: every document in the repository, labelled by its path
(documents packaged after a named file carry a `#relatedN` suffix; the unnamed
source files keep their `unnamed/part_NNN` placeholder paths). -/
def contentDocs : List (String × List String) := [
  ("pages/advice-learned-the-hard-way/breaking-into-nontechnical-roles.mdx", doc_breaking_into_nontechnical_roles),
  ("pages/react-cheatsheets/next-js/dealing-with-vercel-vendor-lockin.mdx", doc_dealing_with_vercel_vendor_lockin),
  ("pages/react-cheatsheets/next-js/dealing-with-vercel-vendor-lockin.mdx#related1", doc_dealing_with_vercel_vendor_lockin_related1),
  ("pages/react-cheatsheets/next-js/dealing-with-vercel-vendor-lockin.mdx#related2", doc_dealing_with_vercel_vendor_lockin_related2),
  ("pages/react-cheatsheets/patterns-worth-knowing/custom-hooks-and-react-query.mdx", doc_custom_hooks_and_react_query),
  ("pages/react-cheatsheets/patterns-worth-knowing/custom-hooks-and-react-query.mdx#related1", doc_custom_hooks_and_react_query_related1),
  ("pages/react-cheatsheets/patterns-worth-knowing/dx-first-state-management.mdx", doc_dx_first_state_management),
  ("pages/react-cheatsheets/patterns-worth-knowing/structuring-your-components.mdx", doc_structuring_your_components),
  ("pages/react-cheatsheets/patterns-worth-knowing/structuring-your-components.mdx#related1", doc_structuring_your_components_related1),
  ("pages/react-cheatsheets/patterns-worth-knowing/utilizing-the-decorator-pattern.mdx", doc_utilizing_the_decorator_pattern),
  ("pages/react-cheatsheets/react-performance-debugging/lazy-loading-components-with-react-lazy.mdx", doc_lazy_loading_components_with_react_lazy),
  ("pages/react-cheatsheets/react-performance-debugging/offloading-to-web-workers.mdx", doc_offloading_to_web_workers),
  ("pages/react-cheatsheets/react-performance-debugging/optimizing-api-calls-with-useeffect-and-usecallback.mdx", doc_optimizing_api_calls_with_useeffect_and_usecallback),
  ("pages/react-cheatsheets/react-performance-debugging/optimizing-context-api-with-memoization-and-context-splitting.mdx", doc_optimizing_context_api_with_memoization_and_context_splitting),
  ("pages/react-cheatsheets/react-performance-debugging/optimizing-context-api-with-memoization-and-context-splitting.mdx#related1", doc_optimizing_context_api_with_memoization_and_context_splitting_related1),
  ("pages/react-cheatsheets/react-performance-debugging/profiling-components-with-react-devtools.mdx", doc_profiling_components_with_react_devtools),
  ("pages/react-cheatsheets/react-performance-debugging/suspense-and-concurrent-mode-in-react-18.mdx", doc_suspense_and_concurrent_mode_in_react_18),
  ("pages/react-cheatsheets/using-passes/1-pass-one.mdx", doc_1_pass_one),
  ("pages/react-cheatsheets/using-passes/1-pass-one.mdx#related1", doc_1_pass_one_related1),
  ("pages/react-cheatsheets/using-passes/2-pass-two.mdx", doc_2_pass_two),
  ("pages/react-cheatsheets/using-passes/5-using-passes.mdx", doc_5_using_passes),
  ("pages/scraping-guide/advanced-css-selector-guide.mdx", doc_advanced_css_selector_guide),
  ("pages/scraping-guide/advanced-css-selector-guide.mdx#related1", doc_advanced_css_selector_guide_related1),
  ("pages/scraping-guide/collecting-paginated-data-easily.mdx", doc_collecting_paginated_data_easily),
  ("pages/scraping-guide/manipulate-dom-with-console-commands.mdx", doc_manipulate_dom_with_console_commands),
  ("pages/scraping-guide/puppeteer-crash-course.mdx", doc_puppeteer_crash_course),
  ("pages/scraping-guide/structuring-your-puppeteer-scrape.mdx", doc_structuring_your_puppeteer_scrape),
  ("unnamed/part_000", doc_part_000),
  ("unnamed/part_001", doc_part_001),
  ("unnamed/part_002", doc_part_002),
  ("unnamed/part_003", doc_part_003),
  ("unnamed/part_004", doc_part_004),
  ("unnamed/part_005", doc_part_005),
  ("unnamed/part_006", doc_part_006),
  ("unnamed/part_007", doc_part_007),
  ("unnamed/part_008", doc_part_008)]

/-! Helper lemmas. -/

/-- Routing helper: the route of the file at `pages/<rel>.mdx` is `/<rel>`. -/
theorem siteRoute_pagePath (rel : List Char) : siteRoute (pagePath rel) = '/' :: rel := by
  unfold siteRoute pagePath
  rw [List.append_assoc, List.drop_left, List.length_append, Nat.add_sub_cancel,
    List.take_left]

/-- Unfolding `lookupField` when the head entry's key matches. -/
theorem lookupField_cons_pos (k : String) (v : ConfigValue)
    (tl : List (String × ConfigValue)) (key : String) (h : (k == key) = true) :
    lookupField ((k, v) :: tl) key = some v := by
  simp only [lookupField]
  rw [List.find?_cons_of_pos _ (by simpa using h)]
  rfl

/-- Unfolding `lookupField` when the head entry's key does not match. -/
theorem lookupField_cons_neg (k : String) (v : ConfigValue)
    (tl : List (String × ConfigValue)) (key : String) (h : (k == key) = false) :
    lookupField ((k, v) :: tl) key = lookupField tl key := by
  simp only [lookupField]
  rw [List.find?_cons_of_neg _ (by simp [h])]

/-- Replacing the field `sub` in an association list hits the entry `find?`
returns: if some entry with key `sub` exists, the updated list's entry at
`sub` is `(sub, s)`. -/
theorem find?_map_set (o : List (String × String)) (sub s : String)
    (h : (o.find? (fun kv => kv.1 == sub)).isSome = true) :
    ((o.map (fun kv => if kv.1 == sub then (kv.1, s) else kv)).find?
      (fun kv => kv.1 == sub)) = some (sub, s) := by
  induction o with
  | nil => simp at h
  | cons hd tl ih =>
    by_cases hk : hd.1 = sub
    · simp [hk]
    · have hkb : ¬ ((hd.1 == sub) = true) := by simp [hk]
      simp only [List.map_cons, if_neg hkb]
      rw [@List.find?_cons_of_neg (String × String) (fun kv => kv.1 == sub) hd
        (tl.map (fun kv => if kv.1 == sub then (kv.1, s) else kv)) hkb]
      rw [@List.find?_cons_of_neg (String × String) (fun kv => kv.1 == sub) hd tl hkb] at h
      exact ih h

/-- `setFooterText` really sets `footer.text`: whenever the configuration
object carries a `footer.text` string, the updated object's `footer.text`
is `some s`. -/
theorem footerText_setFooterText (c : List (String × ConfigValue)) (s : String)
    (h : hasFooterText c = true) :
    footerText (setFooterText c s) = some s := by
  induction c with
  | nil =>
    simp [hasFooterText, footerText, getSubField, getObjField, lookupField] at h
  | cons hd tl ih =>
    obtain ⟨k, v⟩ := hd
    by_cases hk : (k == "footer") = true
    · have hset : setFooterText ((k, v) :: tl) s
          = (k, setObjSubField v "text" s) :: setFooterText tl s := by
        simp only [setFooterText, List.map_cons]
        rw [if_pos hk]
      cases v with
      | str t =>
        exfalso
        have h1 := lookupField_cons_pos k (ConfigValue.str t) tl "footer" hk
        simp [hasFooterText, footerText, getSubField, getObjField, h1] at h
      | markup t =>
        exfalso
        have h1 := lookupField_cons_pos k (ConfigValue.markup t) tl "footer" hk
        simp [hasFooterText, footerText, getSubField, getObjField, h1] at h
      | obj o =>
        have h1 := lookupField_cons_pos k (ConfigValue.obj o) tl "footer" hk
        have hfind : (o.find? (fun kv => kv.1 == "text")).isSome = true := by
          simp only [hasFooterText, footerText, getSubField, getObjField, h1] at h
          simpa using h
        have h2 := lookupField_cons_pos k
          (ConfigValue.obj (o.map (fun kv => if kv.1 == "text" then (kv.1, s) else kv)))
          (setFooterText tl s) "footer" hk
        rw [hset]
        simp only [footerText, getSubField, getObjField, setObjSubField, h2]
        rw [find?_map_set o "text" s hfind]
        rfl
    · have hk2 : (k == "footer") = false := by simpa using hk
      have hset : setFooterText ((k, v) :: tl) s = (k, v) :: setFooterText tl s := by
        simp only [setFooterText, List.map_cons]
        rw [if_neg (by simp [hk2] : ¬ ((k == "footer") = true))]
      have h1 := lookupField_cons_neg k v tl "footer" hk2
      have h2 := lookupField_cons_neg k v (setFooterText tl s) "footer" hk2
      have hh : hasFooterText tl = true := by
        simpa only [hasFooterText, footerText, getSubField, getObjField, h1] using h
      rw [hset]
      simpa only [footerText, getSubField, getObjField, h2] using ih hh

/-! Theorems about the claims. -/

/-- C1: both exported site-configuration objects carry a nonempty `logo` and
`footer.text`, and their `project.link`, `chat.link` and `docsRepositoryBase`
fields are syntactically valid URLs. -/
theorem config_required_fields_valid :
    configWellFormed themeConfig = true ∧ configWellFormed part009Config = true := by
  decide

/-- C2: the object exported by `src/theme.config.tsx` has exactly the fields
the spec enumerates - `logo` markup, `project.link`, `chat.link`,
`docsRepositoryBase`, `footer.text` - and no others. -/
theorem config_shape_matches_spec :
    fieldNames themeConfig = ["logo", "project", "chat", "docsRepositoryBase", "footer"]
      ∧ objFieldNames themeConfig "project" = some ["link"]
      ∧ objFieldNames themeConfig "chat" = some ["link"]
      ∧ objFieldNames themeConfig "footer" = some ["text"]
      ∧ (getMarkupField themeConfig "logo").isSome = true
      ∧ (getStrField themeConfig "docsRepositoryBase").isSome = true := by
  decide

/-- C3: the path-to-route mapping is injective on the repository's content
files: for any duplicate-free list of content-file paths of the shape
`pages/<rel>.mdx`, the derived site routes are pairwise distinct. -/
theorem routes_injective_on_distinct_paths (rels : List (List Char))
    (h : (rels.map pagePath).Nodup) :
    ((rels.map pagePath).map siteRoute).Nodup := by
  rw [List.map_map]
  have hcomp : siteRoute ∘ pagePath = fun r : List Char => '/' :: r :=
    funext fun r => siteRoute_pagePath r
  rw [hcomp]
  exact (List.Nodup.of_map pagePath h).map (@List.cons_injective Char '/')

/-- Witness for C3 on the repository's named content files. -/
theorem routes_injective_on_distinct_paths_witness :
    (namedPageRels.map pagePath).Nodup
      ∧ ((namedPageRels.map pagePath).map siteRoute).Nodup :=
  ⟨by decide, routes_injective_on_distinct_paths namedPageRels (by decide)⟩

/-- C4: every document of the content corpus has balanced code fences - its
fence-delimiter lines pair up to an even count. -/
theorem corpus_code_fences_balanced :
    contentDocs.all (fun d => fencesBalanced d.2) = true := by
  decide

/-- C5 counterexample: it is not the case that every content document carries
a frontmatter block or a heading; the document at
`pages/react-cheatsheets/patterns-worth-knowing/custom-hooks-and-react-query.mdx`
is in the corpus and has neither. -/
theorem title_source_fails_on_corpus :
    contentDocs.all (fun d => hasTitleSource d.2) = false
      ∧ ("pages/react-cheatsheets/patterns-worth-knowing/custom-hooks-and-react-query.mdx",
          doc_custom_hooks_and_react_query) ∈ contentDocs
      ∧ hasTitleSource doc_custom_hooks_and_react_query = false := by
  refine ⟨by decide, by decide, by decide⟩

/-- C5 amended: the content documents without a derivable title are exactly
the three listed in `titleExceptions`; every other content document contains a
frontmatter block or at least one heading. -/
theorem title_source_holds_outside_exceptions :
    (contentDocs.filter (fun d => !(hasTitleSource d.2))).map (fun d => d.1)
      = titleExceptions := by
  decide

/-- C6: the configuration module is pure - its evaluation returns the closed
static literal whatever the build environment, so any two evaluations are
structurally equal. -/
theorem theme_config_module_pure :
    (∀ e : BuildEnv, evalThemeConfigModule e = themeConfig)
      ∧ ∀ e₁ e₂ : BuildEnv, evalThemeConfigModule e₁ = evalThemeConfigModule e₂ :=
  ⟨fun _ => rfl, fun _ _ => rfl⟩

/-- C7: the site route of every content file equals its path relative to the
pages root with the extension removed; in particular `pages/a.mdx` is served
at `/a`. -/
theorem site_route_is_relative_path_without_extension :
    (∀ rel : List Char, siteRoute (pagePath rel) = '/' :: rel)
      ∧ siteRoute "pages/a.mdx".data = "/a".data := by
  exact ⟨siteRoute_pagePath, by decide⟩

/-- C8: replacing `footer.text` by `s` and rebuilding shows `s` as the footer
of every page and leaves every page's content unchanged. -/
theorem footer_propagates_to_every_page (c : List (String × ConfigValue))
    (s : String) (docs : List (List String)) (h : hasFooterText c = true) :
    (buildSite (setFooterText c s) docs).all (fun p => p.footerText == s) = true
      ∧ (buildSite (setFooterText c s) docs).map RenderedPage.content
        = (buildSite c docs).map RenderedPage.content := by
  have hf : footerText (setFooterText c s) = some s := footerText_setFooterText c s h
  constructor
  · simp [buildSite, renderPage, List.all_eq_true, hf]
  · simp [buildSite, renderPage, List.map_map, Function.comp]

/-- Witness for C8 at the exported configuration, footer string `X`, and a
one-document corpus. -/
theorem footer_propagates_to_every_page_witness :
    hasFooterText themeConfig = true
      ∧ ((buildSite (setFooterText themeConfig "X") [["# Hello"]]).all
            (fun p => p.footerText == "X") = true
        ∧ (buildSite (setFooterText themeConfig "X") [["# Hello"]]).map
            RenderedPage.content
          = (buildSite themeConfig [["# Hello"]]).map RenderedPage.content) :=
  ⟨by decide, footer_propagates_to_every_page themeConfig "X" [["# Hello"]] (by decide)⟩

/-- C9: in both configuration objects the `project.link` field equals the
`docsRepositoryBase` field. -/
theorem project_link_eq_docs_repository_base :
    (projectLink themeConfig).isSome = true
      ∧ projectLink themeConfig = getStrField themeConfig "docsRepositoryBase"
      ∧ (projectLink part009Config).isSome = true
      ∧ projectLink part009Config = getStrField part009Config "docsRepositoryBase" := by
  decide

/-- C10: the two configuration objects have identical field structure but
differ in the contents of all five fields, so they are not equal as values. -/
theorem config_variants_same_shape_distinct_values :
    fieldNames part009Config = fieldNames themeConfig
      ∧ objFieldNames part009Config "project" = objFieldNames themeConfig "project"
      ∧ objFieldNames part009Config "chat" = objFieldNames themeConfig "chat"
      ∧ objFieldNames part009Config "footer" = objFieldNames themeConfig "footer"
      ∧ getMarkupField themeConfig "logo" ≠ getMarkupField part009Config "logo"
      ∧ projectLink themeConfig ≠ projectLink part009Config
      ∧ chatLink themeConfig ≠ chatLink part009Config
      ∧ getStrField themeConfig "docsRepositoryBase"
          ≠ getStrField part009Config "docsRepositoryBase"
      ∧ footerText themeConfig ≠ footerText part009Config
      ∧ themeConfig ≠ part009Config := by
  decide
